import Mathlib

set_option maxRecDepth 100000

/-!
# Spider Solitaire engine (`src/logic.js`, `src/validation.js`): shallow embedding

This file embeds the rules/state engine of the Spider solitaire repository in
Lean 4 and proves, or refutes, the frozen claims about it.  JavaScript numbers
are modelled by `Nat` (with explicit `% 2^32` where the code truncates to 32
bits) or by `Int` where a quantity may go negative; JS arrays become `List`s,
with `push`/`pop` acting on the back and `shift`/`unshift` on the front;
`Array.prototype.splice` (including its negative-start clamping) is modelled by
`jsSplice`.  The mutable module-level `state` object becomes an explicit
`GameState` value threaded through the operations.  UI hooks, audio and the
window-global history recorder do not touch the game state and are omitted.
-/

namespace Spider

/-- 2^32, the JS 32-bit truncation modulus. -/
def M32 : Nat := 4294967296

/-- One step of `mulberry32` (src/logic.js line 14).  Returns the updated
accumulator `a` together with the 32-bit output; the JS generator returns
`out / 2^32` as a float, which callers immediately scale back, so we keep the
integer `out`. -/
def mulberryNext (a : Nat) : Nat × Nat :=
  let t0 := (a + 0x6D2B79F5) % M32
  let t2 := (Nat.xor t0 (t0 >>> 15) * (t0 ||| 1)) % M32
  let t3 := Nat.xor t2 ((t2 + Nat.xor t2 (t2 >>> 7) * (t2 ||| 61) % M32) % M32)
  (t0, Nat.xor t3 (t3 >>> 14))

/-- `hashSeed` (src/logic.js line 15): FNV-1a over the UTF-16 char codes of the
seed string (all seeds used here are ASCII, so `Char.toNat` agrees with JS
`charCodeAt`). -/
def hashSeed (s : String) : Nat :=
  s.data.foldl (fun h c => (Nat.xor h c.toNat * 16777619) % M32) 2166136261

/-- Swap two positions of a list (the JS destructuring swap in `shuffle`).
Out-of-range indices leave the list unchanged up to `List.set`'s semantics;
`shuffle` only ever swaps in-range indices. -/
def listSwap [Inhabited α] (l : List α) (i j : Nat) : List α :=
  let xi := l.getD i default
  let xj := l.getD j default
  (l.set i xj).set j xi

/-- The Fisher-Yates loop of `shuffle` (src/logic.js line 16), iterating the
index `i` from `arr.length - 1` down to `1`.  `j = (rnd()*(i+1))|0` is exactly
`out * (i+1) / 2^32` because `out*(i+1) < 2^53` is exact in a JS double and
`|0` truncates toward zero. -/
def shuffleAux [Inhabited α] : List α → Nat → Nat → List α × Nat
  | arr, a, 0 => (arr, a)
  | arr, a, i + 1 =>
    let p := mulberryNext a
    let j := p.2 * (i + 2) / M32
    shuffleAux (listSwap arr (i + 1) j) p.1 i

/-- `shuffle(arr, rnd)`: shuffles the whole list, threading the RNG state. -/
def shuffleJS [Inhabited α] (arr : List α) (a : Nat) : List α × Nat :=
  shuffleAux arr a (arr.length - 1)

/-- A playing card (src/logic.js line 68).  Suits are coded 0 = spade,
1 = diamond, 2 = heart, 3 = club (the JS code uses the glyph strings and only
ever compares them for equality). -/
structure Card where
  id : Nat
  suit : Nat
  rank : Nat
  faceUp : Bool
deriving DecidableEq, Repr, Inhabited

/-- A recorded, reversible history entry (the `{t: ...}` objects pushed in
`doMove`, `dealRow` and `completeTopRun`). -/
inductive HistEntry where
  | move (frm tgt : Nat) (moved : List Card) (turned : Option Card)
  | deal (dealt : List Card)
  | complete (col : Nat) (cards : List Card) (turned : Option Card)
deriving DecidableEq, Repr

/-- The engine state (src/logic.js lines 35-40); presentation-only fields
(`message`, `hint`, timers) are omitted.  History stacks have their top at the
head (JS pushes/pops at the array's back).  `dealsRemaining`, `foundations`
and `score` are `Int` because the JS code can drive them below zero
(`undo` of a completion subtracts 100 from the score unconditionally). -/
structure GameState where
  difficulty : String
  seed : String
  rngState : Nat
  includeAces : Bool
  tableau : List (List Card)
  stock : List Card
  dealsRemaining : Int
  foundations : Int
  foundationsCards : List Card
  moves : Nat
  score : Int
  history : List HistEntry
  redoStack : List HistEntry
  won : Bool
deriving DecidableEq, Repr

/-- `createDeck` (src/logic.js lines 52-87): the per-difficulty suit list. -/
def suitsFor (diff : String) : List Nat :=
  if diff = "1-suit" then List.replicate 8 0
  else if diff = "2-suit" then List.replicate 4 0 ++ List.replicate 4 1
  else [0, 1, 2, 3, 0, 1, 2, 3]

/-- `createDeck`: 13 ranks per suit copy with sequential ids starting at 0;
if `includeAces` is false every rank-1 card is then removed (the JS loop
splices from the back, which preserves the relative order of the rest, i.e.
is a `filter`). -/
def createDeck (diff : String) (includeAces : Bool) : List Card :=
  let deck := ((suitsFor diff).enum.map (fun p =>
    (List.range 13).map (fun r =>
      { id := p.1 * 13 + r, suit := p.2, rank := r + 1, faceUp := false }))).flatten
  if includeAces then deck else deck.filter (fun c => c.rank ≠ 1)

/-- The column-index visiting order of the dealing loop in `initialDeal`
(src/logic.js lines 97-104): passes 0-4 visit columns 0-9, pass 5 visits only
columns 0-3 (`if (pass === 5 && c >= 4) continue`). -/
def slotOrder : List Nat :=
  ((List.range 6).map (fun pass =>
    (List.range 10).filterMap (fun c =>
      if pass = 5 ∧ 4 ≤ c then none else some c))).flatten

/-- The dealing loop: follow `slotOrder`, consuming one card per slot while
cards remain (`idx < remaining.length`), appending each card to its column. -/
def dealLoop : List Nat → List Card → List (List Card) → List (List Card)
  | [], _, cols => cols
  | _ :: _, [], cols => cols
  | c :: slots, card :: cards, cols =>
    dealLoop slots cards (cols.set c (cols.getD c [] ++ [card]))

/-- Flip the last card of a column face-up (the `cols[c][len-1].faceUp = true`
loop in `initialDeal`). -/
def flipLast (col : List Card) : List Card :=
  match col.getLast? with
  | none => col
  | some t => col.set (col.length - 1) { t with faceUp := true }

/-- `initialDeal(deck)` (src/logic.js lines 89-110): shuffle once more, first
50 cards to stock, rest dealt to the 10 columns, then each non-empty column's
top card is flipped face-up.  Returns (tableau, stock, rng state). -/
def initialDeal (deck : List Card) (a : Nat) :
    List (List Card) × List Card × Nat :=
  let p := shuffleJS deck a
  let stock := p.1.take 50
  let remaining := p.1.drop 50
  let cols := dealLoop slotOrder remaining (List.replicate 10 [])
  (cols.map flipLast, stock, p.2)

/-- Difficulty normalization in `newGame` (src/logic.js lines 217-219). -/
def canonDiff (d : String) : String :=
  if d = "1" ∨ d = "1-suit" then "1-suit"
  else if d = "2" ∨ d = "2-suit" then "2-suit"
  else "4-suit"

/-- `newGame({difficulty, seed, includeAces})` (src/logic.js lines 215-246).
The JS defaults read the prior `state` for `difficulty`/`includeAces` (and a
fresh random token for an omitted seed, which we require to be supplied).
It hashes `difficulty + ':' + seed`, builds the deck, shuffles it, and lets
`initialDeal` shuffle it a second time before laying it out.  It resets
every engine field *except* `state.foundationsCards`, which the JS function
never writes: the prior game's foundation cards (`fc`) survive into the new
game. -/
def newGame (difficulty seed : String) (includeAces : Bool) (fc : List Card) : GameState :=
  let diff := canonDiff difficulty
  let a0 := hashSeed (diff ++ ":" ++ seed)
  let deck := createDeck diff includeAces
  let p := shuffleJS deck a0
  let q := initialDeal p.1 p.2
  { difficulty := diff, seed := seed, rngState := q.2.2,
    includeAces := includeAces, tableau := q.1, stock := q.2.1,
    dealsRemaining := 5, foundations := 0, foundationsCards := fc,
    moves := 0, score := 500, history := [], redoStack := [], won := false }

/-- `newGame` with the JS argument defaulting: an omitted difficulty or ace
flag falls back to the prior engine state (an omitted seed would be a fresh
random token, which we require to be supplied); `state.foundationsCards` is
never cleared, so it is inherited from the prior state. -/
def newGameFrom (prior : GameState) (difficulty? : Option String)
    (seed : String) (includeAces? : Option Bool) : GameState :=
  newGame (difficulty?.getD prior.difficulty) seed (includeAces?.getD prior.includeAces)
    prior.foundationsCards

/-- The clamped start index of `Array.prototype.splice`: a negative start
counts from the end (floored at 0), a positive one is capped at the length. -/
def jsSpliceStart (len : Nat) (start : Int) : Nat :=
  if start < 0 then ((len : Int) + start).toNat else min start.toNat len

/-- `arr.splice(start, k)` : returns (removed elements, remaining array). -/
def jsSplice (l : List α) (start : Int) (k : Nat) : List α × List α :=
  let s := jsSpliceStart l.length start
  ((l.drop s).take k, l.take s ++ l.drop (s + k))

/-- `top(col)` (src/logic.js line 113): the last element, if any. -/
def topCard (col : List Card) : Option Card := col.getLast?

/-- `canDrop(tailHead, destTop)` (src/logic.js line 114). -/
def canDrop (tailHead : Card) (destTop : Option Card) : Bool :=
  match destTop with
  | none => true
  | some d => tailHead.rank + 1 == d.rank

/-- Replace the last element of a list (mutating `top(col)` in JS). -/
def setLast (col : List Card) (c : Card) : List Card :=
  col.set (col.length - 1) c

/-- `col.findIndex(c => c.id === idv)` followed by setting that card's
`faceUp` flag (the `turned` handling in `undo`/`redo`); a missing id is a
no-op (JS guards `idx >= 0`). -/
def setFaceById (col : List Card) (idv : Nat) (b : Bool) : List Card :=
  match col.findIdx? (fun c => c.id == idv) with
  | none => col
  | some i => col.set i { col.getD i default with faceUp := b }

/-- Insert into a sorted list according to a boolean comparator. -/
def insertLe (le : α → α → Bool) (x : α) : List α → List α
  | [] => [x]
  | y :: ys => if le x y then x :: y :: ys else y :: insertLe le x ys

/-- A stable insertion sort, modelling `Array.prototype.sort(cmp)`.  (Both
call sites below sort lists of distinct numbers, for which every comparison
sort produces the same result.) -/
def sortLe (le : α → α → Bool) : List α → List α
  | [] => []
  | x :: xs => insertLe le x (sortLe le xs)

/-- The inner scan of `tryComplete` (src/logic.js lines 127-148), walking
`j = i-1 .. 0` below a face-up start card.  The argument is `j+1` so that `0`
is the exhausted loop; `seq` is the JS `sequence` (in push order, last pushed
at the back) and `idxs` the JS `sequenceIndices`.  Face-down cards only push
their index; a face-up card must extend the chain by ±1 in the same suit or
the loop breaks (`none`, after which the outer loop continues).  When the
needed length is reached, the no-Aces case additionally checks that the
sorted ranks run from 2 to 13 (`isK2`); on success the collected indices are
returned for removal. -/
def innerScan (col : List Card) (ia : Bool) (suit : Nat) :
    List Card → List Nat → Nat → Option (List Nat)
  | _, _, 0 => none
  | seq, idxs, j + 1 =>
    let c := col.getD j default
    if !c.faceUp then innerScan col ia suit seq (idxs ++ [j]) j
    else
      let prev := seq.getLastD default
      let isAsc := c.suit == suit && c.rank == prev.rank + 1
      let isDesc := c.suit == suit && prev.rank == c.rank + 1
      if isAsc || isDesc then
        let seq' := seq ++ [c]
        let idxs' := idxs ++ [j]
        if (ia && seq'.length == 13) || (!ia && seq'.length == 12) then
          if !ia && seq'.length == 12 then
            let ranks := sortLe (fun a b => decide (a ≤ b)) (seq'.map Card.rank)
            if ranks.getD 0 0 == 2 && ranks.getD 11 0 == 13 then some idxs'
            else none
          else some idxs'
        else innerScan col ia suit seq' idxs' j
      else none

/-- The outer scan of `tryComplete` (src/logic.js lines 121-149), walking
`i = col.length-1 .. 0`; the argument is `i+1`.  Face-down cards are skipped
as start cards; a failed inner scan falls through to the next `i`. -/
def outerScan (col : List Card) (ia : Bool) : Nat → Option (List Nat)
  | 0 => none
  | i + 1 =>
    let c := col.getD i default
    if !c.faceUp then outerScan col ia i
    else
      match innerScan col ia c.suit [c] [i] i with
      | some idxs => some idxs
      | none => outerScan col ia i

/-- `sequenceIndices.sort((a,b)=>b-a)` followed by the splice loop
(src/logic.js lines 142-144): remove the listed indices from the column in
descending order, collecting the removed cards in that order (top of the
column first). -/
def removeIndices (col : List Card) (idxs : List Nat) : List Card × List Card :=
  (sortLe (fun a b => decide (b ≤ a)) idxs).foldl
    (fun (acc : List Card × List Card) (idx : Nat) =>
      let p := jsSplice acc.2 (idx : Int) 1
      (acc.1 ++ p.1, p.2))
    ([], col)

/-- `tryComplete(col, includeAces)` (src/logic.js lines 117-151): `none` when
no completable run is found, otherwise the removed cards together with the
remaining column. -/
def tryComplete (col : List Card) (ia : Bool) : Option (List Card × List Card) :=
  let minRank : Nat := if ia then 1 else 2
  let expectedLength := 14 - minRank
  if col.length < expectedLength then none
  else
    match outerScan col ia col.length with
    | none => none
    | some idxs => some (removeIndices col idxs)

/-- `completeTopRun(colIndex, includeAces)` (src/logic.js lines 158-173):
remove a detected run to the foundations, flip the newly exposed top card
face-up (recording it as `turned`), push a `complete` history entry and award
the +100 completion bonus. -/
def completeTopRun (s : GameState) (colIndex : Nat) : Bool × GameState :=
  let col := s.tableau.getD colIndex []
  match tryComplete col s.includeAces with
  | none => (false, s)
  | some (rem, col') =>
    let turned : Option Card :=
      match topCard col' with
      | some t => if !t.faceUp then some { t with faceUp := true } else none
      | none => none
    let col'' :=
      match turned with
      | some t => setLast col' t
      | none => col'
    (true,
      { s with
        tableau := s.tableau.set colIndex col''
        foundationsCards := s.foundationsCards ++ rem
        foundations := s.foundations + 1
        history := .complete colIndex rem turned :: s.history
        score := s.score + 100 })

/-- The `for(let c=0;c<10;c++) completeTopRun(c, ...)` loop of `dealRow`. -/
def completeAll (s : GameState) : GameState :=
  (List.range 10).foldl (fun st c => (completeTopRun st c).2) s

/-- `checkWin()` (src/logic.js lines 407-415), state part only. -/
def checkWin (s : GameState) : GameState :=
  if s.foundations == 8 then { s with won := true } else s

/-- The movable-tail validation loop of `doMove` (src/logic.js lines
291-298): check every adjacent pair `(src[i], src[i-1])` for
`i = n-1, …, startIndex+1` — both face-up, same suit, ranks descending by
exactly 1 toward the top.  The argument is the current index `i`. -/
def tailCheck (src : List Card) (startIndex : Nat) : Nat → Bool
  | 0 => true
  | i + 1 =>
    if i + 1 ≤ startIndex then true
    else
      let a := src.getD (i + 1) default
      let b := src.getD i default
      (a.faceUp && b.faceUp && a.rank + 1 == b.rank && a.suit == b.suit) &&
        tailCheck src startIndex i

/-- `doMove(from, startIndex, to)` (src/logic.js lines 286-324).  Rejections
return `(false, s)` with the state untouched; on success the tail moves, the
newly exposed source top is flipped (recorded as `turned`), a `move` entry is
pushed, the redo stack is cleared, the move counter and score penalty are
applied, then completion detection runs on the destination and source columns
and `checkWin` is evaluated. -/
def doMove (s : GameState) (frm startIndex tgt : Nat) : Bool × GameState :=
  if frm == tgt then (false, s)
  else
    let src := s.tableau.getD frm []
    let dst := s.tableau.getD tgt []
    let n := src.length
    if n ≤ startIndex then (false, s)
    else if !tailCheck src startIndex (n - 1) then (false, s)
    else
      let moved := src.drop startIndex
      if !canDrop (moved.headD default) (topCard dst) then (false, s)
      else
        let dst' := dst ++ moved
        let src' := src.take startIndex
        let turned : Option Card :=
          match topCard src' with
          | some t => if !t.faceUp then some { t with faceUp := true } else none
          | none => none
        let src'' :=
          match turned with
          | some t => setLast src' t
          | none => src'
        let s1 :=
          { s with
            tableau := (s.tableau.set frm src'').set tgt dst'
            history := .move frm tgt moved turned :: s.history
            redoStack := []
            moves := s.moves + 1
            score := max 0 (s.score - 1) }
        let s2 := (completeTopRun s1 tgt).2
        let s3 := (completeTopRun s2 frm).2
        (true, checkWin s3)

/-- The per-column dealing loop bodies of `dealRow` (src/logic.js lines
255-270): shift `n` cards off the front of the stock, flip each face-up and
push it onto successive columns starting at `c`, collecting the dealt cards.
(The JS `if(card)` guard can only fail when the stock runs dry, in which case
the remaining iterations do nothing, exactly as the `[]` case here.) -/
def dealN : GameState → Nat → Nat → List Card → GameState × List Card
  | s, _, 0, dealt => (s, dealt)
  | s, c, n + 1, dealt =>
    match s.stock with
    | [] => (s, dealt)
    | card :: rest =>
      let card' := { card with faceUp := true }
      dealN
        { s with stock := rest,
                 tableau := s.tableau.set c (s.tableau.getD c [] ++ [card']) }
        (c + 1) n (dealt ++ [card'])

/-- The final-deal loop `for(let c=0; c<state.stock.length; c++)` of
`dealRow` (src/logic.js lines 255-260): the bound re-reads the *shrinking*
stock length after every `shift()`, so the loop stops as soon as the counter
catches up with the remaining stock (dealing `⌈k/2⌉` of `k` cards).  The
`fuel` argument only bounds the recursion; it never runs out when started at
the initial stock length, because each step both consumes a card and
increments `c`. -/
def dealFinalLoop : GameState → Nat → Nat → List Card → GameState × List Card
  | s, _, 0, dealt => (s, dealt)
  | s, c, fuel + 1, dealt =>
    if c < s.stock.length then
      match s.stock with
      | [] => (s, dealt)
      | card :: rest =>
        let card' := { card with faceUp := true }
        dealFinalLoop
          { s with stock := rest,
                   tableau := s.tableau.set c (s.tableau.getD c [] ++ [card']) }
          (c + 1) fuel (dealt ++ [card'])
    else (s, dealt)

/-- `dealRow()` (src/logic.js lines 248-284). -/
def dealRow (s : GameState) : Bool × GameState :=
  if s.dealsRemaining ≤ 0 ∧ 0 < s.stock.length then (false, s)
  else if (List.range 10).any (fun c => (s.tableau.getD c []).isEmpty) then
    (false, s)
  else
    let cardsToDeal := min s.stock.length 10
    let isFinalDeal :=
      s.dealsRemaining = 1 ∧ 0 < s.stock.length ∧ s.stock.length < 10
    let p :=
      if isFinalDeal then
        let q := dealFinalLoop s 0 s.stock.length []
        ({ q.1 with dealsRemaining := 0 }, q.2)
      else
        let q := dealN s 0 cardsToDeal []
        (if cardsToDeal = 10 then
          { q.1 with dealsRemaining := q.1.dealsRemaining - 1 }
         else q.1, q.2)
    let s1 := p.1
    let s2 :=
      { s1 with
        history := .deal p.2 :: s1.history
        redoStack := []
        moves := s1.moves + 1
        score := max 0 (s1.score - 1) }
    (true, completeAll s2)

/-- `removeFromFoundations(cards)` (src/logic.js lines 153-156). -/
def removeFromFoundations (fc : List Card) (cards : List Card) : List Card :=
  fc.filter (fun c => !(cards.map Card.id).contains c.id)

/-- The reverse-order column-pop loop of `undo`'s `deal` branch
(src/logic.js lines 352-357): for `i = 9 .. 0` pop the top card of column
`i`, flip it face-down and unshift it onto the stock.  The argument is `i+1`.
(JS would throw on an empty column; that situation is unreachable in the
states we consider and is modelled as skipping the column.) -/
def undoDealLoop : GameState → Nat → GameState
  | s, 0 => s
  | s, i + 1 =>
    let col := s.tableau.getD i []
    let s' :=
      match col.getLast? with
      | none => s
      | some card =>
        { s with
          tableau := s.tableau.set i (col.dropLast)
          stock := { card with faceUp := false } :: s.stock }
    undoDealLoop s' i

/-- `undo()` (src/logic.js lines 326-365). -/
def undo (s : GameState) : GameState :=
  match s.history with
  | [] => s
  | h :: rest =>
    let s0 := { s with history := rest }
    let s1 :=
      match h with
      | .complete colIdx cards turned =>
        let col := s0.tableau.getD colIdx []
        let col' := col ++ cards
        let col'' :=
          match turned with
          | some t => setFaceById col' t.id false
          | none => col'
        { s0 with
          tableau := s0.tableau.set colIdx col''
          foundationsCards := removeFromFoundations s0.foundationsCards cards
          foundations := s0.foundations - 1
          score := s0.score - 100
          redoStack := h :: s0.redoStack }
      | .move frm tgt moved turned =>
        let colTo := s0.tableau.getD tgt []
        let colTo' := (jsSplice colTo ((colTo.length : Int) - moved.length) moved.length).2
        let sA := { s0 with tableau := s0.tableau.set tgt colTo' }
        let colFrom := sA.tableau.getD frm []
        let colFrom' := colFrom ++ moved
        let colFrom'' :=
          match turned with
          | some t => setFaceById colFrom' t.id false
          | none => colFrom'
        { sA with
          tableau := sA.tableau.set frm colFrom''
          redoStack := h :: sA.redoStack }
      | .deal _ =>
        let sA := undoDealLoop s0 10
        { sA with
          dealsRemaining := sA.dealsRemaining + 1
          redoStack := h :: sA.redoStack }
    { s1 with moves := s1.moves + 1 }

/-- The `for(let c=0;c<10;c++)` re-dealing loop of `redo`'s `deal` branch
(src/logic.js lines 393-397): shift a card off the stock, flip it face-up and
push it onto column `c`.  (JS would throw on an empty stock; unreachable in
the states we consider, modelled as a skip.) -/
def redoDealLoop : GameState → Nat → Nat → GameState
  | s, _, 0 => s
  | s, c, n + 1 =>
    let s' :=
      match s.stock with
      | [] => s
      | card :: rest =>
        { s with
          stock := rest
          tableau := s.tableau.set c
            (s.tableau.getD c [] ++ [{ card with faceUp := true }]) }
    redoDealLoop s' (c + 1) n

/-- `redo()` (src/logic.js lines 367-405).  Note the `complete` branch
splices a hard-coded 13 cards off the column (`col.splice(col.length-13,13)`)
regardless of how many cards the entry actually holds. -/
def redo (s : GameState) : GameState :=
  match s.redoStack with
  | [] => s
  | h :: rest =>
    let s0 := { s with redoStack := rest }
    let s1 :=
      match h with
      | .complete colIdx cards turned =>
        let col := s0.tableau.getD colIdx []
        let col' := (jsSplice col ((col.length : Int) - 13) 13).2
        let col'' :=
          match turned with
          | some t => setFaceById col' t.id true
          | none => col'
        { s0 with
          tableau := s0.tableau.set colIdx col''
          foundationsCards := s0.foundationsCards ++ cards
          foundations := s0.foundations + 1
          score := s0.score + 100
          history := h :: s0.history }
      | .move frm tgt moved turned =>
        let colFrom := s0.tableau.getD frm []
        let colFrom' := (jsSplice colFrom ((colFrom.length : Int) - moved.length) moved.length).2
        let colFrom'' :=
          match turned with
          | some t => setFaceById colFrom' t.id true
          | none => colFrom'
        let sA := { s0 with tableau := s0.tableau.set frm colFrom'' }
        let colTo := sA.tableau.getD tgt []
        { sA with
          tableau := sA.tableau.set tgt (colTo ++ moved)
          history := h :: sA.history }
      | .deal _ =>
        let sA := redoDealLoop s0 0 10
        { sA with
          dealsRemaining := sA.dealsRemaining - 1
          history := h :: sA.history }
    { s1 with moves := s1.moves + 1 }

/-- Total number of cards across the three containers. -/
def cardTotal (s : GameState) : Nat :=
  (s.tableau.map List.length).sum + s.stock.length + s.foundationsCards.length

/-! ## Inventory verification (`src/validation.js`, the `verifyInventory`
imported by `renderUI.js`; the older copy in `src/logic.js` is shadowed) -/

/-- Bump a counter object key (`m[k] = (m[k] || 0) + 1`): JS objects keep
keys in insertion order, modelled by an association list that appends new
keys at the back. -/
def bumpCount : List (Nat × Nat) → Nat → List (Nat × Nat)
  | [], k => [(k, 1)]
  | (k', v) :: r, k => if k' = k then (k', v + 1) :: r else (k', v) :: bumpCount r k

/-- `m[k] || 0` on a counter object. -/
def lookupCount : List (Nat × Nat) → Nat → Nat
  | [], _ => 0
  | (k', v) :: r, k => if k' = k then v else lookupCount r k

/-- The accumulator built by `place(card, where)` in `verifyInventory`
(src/validation.js): the `seen` id set, duplicate ids, the four counters and
the suit/rank distribution objects.  Locations are coded 0 = tableau,
1 = stock, 2 = foundations. -/
structure InvAcc where
  seen : List Nat
  duplicates : List Nat
  total : Nat
  tCount : Nat
  sCount : Nat
  fCount : Nat
  suitCounts : List (Nat × Nat)
  rankCounts : List (Nat × Nat)
deriving DecidableEq, Repr

/-- `place(card, where)` from src/validation.js. -/
def invPlace (acc : InvAcc) (c : Card) (loc : Nat) : InvAcc :=
  let acc :=
    if acc.seen.contains c.id then
      { acc with duplicates := acc.duplicates ++ [c.id] }
    else { acc with seen := acc.seen ++ [c.id] }
  { acc with
    total := acc.total + 1
    tCount := if loc == 0 then acc.tCount + 1 else acc.tCount
    sCount := if loc == 1 then acc.sCount + 1 else acc.sCount
    fCount := if loc == 2 then acc.fCount + 1 else acc.fCount
    suitCounts := bumpCount acc.suitCounts c.suit
    rankCounts := bumpCount acc.rankCounts c.rank }

/-- The result record of `verifyInventory` (notes are presentation-only and
omitted; issue strings are abbreviated to fixed tags, pushed under exactly
the conditions of src/validation.js). -/
structure InventoryReport where
  ok : Bool
  duplicates : List Nat
  missing : List Nat
  total : Nat
  tableauCount : Nat
  stockCount : Nat
  foundationsCount : Nat
  expectedTotal : Nat
  includeAces : Bool
  issues : List String
deriving DecidableEq, Repr

/-- `verifyInventory()` from src/validation.js (the version actually imported
by the UI): recompute all counts from scratch and report every failed
invariant as an issue; `ok` iff no issues. -/
def verifyInventory (s : GameState) : InventoryReport :=
  let acc0 : InvAcc := ⟨[], [], 0, 0, 0, 0, [], []⟩
  let acc1 := s.tableau.foldl (fun a col => col.foldl (fun a c => invPlace a c 0) a) acc0
  let acc2 := s.stock.foldl (fun a c => invPlace a c 1) acc1
  let acc := s.foundationsCards.foldl (fun a c => invPlace a c 2) acc2
  let includeAces := s.includeAces
  let expectedTotal : Nat := if includeAces then 104 else 96
  let runLen : Int := if includeAces then 13 else 12
  let diff := if s.difficulty = "1" then "1-suit"
              else if s.difficulty = "2" then "2-suit"
              else s.difficulty
  let suitKeys := acc.suitCounts.map Prod.fst
  let perSuit1 : Nat := if includeAces then 8 * 13 else 8 * 12
  let perSuit2 : Nat := if includeAces then 4 * 13 else 4 * 12
  let perSuit4 : Nat := if includeAces then 2 * 13 else 2 * 12
  let issues : List String :=
    (if acc.total ≠ expectedTotal then ["total"] else []) ++
    (if 0 < acc.duplicates.length then ["duplicate-ids"] else []) ++
    (if diff = "1-suit" then
      (if suitKeys.length ≠ 1 then ["suit-key-count"]
       else if lookupCount acc.suitCounts (suitKeys.getD 0 0) ≠ perSuit1 then
         ["suit-distribution"]
       else [])
     else if diff = "2-suit" then
      (if suitKeys.length ≠ 2 then ["suit-key-count"]
       else if !(suitKeys.all (fun k => lookupCount acc.suitCounts k == perSuit2)) then
         ["suit-distribution"]
       else [])
     else
      (if suitKeys.length ≠ 4 then ["suit-key-count"]
       else if !(suitKeys.all (fun k => lookupCount acc.suitCounts k == perSuit4)) then
         ["suit-distribution"]
       else [])) ++
    ((List.range 12).filterMap (fun k =>
      if lookupCount acc.rankCounts (k + 2) ≠ 8 then some "rank-count" else none)) ++
    (if (if includeAces then lookupCount acc.rankCounts 1 ≠ 8
         else lookupCount acc.rankCounts 1 ≠ 0) then ["ace-count"] else []) ++
    (if s.dealsRemaining ≠ ((acc.sCount + 9) / 10 : Nat) then ["deals-remaining"] else []) ++
    (if (acc.fCount : Int) ≠ s.foundations * runLen then ["foundations-size"] else []) ++
    (s.tableau.filterMap (fun col =>
      match col.getLast? with
      | some t => if !t.faceUp then some "face-down-top" else none
      | none => none))
  { ok := issues.isEmpty
    duplicates := acc.duplicates
    missing := []
    total := acc.total
    tableauCount := acc.tCount
    stockCount := acc.sCount
    foundationsCount := acc.fCount
    expectedTotal := expectedTotal
    includeAces := includeAces
    issues := issues }

/-! ## Concrete game runs used by the claim analyses -/

/-- An arbitrary prior engine state; `newGame` ignores the prior state when
all arguments are supplied. -/
def initState : GameState :=
  ⟨"4-suit", "", 0, true, [], [], 0, 0, [], 0, 0, [], [], false⟩

/-- Fold a list of `(from, startIndex, to)` triples through `doMove`,
remembering whether every single move was accepted. -/
def runMoves (s : GameState) (ops : List (Nat × Nat × Nat)) : Bool × GameState :=
  ops.foldl
    (fun acc m =>
      let p := doMove acc.2 m.1 m.2.1 m.2.2
      (acc.1 && p.1, p.2))
    (true, s)

/-- The 1-suit game with seed "s2", Aces excluded (the engine default). -/
def gameS2 : GameState := newGameFrom initState (some "1-suit") "s2" (some false)

/-- Eleven legal moves on `gameS2` that assemble K♠..3♠ on column 0 with the
2♠ exposed on column 8; every move returns `true` and no run completes yet
(checked in `reachS2_facts`). -/
def movesS2 : List (Nat × Nat × Nat) :=
  [(4,4,8),(3,4,7),(6,3,7),(7,3,3),(7,2,8),(3,3,4),(4,3,8),(8,3,6),(6,2,3),(8,2,7),(3,2,8)]

/-- The reachable position one legal move away from completing a spade run. -/
def preS2 : GameState := (runMoves gameS2 movesS2).2

/-- `preS2` after `doMove(8, 1, 0)`: the move succeeds and the completed
K♠..2♠ run is removed from column 0 (foundations = 1).  Its history gained
two entries: the `move` and the `complete`. -/
def postS2 : GameState := (doMove preS2 8 1 0).2

/-- The concrete line is genuinely reachable play: every move of `movesS2`
is accepted, no completion fires before the last move, and `doMove(8,1,0)`
is accepted and completes exactly one run, recording a `move` entry and a
`complete` entry. -/
theorem reachS2_facts :
    (runMoves gameS2 movesS2).1 = true ∧
    preS2.foundations = 0 ∧ preS2.history.length = 11 ∧
    (doMove preS2 8 1 0).1 = true ∧
    postS2.foundations = 1 ∧ postS2.history.length = 13 := by decide

/-- The 1-suit game with seed "test1", Aces excluded. -/
def gameTest1 : GameState := newGameFrom initState (some "1-suit") "test1" (some false)

/-- `gameTest1` after the legal move `doMove(1, 4, 4)` (4♠ onto 5♠). -/
def moveT1 : GameState := (doMove gameTest1 1 4 4).2

/-! ## The claims -/

/-- **C1** (code bug).  Undo is *not* an exact inverse on this reachable
state: `doMove(8,1,0)` on `preS2` records two history entries (the `move`
and the `complete` it triggers), but undoing both does not restore `preS2`.
The `complete` branch of `undo` pushes the removed cards back in the order
`tryComplete` collected them — top of the column first — which writes the
K♠..2♠ run back *reversed*: column 0 held ranks `[4,4,7,8,13]` under the run
before the move, and after the two undos its top card is the 2♠ instead of
the K♠. -/
theorem C1_undo_not_exact_inverse :
    (doMove preS2 8 1 0).1 = true ∧
    postS2.history.length = preS2.history.length + 2 ∧
    ((preS2.tableau.getD 0 []).map Card.rank = [4, 4, 7, 8, 13]) ∧
    (((undo (undo postS2)).tableau.getD 0 []).map Card.rank = [4, 4, 7, 8, 2]) ∧
    (undo (undo postS2)).tableau ≠ preS2.tableau := by decide

/-- **C3** (counterexample).  `redo()` immediately after `undo()` does not
restore the state as it was before the undo: starting from the reachable
`moveT1` (one legal move into seed "test1"), the move counter goes
1 → 2 (undo) → 3 (redo) — both operations *increment* `moves`, so the
counter is not restored. -/
theorem C3_cex_moves_not_restored :
    (doMove gameTest1 1 4 4).1 = true ∧
    moveT1.moves = 1 ∧ (redo (undo moveT1)).moves = 3 ∧
    (redo (undo moveT1)).moves ≠ moveT1.moves := by decide

/-- **C4** (code bug).  Card conservation fails on a reachable state: the
fresh game `gameS2` has 96 cards, the reachable `postS2` (12 legal moves, one
completed run) still has 96, but undoing the completion and then redoing it
leaves 95 — `redo`'s `complete` branch splices a hard-coded 13 cards off the
column while the no-Aces run it re-removes holds only 12 cards, so one card
beneath the run vanishes from the tableau without reaching the foundations. -/
theorem C4_conservation_violated :
    cardTotal gameS2 = 96 ∧ cardTotal postS2 = 96 ∧
    cardTotal (redo (undo postS2)) = 95 := by decide

/-- **C6** (counterexample).  Under the default configuration
(`includeAces = false`, so a 96-card deck), the 1-suit game with seed
"test1" does *not* deal columns of lengths 6,6,6,6,5,…,5: the tableau
receives only 46 cards and the columns have lengths 5,5,5,5,5,5,4,4,4,4. -/
theorem C6_cex_layout :
    gameTest1.tableau.map List.length = [5, 5, 5, 5, 5, 5, 4, 4, 4, 4] ∧
    gameTest1.tableau.map List.length ≠ [6, 6, 6, 6, 5, 5, 5, 5, 5, 5] := by decide

/-- A 13-card column: a face-up contiguous K♠..2♠ run with one face-down
card interleaved between the 8♠ and the 7♠ (inside `tryComplete`'s scan
window). -/
def interCol : List Card :=
  [⟨0, 0, 13, true⟩, ⟨1, 0, 12, true⟩, ⟨2, 0, 11, true⟩, ⟨3, 0, 10, true⟩,
   ⟨4, 0, 9, true⟩, ⟨5, 0, 8, true⟩,
   ⟨100, 0, 5, false⟩,
   ⟨6, 0, 7, true⟩, ⟨7, 0, 6, true⟩, ⟨8, 0, 5, true⟩, ⟨9, 0, 4, true⟩,
   ⟨10, 0, 3, true⟩, ⟨11, 0, 2, true⟩]

/-- **C2** (counterexample).  On a column with a face-down card interleaved
beneath the face-up K..2 run, `tryComplete` does *not* leave the face-down
card in the column: it removes all 13 cards (the 12 run cards *and* the
face-down card, in top-first collection order), leaving the column empty. -/
theorem C2_cex_facedown_removed :
    tryComplete interCol false =
      some ([⟨11, 0, 2, true⟩, ⟨10, 0, 3, true⟩, ⟨9, 0, 4, true⟩,
             ⟨8, 0, 5, true⟩, ⟨7, 0, 6, true⟩, ⟨6, 0, 7, true⟩,
             ⟨100, 0, 5, false⟩,
             ⟨5, 0, 8, true⟩, ⟨4, 0, 9, true⟩, ⟨3, 0, 10, true⟩,
             ⟨2, 0, 11, true⟩, ⟨1, 0, 12, true⟩, ⟨0, 0, 13, true⟩], []) := by
  decide

/-- A prior engine state carrying one stale foundation card (as after a
game in which a run was completed). -/
def stalePrior : GameState :=
  { initState with foundationsCards := [⟨1, 0, 2, false⟩] }

/-- **C8** (counterexample).  Two `newGame` runs with identical
(difficulty, seed, includeAces) arguments do *not* always produce identical
`GameState`s: `newGame` (src/logic.js lines 215-246) never writes
`state.foundationsCards`, so the prior game's foundation cards survive — the
run from `stalePrior` keeps its stale card while the run from the pristine
`initState` has none. -/
theorem C8_cex_prior_leaks :
    (newGameFrom stalePrior (some "1-suit") "s2" (some false)).foundationsCards =
      [⟨1, 0, 2, false⟩] ∧
    (newGameFrom initState (some "1-suit") "s2" (some false)).foundationsCards = [] ∧
    newGameFrom stalePrior (some "1-suit") "s2" (some false) ≠
      newGameFrom initState (some "1-suit") "s2" (some false) := by
  refine ⟨rfl, rfl, fun h => ?_⟩
  have h2 : ([⟨1, 0, 2, false⟩] : List Card) = [] :=
    congrArg GameState.foundationsCards h
  exact absurd h2 (by decide)

/-- **C8** (amended, proved).  Seed-driven determinism holds for everything
the shuffle produces: two `newGame` runs with identical (difficulty, seed,
includeAces) arguments — from arbitrarily different prior states — agree on
every field except `foundationsCards` (same cards in the same order in every
tableau column and in the stock, same difficulty, seed, RNG state, counters,
score and stacks); `foundationsCards` alone is inherited unchanged from each
run's own prior state, because `newGame` never clears it. -/
theorem C8_newGame_deterministic (s1 s2 : GameState) (d seed : String) (ia : Bool) :
    (newGameFrom s1 (some d) seed (some ia) =
      { newGameFrom s2 (some d) seed (some ia) with
        foundationsCards := s1.foundationsCards }) ∧
    (newGameFrom s1 (some d) seed (some ia)).foundationsCards = s1.foundationsCards ∧
    (newGameFrom s1 (some d) seed (some ia)).tableau =
      (newGameFrom s2 (some d) seed (some ia)).tableau ∧
    (newGameFrom s1 (some d) seed (some ia)).stock =
      (newGameFrom s2 (some d) seed (some ia)).stock :=
  ⟨rfl, rfl, rfl, rfl⟩

/-- Every rejection path of `doMove` returns the pair `(false, s)` with the
input state untouched; the only other exit returns `true`. -/
theorem doMove_false_or_true (s : GameState) (frm startIndex tgt : Nat) :
    (doMove s frm startIndex tgt).1 = true ∨ doMove s frm startIndex tgt = (false, s) := by
  unfold doMove
  dsimp only
  split
  · exact Or.inr rfl
  · split
    · exact Or.inr rfl
    · split
      · exact Or.inr rfl
      · split
        · exact Or.inr rfl
        · exact Or.inl rfl

/-- Every rejection path of `dealRow` returns `(false, s)` untouched; the
only other exit returns `true`. -/
theorem dealRow_false_or_true (s : GameState) :
    (dealRow s).1 = true ∨ dealRow s = (false, s) := by
  unfold dealRow
  dsimp only
  split
  · exact Or.inr rfl
  · split
    · exact Or.inr rfl
    · exact Or.inl rfl

/-- **C7** (confirmed).  Rejected operations are pure no-ops: whenever
`doMove` or `dealRow` returns `false` — for any state and any arguments —
the returned state is exactly the input state: tableau, stock,
dealsRemaining, foundations, score, move counter, history and redo stacks
all keep their prior values (the engine validates before mutating). -/
theorem C7_rejected_ops_no_op (s : GameState) (frm startIndex tgt : Nat) :
    ((doMove s frm startIndex tgt).1 = false → (doMove s frm startIndex tgt).2 = s) ∧
    ((dealRow s).1 = false → (dealRow s).2 = s) := by
  constructor
  · intro h
    rcases doMove_false_or_true s frm startIndex tgt with h1 | h1
    · rw [h] at h1; exact absurd h1 (by simp)
    · rw [h1]
  · intro h
    rcases dealRow_false_or_true s with h1 | h1
    · rw [h] at h1; exact absurd h1 (by simp)
    · rw [h1]

/-- Witness for C7: on `initState` (whose tableau is empty), `doMove 0 0 0`
is rejected (`from == to`) and `dealRow` is rejected (empty column), and both
leave the state unchanged. -/
theorem C7_witness :
    (doMove initState 0 0 0).1 = false ∧ (doMove initState 0 0 0).2 = initState ∧
    (dealRow initState).1 = false ∧ (dealRow initState).2 = initState :=
  ⟨by decide, (C7_rejected_ops_no_op initState 0 0 0).1 (by decide),
   by decide, (C7_rejected_ops_no_op initState 0 0 0).2 (by decide)⟩

/-- The movable-tail loop test agrees with the pairwise suffix property of
the claim: `tailCheck src st i` holds iff every adjacent pair
`(src[k], src[k-1])` with `st < k ≤ i` is face-up, same-suit and
descending-by-one toward the top. -/
theorem tailCheck_iff (src : List Card) (st : Nat) :
    ∀ i, tailCheck src st i = true ↔
      ∀ k, st < k → k ≤ i →
        ((src.getD k default).faceUp = true ∧ (src.getD (k-1) default).faceUp = true ∧
         (src.getD k default).rank + 1 = (src.getD (k-1) default).rank ∧
         (src.getD k default).suit = (src.getD (k-1) default).suit)
  | 0 => by
    unfold tailCheck
    constructor
    · intro _ k hk1 hk2
      exact absurd hk2 (by omega)
    · intro _; rfl
  | i + 1 => by
    unfold tailCheck
    by_cases hle : i + 1 ≤ st
    · simp only [if_pos hle, true_iff]
      intro k hk1 hk2
      exact absurd hk1 (by omega)
    · simp only [if_neg hle, Bool.and_eq_true, beq_iff_eq]
      rw [tailCheck_iff src st i]
      constructor
      · intro h k hk1 hk2
        rcases Nat.lt_or_ge k (i + 1) with hlt | hge
        · exact h.2 k hk1 (by omega)
        · have hk : k = i + 1 := by omega
          rw [hk]
          simp only [Nat.add_sub_cancel]
          obtain ⟨⟨⟨h1, h2⟩, h3⟩, h4⟩ := h.1
          exact ⟨h1, h2, h3, h4⟩
      · intro hall
        constructor
        · have h := hall (i + 1) (by omega) (le_refl _)
          simp only [Nat.add_sub_cancel] at h
          obtain ⟨h1, h2, h3, h4⟩ := h
          exact ⟨⟨⟨h1, h2⟩, h3⟩, h4⟩
        · exact fun k hk1 hk2 => hall k hk1 (by omega)

/-- **C5** (confirmed).  `doMove` legality, as an equivalence over every
state and all arguments: `doMove(from, startIndex, to)` returns `true` iff
`from ≠ to`, `startIndex` is in range of the source column, every adjacent
pair of the suffix `[startIndex..end)` is face-up, same-suit and descending
by exactly 1 toward the top, and the destination column is empty or its top
card's rank is the head card's rank + 1 (suit-agnostic). -/
theorem C5_doMove_legality (s : GameState) (frm startIndex tgt : Nat) :
    (doMove s frm startIndex tgt).1 = true ↔
      (frm ≠ tgt ∧
       startIndex < (s.tableau.getD frm []).length ∧
       (∀ i, startIndex < i → i < (s.tableau.getD frm []).length →
         (((s.tableau.getD frm []).getD i default).faceUp = true ∧
          ((s.tableau.getD frm []).getD (i-1) default).faceUp = true ∧
          ((s.tableau.getD frm []).getD i default).rank + 1 =
            ((s.tableau.getD frm []).getD (i-1) default).rank ∧
          ((s.tableau.getD frm []).getD i default).suit =
            ((s.tableau.getD frm []).getD (i-1) default).suit)) ∧
       (s.tableau.getD tgt [] = [] ∨
         ((s.tableau.getD frm []).getD startIndex default).rank + 1 =
           ((s.tableau.getD tgt []).getLastD default).rank)) := by
  unfold doMove
  dsimp only
  split
  · rename_i hft
    simp only [beq_iff_eq] at hft
    simp [hft]
  · rename_i hft
    simp only [beq_iff_eq] at hft
    split
    · rename_i hn
      constructor
      · intro h; exact absurd h (by simp)
      · rintro ⟨-, h2, -⟩; omega
    · rename_i hn
      push_neg at hn
      have hhead : (List.drop startIndex (s.tableau.getD frm [])).headD default =
          (s.tableau.getD frm []).getD startIndex default := by
        rw [List.drop_eq_getElem_cons hn, List.getD_eq_getElem _ _ hn]
        rfl
      split
      · rename_i htail
        simp only [Bool.not_eq_true'] at htail
        constructor
        · intro h; exact absurd h (by simp)
        · rintro ⟨-, -, h3, -⟩
          have h' := (tailCheck_iff (s.tableau.getD frm []) startIndex
            ((s.tableau.getD frm []).length - 1)).mpr
            (fun k hk1 hk2 => h3 k hk1 (by omega))
          rw [htail] at h'
          exact absurd h' (by simp)
      · rename_i htail
        simp only [Bool.not_eq_true', Bool.not_eq_false] at htail
        have htail' := (tailCheck_iff (s.tableau.getD frm []) startIndex
          ((s.tableau.getD frm []).length - 1)).mp htail
        split
        · rename_i hdrop
          simp only [Bool.not_eq_true'] at hdrop
          rw [hhead] at hdrop
          unfold canDrop at hdrop
          rw [topCard] at hdrop
          constructor
          · intro h; exact absurd h (by simp)
          · rintro ⟨-, -, -, h4⟩
            rcases h4 with h4 | h4
            · rw [h4] at hdrop
              simp at hdrop
            · cases hlast : (s.tableau.getD tgt []).getLast? with
              | none =>
                rw [hlast] at hdrop
                simp at hdrop
              | some d =>
                rw [List.getLastD_eq_getLast?, hlast, Option.getD_some] at h4
                rw [hlast] at hdrop
                have hdrop' : ((((s.tableau.getD frm []).getD startIndex default).rank + 1 : Nat)
                    == d.rank) = false := hdrop
                rw [h4] at hdrop'
                simp at hdrop'
        · rename_i hdrop
          simp only [Bool.not_eq_true', Bool.not_eq_false] at hdrop
          rw [hhead] at hdrop
          unfold canDrop at hdrop
          rw [topCard] at hdrop
          constructor
          · intro _
            refine ⟨hft, hn, fun i h1 h2 => htail' i h1 (by omega), ?_⟩
            cases hlast : (s.tableau.getD tgt []).getLast? with
            | none => exact Or.inl (List.getLast?_eq_none_iff.mp hlast)
            | some d =>
              rw [hlast] at hdrop
              have hdrop' : ((((s.tableau.getD frm []).getD startIndex default).rank + 1 : Nat)
                  == d.rank) = true := hdrop
              right
              rw [List.getLastD_eq_getLast?, hlast, Option.getD_some]
              exact beq_iff_eq.mp hdrop'
          · intro _; rfl

/-- A `completeTopRun` call that finds no run leaves the state unchanged. -/
theorem completeTopRun_none (st : GameState) (c : Nat)
    (h : tryComplete (st.tableau.getD c []) st.includeAces = none) :
    (completeTopRun st c).2 = st := by
  unfold completeTopRun
  dsimp only
  rw [h]

/-- `completeTopRun` never touches the redo stack, the move counter or the
stock, whether or not a run completes. -/
theorem completeTopRun_preserves (st : GameState) (c : Nat) :
    (completeTopRun st c).2.redoStack = st.redoStack ∧
    (completeTopRun st c).2.moves = st.moves ∧
    (completeTopRun st c).2.stock = st.stock := by
  unfold completeTopRun
  dsimp only
  cases tryComplete (st.tableau.getD c []) st.includeAces with
  | none => exact ⟨rfl, rfl, rfl⟩
  | some p =>
    obtain ⟨rem, col'⟩ := p
    exact ⟨rfl, rfl, rfl⟩

/-- The completion sweep after a deal is the identity when no column holds a
completable run. -/
theorem completeAll_none (st : GameState)
    (h : ∀ c ∈ List.range 10, tryComplete (st.tableau.getD c []) st.includeAces = none) :
    completeAll st = st := by
  unfold completeAll
  have haux : ∀ l : List Nat,
      (∀ c ∈ l, tryComplete (st.tableau.getD c []) st.includeAces = none) →
      l.foldl (fun x c => (completeTopRun x c).2) st = st := by
    intro l
    induction l with
    | nil => intro _; rfl
    | cons c cs ih =>
      intro hl
      rw [List.foldl_cons, completeTopRun_none st c (hl c (by simp))]
      exact ih (fun d hd => hl d (by simp [hd]))
  exact haux _ h

/-- The completion sweep preserves the redo stack, move counter and stock. -/
theorem completeAll_preserves (st : GameState) :
    (completeAll st).redoStack = st.redoStack ∧
    (completeAll st).moves = st.moves ∧
    (completeAll st).stock = st.stock := by
  unfold completeAll
  generalize List.range 10 = l
  induction l generalizing st with
  | nil => exact ⟨rfl, rfl, rfl⟩
  | cons c cs ih =>
    rw [List.foldl_cons]
    obtain ⟨h1, h2, h3⟩ := ih ((completeTopRun st c).2)
    obtain ⟨g1, g2, g3⟩ := completeTopRun_preserves st c
    exact ⟨h1.trans g1, h2.trans g2, h3.trans g3⟩

/-- **C10** (confirmed).  A `dealRow()` on a state with an empty stock and
all ten tableau columns non-empty is *not* rejected: it returns `true`,
deals zero cards (the stock stays empty), clears the redo stack, increments
the move counter, and — provided the completion sweep finds nothing, as it
cannot change what was already swept — pushes a `deal` entry with an empty
`dealt` list and applies the per-move score penalty, leaving everything else
unchanged. -/
theorem C10_empty_stock_dealRow (s : GameState)
    (hstock : s.stock = [])
    (hcols : ∀ c ∈ List.range 10, s.tableau.getD c [] ≠ []) :
    (dealRow s).1 = true ∧
    (dealRow s).2.redoStack = [] ∧
    (dealRow s).2.moves = s.moves + 1 ∧
    (dealRow s).2.stock = [] ∧
    ((∀ c ∈ List.range 10, tryComplete (s.tableau.getD c []) s.includeAces = none) →
      (dealRow s).2 =
        { s with history := .deal [] :: s.history, redoStack := [],
                 moves := s.moves + 1, score := max 0 (s.score - 1) }) := by
  have hguard1 : ¬(s.dealsRemaining ≤ 0 ∧ 0 < s.stock.length) := by
    rw [hstock]; simp
  have hguard2 : ¬(((List.range 10).any fun c => (s.tableau.getD c []).isEmpty) = true) := by
    rw [Bool.not_eq_true, List.any_eq_false]
    intro c hc
    simpa [List.isEmpty_iff] using hcols c hc
  have hfinal : ¬(s.dealsRemaining = 1 ∧ 0 < s.stock.length ∧ s.stock.length < 10) := by
    rw [hstock]; simp
  have h10 : ¬(min s.stock.length 10 = 10) := by rw [hstock]; decide
  have hdeal : dealN s 0 (min s.stock.length 10) [] = (s, []) := by rw [hstock]; rfl
  have hfst : (dealRow s).1 = true := by
    unfold dealRow
    rw [if_neg hguard1, if_neg hguard2]
  have hsnd : (dealRow s).2 =
      completeAll
        { s with history := .deal [] :: s.history, redoStack := [],
                 moves := s.moves + 1, score := max 0 (s.score - 1) } := by
    unfold dealRow
    rw [if_neg hguard1, if_neg hguard2]
    dsimp only
    rw [if_neg hfinal]
    dsimp only
    rw [if_neg h10]
    rw [hdeal]
  obtain ⟨hp1, hp2, hp3⟩ := completeAll_preserves
    { s with history := .deal [] :: s.history, redoStack := [],
             moves := s.moves + 1, score := max 0 (s.score - 1) }
  refine ⟨hfst, ?_, ?_, ?_, fun hnoc => ?_⟩
  · rw [hsnd, hp1]
  · rw [hsnd, hp2]
  · rw [hsnd, hp3]; exact hstock
  · rw [hsnd]
    exact completeAll_none _ (fun c hc => hnoc c hc)

/-- A concrete state for the C10 witness: empty stock, ten singleton face-up
columns, no deals remaining. -/
def dealW : GameState :=
  { difficulty := "1-suit", seed := "w", rngState := 0, includeAces := false,
    tableau := (List.range 10).map (fun i => [⟨i, 0, 5, true⟩]),
    stock := [], dealsRemaining := 0, foundations := 0, foundationsCards := [],
    moves := 7, score := 400, history := [], redoStack := [], won := false }

/-- Witness for C10 at `dealW`: the empty-stock deal is accepted, deals
nothing, records `deal []`, and applies the bookkeeping. -/
theorem C10_witness :
    (dealRow dealW).1 = true ∧
    (dealRow dealW).2 =
      { dealW with history := [HistEntry.deal []], moves := 8, score := 399 } := by
  have h := C10_empty_stock_dealRow dealW rfl (by decide)
  refine ⟨h.1, ?_⟩
  rw [h.2.2.2.2 (by decide)]
  rfl

/-! ## Shuffle permutation and initial-deal layout lemmas -/

/-- Setting a position to the element already there is the identity. -/
theorem set_getD_self [Inhabited α] (l : List α) (i : Nat) (hi : i < l.length) :
    l.set i (l.getD i default) = l := by
  apply List.ext_getElem (by simp)
  intro k h1 h2
  rw [List.getElem_set]
  split
  · rename_i he
    subst he
    rw [List.getD_eq_getElem _ _ hi]
  · rfl

/-- The two-`set` exchange of distinct in-range positions permutes the list. -/
theorem set_set_perm [Inhabited α] (l : List α) (p q : Nat)
    (hpq : p < q) (hq : q < l.length) :
    ((l.set p (l.getD q default)).set q (l.getD p default)).Perm l := by
  have hp : p < l.length := hpq.trans hq
  rw [List.getD_eq_getElem _ _ hp, List.getD_eq_getElem _ _ hq]
  have h1 : l.set p l[q] = List.take p l ++ l[q] :: List.drop (p+1) l := by
    rw [List.set_eq_take_append_cons_drop, if_pos hp]
  have hA : (List.take p l).length = p := by rw [List.length_take]; omega
  rw [h1, List.set_append, if_neg (by omega), hA]
  have hq2 : q - p = (q - p - 1) + 1 := by omega
  rw [hq2]
  show (List.take p l ++ l[q] :: (List.drop (p+1) l).set (q - p - 1) l[p]).Perm l
  have hdlen : (q - p - 1) < (List.drop (p+1) l).length := by
    rw [List.length_drop]; omega
  have h2 : (List.drop (p+1) l).set (q - p - 1) l[p] =
      List.take (q - p - 1) (List.drop (p+1) l) ++ l[p] ::
        List.drop (q - p) (List.drop (p+1) l) := by
    rw [List.set_eq_take_append_cons_drop, if_pos hdlen]
    have harith0 : q - p - 1 + 1 = q - p := by omega
    rw [harith0]
  have h3 : List.drop (q - p) (List.drop (p+1) l) = List.drop (q+1) l := by
    rw [List.drop_drop]
    have harith : p + 1 + (q - p) = q + 1 := by omega
    rw [harith]
  have h4 : List.drop (p+1) l =
      List.take (q - p - 1) (List.drop (p+1) l) ++ l[q] :: List.drop (q+1) l := by
    conv_lhs => rw [← List.take_append_drop (q - p - 1) (List.drop (p+1) l)]
    congr 1
    have h5 : List.drop (q - p - 1) (List.drop (p+1) l) = List.drop q l := by
      rw [List.drop_drop]
      have harith : p + 1 + (q - p - 1) = q := by omega
      rw [harith]
    rw [h5, List.drop_eq_getElem_cons hq]
  rw [h2, h3]
  conv_rhs => rw [← List.take_append_drop p l, List.drop_eq_getElem_cons hp, h4]
  apply List.Perm.append_left
  refine List.Perm.trans (List.Perm.cons _ List.perm_middle) ?_
  refine List.Perm.trans (List.Perm.swap _ _ _) ?_
  exact List.Perm.cons _ List.perm_middle.symm

/-- The JS destructuring swap permutes the list when both indices are in
range. -/
theorem listSwap_perm [Inhabited α] (l : List α) (i j : Nat)
    (hi : i < l.length) (hj : j < l.length) : (listSwap l i j).Perm l := by
  unfold listSwap
  dsimp only
  rcases Nat.lt_trichotomy i j with hij | hij | hij
  · exact set_set_perm l i j hij hj
  · subst hij
    rw [List.set_set, set_getD_self l i hi]
  · rw [List.set_comm _ _ _ (by omega)]
    exact set_set_perm l j i hij hi

theorem xor_lt_M32 {a b : Nat} (ha : a < M32) (hb : b < M32) : Nat.xor a b < M32 := by
  have h32 : M32 = 2^32 := by norm_num [M32]
  rw [h32] at ha hb ⊢
  exact Nat.xor_lt_two_pow ha hb

theorem xor_shift_lt {t : Nat} (ht : t < M32) (k : Nat) : Nat.xor t (t >>> k) < M32 :=
  xor_lt_M32 ht (lt_of_le_of_lt
    (by rw [Nat.shiftRight_eq_div_pow]; exact Nat.div_le_self _ _) ht)

theorem mod_M32_lt (x : Nat) : x % M32 < M32 := Nat.mod_lt _ (by norm_num [M32])

/-- The `mulberry32` output is a 32-bit value, so the Fisher-Yates index
`out * (i+1) / 2^32` is always in range. -/
theorem mulberryNext_snd_lt (a : Nat) : (mulberryNext a).2 < M32 := by
  unfold mulberryNext
  dsimp only
  exact xor_shift_lt (xor_lt_M32 (mod_M32_lt _) (mod_M32_lt _)) 14

/-- The Fisher-Yates loop only reorders the list. -/
theorem shuffleAux_perm [Inhabited α] (a n : Nat) (arr : List α)
    (hn : n < arr.length) : ((shuffleAux arr a n).1).Perm arr := by
  induction n generalizing arr a with
  | zero => exact List.Perm.refl _
  | succ i ih =>
    unfold shuffleAux
    dsimp only
    have hj : (mulberryNext a).2 * (i + 2) / M32 < i + 2 := by
      rw [Nat.div_lt_iff_lt_mul (by norm_num [M32] : (0:Nat) < M32)]
      calc (mulberryNext a).2 * (i + 2) < M32 * (i + 2) :=
            mul_lt_mul_of_pos_right (mulberryNext_snd_lt a) (by omega)
        _ = (i + 2) * M32 := Nat.mul_comm _ _
    have hswap := listSwap_perm arr (i + 1) ((mulberryNext a).2 * (i + 2) / M32) hn (by omega)
    have hlen : (listSwap arr (i + 1) ((mulberryNext a).2 * (i + 2) / M32)).length = arr.length := by
      unfold listSwap
      dsimp only
      rw [List.length_set, List.length_set]
    exact (ih (mulberryNext a).1 _ (by omega)).trans hswap

/-- `shuffle` produces a permutation of its input. -/
theorem shuffleJS_perm [Inhabited α] (arr : List α) (a : Nat) :
    ((shuffleJS arr a).1).Perm arr := by
  unfold shuffleJS
  cases harr : arr with
  | nil => exact List.Perm.refl _
  | cons x xs =>
    apply shuffleAux_perm
    simp

/-- The three deck shapes produced by `createDeck`'s difficulty dispatch. -/
theorem suitsFor_eq (d : String) :
    suitsFor d = List.replicate 8 0 ∨
    suitsFor d = List.replicate 4 0 ++ List.replicate 4 1 ∨
    suitsFor d = [0,1,2,3,0,1,2,3] := by
  unfold suitsFor
  split
  · exact Or.inl rfl
  · split
    · exact Or.inr (Or.inl rfl)
    · exact Or.inr (Or.inr rfl)

theorem createDeck_length (d : String) (ia : Bool) :
    (createDeck d ia).length = if ia then 104 else 96 := by
  unfold createDeck
  rcases suitsFor_eq d with h | h | h <;> rw [h] <;> cases ia <;> decide

theorem createDeck_faceUp (d : String) (ia : Bool) :
    ∀ c ∈ createDeck d ia, c.faceUp = false := by
  unfold createDeck
  rcases suitsFor_eq d with h | h | h <;> rw [h] <;> cases ia <;> decide

theorem getD_set_eq (l : List α) (i : Nat) (x d : α) (hi : i < l.length) :
    (l.set i x).getD i d = x := by
  rw [List.getD_eq_getElem?_getD, List.getElem?_set, if_pos rfl, if_pos hi]
  rfl

theorem getD_set_ne (l : List α) (i j : Nat) (x d : α) (hij : i ≠ j) :
    (l.set i x).getD j d = l.getD j d := by
  rw [List.getD_eq_getElem?_getD, List.getElem?_set_ne hij, ← List.getD_eq_getElem?_getD]

theorem dealLoop_length (slots : List Nat) :
    ∀ cards cols, (dealLoop slots cards cols).length = cols.length := by
  induction slots with
  | nil => intro cards cols; rfl
  | cons s ss ih =>
    intro cards cols
    cases cards with
    | nil => rfl
    | cons card rest =>
      rw [dealLoop, ih, List.length_set]

/-- Each column of the dealt tableau is exactly the cards whose slot (in the
zip of the visiting order with the remaining cards) is that column. -/
theorem dealLoop_getD (slots : List Nat) :
    ∀ (cards : List Card) (cols : List (List Card)) (c : Nat), c < cols.length →
      (dealLoop slots cards cols).getD c [] =
        cols.getD c [] ++ (slots.zip cards).filterMap
          (fun p => if p.1 = c then some p.2 else none) := by
  induction slots with
  | nil => intro cards cols c hc; simp [dealLoop]
  | cons s ss ih =>
    intro cards cols c hc
    cases cards with
    | nil => simp [dealLoop]
    | cons card rest =>
      rw [dealLoop, ih rest _ c (by rw [List.length_set]; exact hc),
        List.zip_cons_cons, List.filterMap_cons]
      by_cases hsc : s = c
      · subst hsc
        rw [getD_set_eq _ _ _ _ (by omega), if_pos rfl, List.append_assoc]
        rfl
      · rw [getD_set_ne _ _ _ _ _ hsc, if_neg hsc]

/-- How many cards the dealing loop gives column `c`: the number of
occurrences of `c` among the first `cards.length` visited slots. -/
theorem filterMap_zip_length (c : Nat) (slots : List Nat) :
    ∀ (cards : List Card),
      ((slots.zip cards).filterMap
          (fun p => if p.1 = c then some p.2 else none)).length =
        (slots.take cards.length).count c := by
  induction slots with
  | nil => intro cards; simp
  | cons s ss ih =>
    intro cards
    cases cards with
    | nil => simp
    | cons card rest =>
      rw [List.zip_cons_cons, List.filterMap_cons, List.length_cons, List.take_succ_cons,
        List.count_cons]
      by_cases hsc : s = c
      · rw [if_pos hsc, List.length_cons, ih, if_pos (by simp [hsc])]
      · rw [if_neg hsc, ih, if_neg (by simp [hsc])]
        omega

theorem mem_of_mem_filterMap_zip {x : Card} {slots : List Nat} {cards : List Card} {c : Nat}
    (hx : x ∈ (slots.zip cards).filterMap (fun p => if p.1 = c then some p.2 else none)) :
    x ∈ cards := by
  obtain ⟨p, hp, hpx⟩ := List.mem_filterMap.mp hx
  by_cases h : p.1 = c
  · rw [if_pos h] at hpx
    obtain ⟨a, b⟩ := p
    cases hpx
    exact (List.of_mem_zip hp).2
  · rw [if_neg h] at hpx
    cases hpx

theorem flipLast_length (col : List Card) : (flipLast col).length = col.length := by
  unfold flipLast
  cases col.getLast? with
  | none => rfl
  | some t => rw [List.length_set]

/-- Flipping the top of a non-empty column sets exactly the last card
face-up. -/
theorem flipLast_concat (l : List Card) (a : Card) :
    flipLast (l ++ [a]) = l ++ [{a with faceUp := true}] := by
  unfold flipLast
  rw [List.getLast?_concat]
  dsimp only
  have hlen : (l ++ [a]).length - 1 = l.length := by
    rw [List.length_append]
    simp
  rw [hlen, List.set_append, if_neg (by omega)]
  simp

theorem getD_replicate_nil (k n : Nat) :
    (List.replicate k ([] : List Card)).getD n [] = [] := by
  rw [List.getD_eq_getElem?_getD, List.getElem?_replicate]
  split <;> rfl

/-- The layout `initialDeal` produces from any 96-card face-down deck:
columns of lengths 5,5,5,5,5,5,4,4,4,4, a 50-card stock, exactly the top
card of each column face-up, and a fully face-down stock. -/
theorem initialDeal_layout (deck : List Card) (a : Nat)
    (hlen : deck.length = 96) (hface : ∀ c ∈ deck, c.faceUp = false) :
    ((initialDeal deck a).1.map List.length = [5,5,5,5,5,5,4,4,4,4]) ∧
    ((initialDeal deck a).2.1.length = 50) ∧
    (∀ col ∈ (initialDeal deck a).1,
       (∀ c ∈ col.dropLast, c.faceUp = false) ∧
       ∀ t, col.getLast? = some t → t.faceUp = true) ∧
    (∀ c ∈ (initialDeal deck a).2.1, c.faceUp = false) := by
  unfold initialDeal
  dsimp only
  have hperm := shuffleJS_perm deck a
  have hlen2 : (shuffleJS deck a).1.length = 96 := hperm.length_eq.trans hlen
  have hface2 : ∀ c ∈ (shuffleJS deck a).1, c.faceUp = false :=
    fun c hc => hface c (hperm.mem_iff.mp hc)
  have hrem : ((shuffleJS deck a).1.drop 50).length = 46 := by
    rw [List.length_drop, hlen2]
  have hcols_len :
      (dealLoop slotOrder ((shuffleJS deck a).1.drop 50) (List.replicate 10 [])).length = 10 := by
    rw [dealLoop_length, List.length_replicate]
  have hbase : ∀ n : Nat, n < 10 →
      (dealLoop slotOrder ((shuffleJS deck a).1.drop 50) (List.replicate 10 [])).getD n [] =
        (slotOrder.zip ((shuffleJS deck a).1.drop 50)).filterMap
          (fun p => if p.1 = n then some p.2 else none) := by
    intro n hn
    rw [dealLoop_getD slotOrder _ _ n (by rw [List.length_replicate]; exact hn),
      getD_replicate_nil, List.nil_append]
  have hbaselen : ∀ n : Nat, n < 10 →
      ((dealLoop slotOrder ((shuffleJS deck a).1.drop 50) (List.replicate 10 [])).getD n []).length =
        (slotOrder.take 46).count n := by
    intro n hn
    rw [hbase n hn, filterMap_zip_length, hrem]
  refine ⟨?_, ?_, ?_, ?_⟩
  · apply List.ext_getElem
    · simp [dealLoop_length]
    · intro n h1 h2
      have hn10 : n < 10 := by
        rw [List.length_map, List.length_map, dealLoop_length, List.length_replicate] at h1
        exact h1
      rw [List.getElem_map, List.getElem_map, flipLast_length,
        ← List.getD_eq_getElem _ [] (by rw [hcols_len]; exact hn10), hbaselen n hn10]
      interval_cases n <;>
        (simp only [List.getElem_cons_zero, List.getElem_cons_succ]; decide)
  · rw [List.length_take, hlen2]
    decide
  · intro col hcol
    obtain ⟨n, hn, hcoleq⟩ := List.mem_iff_getElem.mp hcol
    have hn10 : n < 10 := by
      rw [List.length_map, dealLoop_length, List.length_replicate] at hn
      exact hn
    have hcol2 : col = flipLast
        ((dealLoop slotOrder ((shuffleJS deck a).1.drop 50) (List.replicate 10 [])).getD n []) := by
      rw [← hcoleq, List.getElem_map,
        ← List.getD_eq_getElem _ [] (by rw [hcols_len]; exact hn10)]
    have hpos : 0 <
        ((dealLoop slotOrder ((shuffleJS deck a).1.drop 50) (List.replicate 10 [])).getD n []).length := by
      rw [hbaselen n hn10]
      interval_cases n <;> decide
    have hmem : ∀ x ∈ (dealLoop slotOrder ((shuffleJS deck a).1.drop 50)
        (List.replicate 10 [])).getD n [], x.faceUp = false := by
      intro x hx
      rw [hbase n hn10] at hx
      exact hface2 x (List.mem_of_mem_drop (mem_of_mem_filterMap_zip hx))
    rcases List.eq_nil_or_concat
        ((dealLoop slotOrder ((shuffleJS deck a).1.drop 50) (List.replicate 10 [])).getD n []) with
      hnil | ⟨L, b, hLb⟩
    · rw [hnil] at hpos; simp at hpos
    · rw [hcol2, List.concat_eq_append] at *
      rw [hLb, flipLast_concat]
      constructor
      · rw [List.dropLast_concat]
        intro x hx
        exact hmem x (by rw [hLb]; exact List.mem_append_left _ hx)
      · intro t ht
        rw [List.getLast?_concat] at ht
        cases ht
        rfl
  · intro c hc
    exact hface2 c (List.mem_of_mem_take hc)

/-- `newGameFrom` with all arguments supplied is the argument-only core. -/
theorem newGameFrom_some (prior : GameState) (d seed : String) (ia : Bool) :
    newGameFrom prior (some d) seed (some ia) =
      newGame d seed ia prior.foundationsCards := rfl

theorem newGame_tableau (d seed : String) (ia : Bool) (fc : List Card) :
    (newGame d seed ia fc).tableau =
      (initialDeal (shuffleJS (createDeck (canonDiff d) ia)
          (hashSeed (canonDiff d ++ ":" ++ seed))).1
        (shuffleJS (createDeck (canonDiff d) ia)
          (hashSeed (canonDiff d ++ ":" ++ seed))).2).1 := rfl

theorem newGame_stock (d seed : String) (ia : Bool) (fc : List Card) :
    (newGame d seed ia fc).stock =
      (initialDeal (shuffleJS (createDeck (canonDiff d) ia)
          (hashSeed (canonDiff d ++ ":" ++ seed))).1
        (shuffleJS (createDeck (canonDiff d) ia)
          (hashSeed (canonDiff d ++ ":" ++ seed))).2).2.1 := rfl

/-- **C6** (amended, proved).  Immediately after `newGame` with the default
`includeAces = false` (96-card deck), for every difficulty, seed and prior
state: the stock has exactly 50 cards, `dealsRemaining` is 5, in each column
exactly the top card is face-up, all stock cards are face-down — but the
tableau receives 46 cards as columns of lengths 5,5,5,5,5,5,4,4,4,4 (not the
claimed 6,6,6,6,5,...,5, which requires the 104-card deck). -/
theorem C6_initial_layout (prior : GameState) (d seed : String) :
    ((newGameFrom prior (some d) seed (some false)).tableau.map List.length =
      [5, 5, 5, 5, 5, 5, 4, 4, 4, 4]) ∧
    ((newGameFrom prior (some d) seed (some false)).stock.length = 50) ∧
    ((newGameFrom prior (some d) seed (some false)).dealsRemaining = 5) ∧
    (∀ col ∈ (newGameFrom prior (some d) seed (some false)).tableau,
       (∀ c ∈ col.dropLast, c.faceUp = false) ∧
       ∀ t, col.getLast? = some t → t.faceUp = true) ∧
    (∀ c ∈ (newGameFrom prior (some d) seed (some false)).stock, c.faceUp = false) := by
  have hperm := shuffleJS_perm (createDeck (canonDiff d) false)
      (hashSeed (canonDiff d ++ ":" ++ seed))
  have hlen : (shuffleJS (createDeck (canonDiff d) false)
      (hashSeed (canonDiff d ++ ":" ++ seed))).1.length = 96 := by
    rw [hperm.length_eq, createDeck_length]
    rfl
  have hface : ∀ c ∈ (shuffleJS (createDeck (canonDiff d) false)
      (hashSeed (canonDiff d ++ ":" ++ seed))).1, c.faceUp = false :=
    fun c hc => createDeck_faceUp _ _ c (hperm.mem_iff.mp hc)
  have h := initialDeal_layout
    (shuffleJS (createDeck (canonDiff d) false)
      (hashSeed (canonDiff d ++ ":" ++ seed))).1
    (shuffleJS (createDeck (canonDiff d) false)
      (hashSeed (canonDiff d ++ ":" ++ seed))).2
    hlen hface
  rw [newGameFrom_some]
  refine ⟨?_, ?_, rfl, ?_, ?_⟩
  · rw [newGame_tableau]
    exact h.1
  · rw [newGame_stock]
    exact h.2.1
  · rw [newGame_tableau]
    exact h.2.2.1
  · rw [newGame_stock]
    exact h.2.2.2

/-! ## C2: completion detection -/

theorem setLast_concat (L : List Card) (b x : Card) :
    setLast (L ++ [b]) x = L ++ [x] := by
  unfold setLast
  have hlen : (L ++ [b]).length - 1 = L.length := by simp
  rw [hlen, List.set_append, if_neg (by omega)]
  simp

/-- `completeTopRun` on a column where `tryComplete` succeeds and leaves a
face-down top card: the run goes to the foundations, the counter increments,
the new top card flips face-up and is recorded as `turned`. -/
theorem completeTopRun_flip (s : GameState) (c : Nat) (rem : List Card)
    (L : List Card) (b : Card) (hb : b.faceUp = false)
    (h : tryComplete (s.tableau.getD c []) s.includeAces = some (rem, L ++ [b])) :
    completeTopRun s c = (true,
      { s with
        tableau := s.tableau.set c (L ++ [{b with faceUp := true}])
        foundationsCards := s.foundationsCards ++ rem
        foundations := s.foundations + 1
        history := .complete c rem (some {b with faceUp := true}) :: s.history
        score := s.score + 100 }) := by
  unfold completeTopRun
  dsimp only
  rw [h]
  simp [topCard, List.getLast?_concat, hb, setLast_concat]

theorem jsSplice_suffix (pre m : List Card) :
    jsSplice (pre ++ m) (((pre ++ m).length : Int) - m.length) m.length = (m, pre) := by
  unfold jsSplice jsSpliceStart
  have h1 : (((pre ++ m).length : Int) - m.length) = (pre.length : Int) := by
    rw [List.length_append]
    push_cast
    ring
  rw [h1, if_neg (by omega)]
  have h2 : min (pre.length : Int).toNat (pre ++ m).length = pre.length := by
    rw [Int.toNat_natCast, List.length_append]
    omega
  rw [h2]
  dsimp only
  rw [List.drop_left, List.take_left, List.take_length,
    List.drop_eq_nil_of_le (by rw [List.length_append]), List.append_nil]

/-! ### C2 infrastructure: index runs, scan stepping, removal -/

/-- The indices `[base+n-1, …, base+1, base]` in descending order — the
order in which the scan collects a contiguous block of positions and in
which `sequenceIndices.sort((a,b)=>b-a)` presents them for splicing. -/
def decInd (base n : Nat) : List Nat :=
  (List.range n).reverse.map (fun k => base + k)

theorem decInd_zero (b : Nat) : decInd b 0 = [] := rfl

theorem decInd_succ (b n : Nat) : decInd b (n + 1) = (b + n) :: decInd b n := by
  unfold decInd
  rw [List.range_succ, List.reverse_append, List.reverse_singleton, List.singleton_append,
    List.map_cons]

theorem decInd_one (b : Nat) : decInd b 1 = [b] := by
  rw [decInd_succ, decInd_zero, Nat.add_zero]

theorem decInd_split (p a b : Nat) :
    decInd p (a + b) = decInd (p + a) b ++ decInd p a := by
  induction b with
  | zero => rw [Nat.add_zero, decInd_zero, List.nil_append]
  | succ b ih =>
    rw [show a + (b + 1) = (a + b) + 1 from rfl, decInd_succ, ih, decInd_succ,
      List.cons_append, Nat.add_assoc]

theorem getD_at (pre rest : List Card) (x : Card) :
    (pre ++ x :: rest).getD pre.length default = x := by
  rw [List.getD_eq_getElem _ _ (by simp), List.getElem_append_right (le_refl _)]
  simp

/-- One unfolding step of `innerScan` at positive fuel. -/
theorem innerScan_succ (col : List Card) (ia : Bool) (su : Nat) (seq : List Card)
    (idxs : List Nat) (j : Nat) :
    innerScan col ia su seq idxs (j + 1) =
      (let c := col.getD j default;
       if !c.faceUp then innerScan col ia su seq (idxs ++ [j]) j
       else
         let prev := seq.getLastD default
         let isAsc := c.suit == su && c.rank == prev.rank + 1
         let isDesc := c.suit == su && prev.rank == c.rank + 1
         if isAsc || isDesc then
           let seq' := seq ++ [c]
           let idxs' := idxs ++ [j]
           if (ia && seq'.length == 13) || (!ia && seq'.length == 12) then
             if !ia && seq'.length == 12 then
               let ranks := sortLe (fun a b => decide (a ≤ b)) (seq'.map Card.rank)
               if ranks.getD 0 0 == 2 && ranks.getD 11 0 == 13 then some idxs'
               else none
             else some idxs'
           else innerScan col ia su seq' idxs' j
         else none) := rfl

/-- One unfolding step of `outerScan` at positive fuel. -/
theorem outerScan_succ (col : List Card) (ia : Bool) (i : Nat) :
    outerScan col ia (i + 1) =
      (let c := col.getD i default
       if !c.faceUp then outerScan col ia i
       else
         match innerScan col ia c.suit [c] [i] i with
         | some idxs => some idxs
         | none => outerScan col ia i) := rfl

/-- Scanning downward through a block of face-down cards only collects their
indices (in descending order) and continues below the block. -/
theorem innerScan_skip (col : List Card) (ia : Bool) (su : Nat) :
    ∀ (F pre rest seq : List Card) (idxs : List Nat) (p : Nat),
      col = pre ++ F ++ rest → p = pre.length → (∀ x ∈ F, x.faceUp = false) →
      innerScan col ia su seq idxs (p + F.length) =
        innerScan col ia su seq (idxs ++ decInd p F.length) p := by
  intro F
  induction F using List.reverseRecOn with
  | nil =>
    intro pre rest seq idxs p _ _ _
    simp [decInd]
  | append_singleton F' x ih =>
    intro pre rest seq idxs p hcol hp hF
    subst hp
    have hx : x.faceUp = false := hF x (by simp)
    rw [List.length_append, List.length_singleton,
      show pre.length + (F'.length + 1) = (pre.length + F'.length) + 1 from rfl,
      innerScan_succ]
    dsimp only
    have hget : col.getD (pre.length + F'.length) default = x := by
      rw [hcol, show pre ++ (F' ++ [x]) ++ rest = (pre ++ F') ++ (x :: rest) by
            simp [List.append_assoc],
        show pre.length + F'.length = (pre ++ F').length from (List.length_append _ _).symm]
      exact getD_at _ _ _
    rw [hget, hx]
    simp only [Bool.not_false, if_true]
    rw [ih pre (x :: rest) seq (idxs ++ [pre.length + F'.length])
        pre.length (by rw [hcol]; simp [List.append_assoc]) rfl
        (fun y hy => hF y (by simp [hy]))]
    rw [List.append_assoc, List.singleton_append, ← decInd_succ]

theorem sortLe_decInd (p n : Nat) :
    sortLe (fun a b => decide (b ≤ a)) (decInd p n) = decInd p n := by
  induction n with
  | zero => rfl
  | succ n ih =>
    rw [decInd_succ]
    simp only [sortLe]
    rw [ih]
    cases n with
    | zero => rfl
    | succ m =>
      rw [decInd_succ]
      simp only [insertLe]
      rw [if_pos (by simp)]

theorem removeIndices_foldl :
    ∀ (X pre acc1 : List Card),
      (decInd pre.length X.length).foldl
        (fun (acc : List Card × List Card) (idx : Nat) =>
          let p := jsSplice acc.2 (idx : Int) 1
          (acc.1 ++ p.1, p.2))
        (acc1, pre ++ X) = (acc1 ++ X.reverse, pre) := by
  intro X
  induction X using List.reverseRecOn with
  | nil =>
    intro pre acc1
    simp [decInd]
  | append_singleton X' x ih =>
    intro pre acc1
    rw [List.length_append, List.length_singleton, decInd_succ, List.foldl_cons]
    dsimp only
    have hsp : jsSplice (pre ++ (X' ++ [x])) ((pre.length + X'.length : Nat) : Int) 1 =
        ([x], pre ++ X') := by
      have h := jsSplice_suffix (pre ++ X') [x]
      rw [List.length_singleton] at h
      rw [show pre ++ (X' ++ [x]) = (pre ++ X') ++ [x] from by rw [List.append_assoc],
        show ((pre.length + X'.length : Nat) : Int) =
          (((pre ++ X') ++ [x]).length : Int) - 1 from by
            simp [List.length_append]
            omega]
      exact h
    rw [hsp]
    dsimp only
    rw [ih pre (acc1 ++ [x]), List.reverse_append, List.reverse_singleton]
    simp [List.append_assoc]

theorem removeIndices_decInd (X pre : List Card) (n : Nat) (hn : n = X.length) :
    removeIndices (pre ++ X) (decInd pre.length n) = (X.reverse, pre) := by
  subst hn
  unfold removeIndices
  rw [sortLe_decInd, removeIndices_foldl X pre []]
  rw [List.nil_append]

/-- The rank of the last pushed card of the JS `sequence`. -/
theorem getLastD_rank (seq : List Card) (l : List Nat) (r : Nat)
    (h : seq.map Card.rank = l ++ [r]) : (seq.getLastD default).rank = r := by
  rcases List.eq_nil_or_concat seq with h0 | ⟨L, a, h0⟩
  · subst h0
    simp at h
  · subst h0
    rw [List.concat_eq_append] at *
    rw [List.getLastD_concat]
    have h2 := congrArg List.getLast? h
    rw [List.map_append, List.map_singleton, List.getLast?_concat,
      List.getLast?_concat] at h2
    exact Option.some.inj h2

theorem decInd_assemble (idxs : List Nat) (b L g n : Nat) (hn : n = L + 1 + g) :
    ((idxs ++ decInd (b + L + 1) g) ++ [b + L]) ++ decInd b L =
      idxs ++ decInd b n := by
  subst hn
  rw [show L + 1 + g = L + (1 + g) from by omega, decInd_split b L (1 + g),
    decInd_split (b + L) 1 g, decInd_one]
  simp [List.append_assoc]

theorem decInd_assemble0 (idxs : List Nat) (b g n : Nat) (hn : n = 1 + g) :
    (idxs ++ decInd (b + 1) g) ++ [b] = idxs ++ decInd b n := by
  subst hn
  rw [decInd_split b 1 g, decInd_one]
  simp [List.append_assoc]

theorem naL12 (pre G12 rest seq : List Card) (idxs : List Nat) (su i13 : Nat)
    (hG12 : ∀ x ∈ G12, x.faceUp = false)
    (hseq : seq.map Card.rank = [2, 3, 4, 5, 6, 7, 8, 9, 10, 11, 12])
    (n : Nat) (hn : n = 1 + G12.length) :
    innerScan (pre ++ [⟨i13, su, 13, true⟩] ++ G12 ++ rest) false su seq idxs
        (pre.length + n) =
      some (idxs ++ decInd pre.length n) := by
  have hslen : seq.length = 11 := by
    have h := congrArg List.length hseq
    simpa using h
  rw [show pre.length + n = (pre.length + 1) + G12.length from by omega]
  rw [innerScan_skip (pre ++ [(⟨i13, su, 13, true⟩ : Card)] ++ G12 ++ rest) false su G12
      (pre ++ [(⟨i13, su, 13, true⟩ : Card)]) rest seq idxs (pre.length + 1)
      (by simp [List.append_assoc])
      (by simp)
      hG12]
  rw [innerScan_succ]
  have hget : (pre ++ [(⟨i13, su, 13, true⟩ : Card)] ++ G12 ++ rest).getD pre.length default =
      (⟨i13, su, 13, true⟩ : Card) := by
    rw [show pre ++ [(⟨i13, su, 13, true⟩ : Card)] ++ G12 ++ rest =
        pre ++ ((⟨i13, su, 13, true⟩ : Card) :: (G12 ++ rest)) from by
          simp [List.append_assoc]]
    exact getD_at _ _ _
  dsimp only
  rw [hget]
  have hlast : (seq.getLastD default).rank = 12 :=
    getLastD_rank seq [2, 3, 4, 5, 6, 7, 8, 9, 10, 11] 12 (by rw [hseq]; decide)
  dsimp only
  rw [hlast]
  have hc13 : ((seq ++ [(⟨i13, su, 13, true⟩ : Card)]).length == 12) = true := by
    simp [List.length_append, hslen]
  have hranks : (seq ++ [(⟨i13, su, 13, true⟩ : Card)]).map Card.rank =
      [2, 3, 4, 5, 6, 7, 8, 9, 10, 11, 12, 13] := by
    rw [List.map_append, hseq]
    rfl
  simp only [Bool.not_true, beq_self_eq_true, Bool.true_and, Bool.true_or,
    show ((13 : Nat) == 12 + 1) = true from rfl, Bool.false_and, Bool.not_false,
    Bool.false_or, hc13, if_true, eq_self_iff_true, Bool.false_eq_true, if_false,
    hranks,
    show sortLe (fun a b => decide (a ≤ b)) [2, 3, 4, 5, 6, 7, 8, 9, 10, 11, 12, 13] =
      [2, 3, 4, 5, 6, 7, 8, 9, 10, 11, 12, 13] from rfl,
    show ((List.getD [2, 3, 4, 5, 6, 7, 8, 9, 10, 11, 12, 13] 0 0 == 2) &&
      (List.getD [2, 3, 4, 5, 6, 7, 8, 9, 10, 11, 12, 13] 11 0 == 13)) = true from rfl]
  rw [decInd_assemble0 idxs pre.length G12.length n hn]

theorem naL11 (pre G12 G11 rest seq : List Card) (idxs : List Nat) (su i13 i12 : Nat)
    (hG12 : ∀ x ∈ G12, x.faceUp = false) (hG11 : ∀ x ∈ G11, x.faceUp = false)
    (hseq : seq.map Card.rank = [2, 3, 4, 5, 6, 7, 8, 9, 10, 11])
    (n : Nat) (hn : n = 2 + (G12.length + G11.length)) :
    innerScan (pre ++ [⟨i13, su, 13, true⟩] ++ G12 ++ [⟨i12, su, 12, true⟩] ++ G11 ++ rest)
        false su seq idxs (pre.length + n) =
      some (idxs ++ decInd pre.length n) := by
  have hslen : seq.length = 10 := by
    have h := congrArg List.length hseq
    simpa using h
  rw [show pre.length + n = (pre.length + ((1 + G12.length) + 1)) + G11.length from by omega]
  rw [innerScan_skip
      (pre ++ [(⟨i13, su, 13, true⟩ : Card)] ++ G12 ++ [(⟨i12, su, 12, true⟩ : Card)] ++
        G11 ++ rest)
      false su G11
      (pre ++ [(⟨i13, su, 13, true⟩ : Card)] ++ G12 ++ [(⟨i12, su, 12, true⟩ : Card)])
      rest seq idxs (pre.length + ((1 + G12.length) + 1))
      (by simp [List.append_assoc])
      (by simp [List.length_append]; omega)
      hG11]
  rw [show pre.length + ((1 + G12.length) + 1) = (pre.length + (1 + G12.length)) + 1 from rfl]
  rw [innerScan_succ]
  have hget : (pre ++ [(⟨i13, su, 13, true⟩ : Card)] ++ G12 ++
        [(⟨i12, su, 12, true⟩ : Card)] ++ G11 ++ rest).getD
        (pre.length + (1 + G12.length)) default = (⟨i12, su, 12, true⟩ : Card) := by
    rw [show pre ++ [(⟨i13, su, 13, true⟩ : Card)] ++ G12 ++
          [(⟨i12, su, 12, true⟩ : Card)] ++ G11 ++ rest =
        (pre ++ [(⟨i13, su, 13, true⟩ : Card)] ++ G12) ++
          ((⟨i12, su, 12, true⟩ : Card) :: (G11 ++ rest)) from by
          simp [List.append_assoc],
      show pre.length + (1 + G12.length) =
          (pre ++ [(⟨i13, su, 13, true⟩ : Card)] ++ G12).length from by
          simp [List.length_append]
          omega]
    exact getD_at _ _ _
  dsimp only
  rw [hget]
  have hlast : (seq.getLastD default).rank = 11 :=
    getLastD_rank seq [2, 3, 4, 5, 6, 7, 8, 9, 10] 11 (by rw [hseq]; decide)
  dsimp only
  rw [hlast]
  have hc : ((seq ++ [(⟨i12, su, 12, true⟩ : Card)]).length == 12) = false := by
    simp [List.length_append, hslen]
  simp only [Bool.not_true, beq_self_eq_true, Bool.true_and, Bool.true_or,
    show ((12 : Nat) == 11 + 1) = true from rfl, Bool.false_and, Bool.not_false,
    Bool.false_or, hc, if_true, eq_self_iff_true, Bool.false_eq_true, if_false]
  rw [show pre ++ [(⟨i13, su, 13, true⟩ : Card)] ++ G12 ++
        [(⟨i12, su, 12, true⟩ : Card)] ++ G11 ++ rest =
      pre ++ [(⟨i13, su, 13, true⟩ : Card)] ++ G12 ++
        ([(⟨i12, su, 12, true⟩ : Card)] ++ G11 ++ rest) from by
      simp [List.append_assoc]]
  rw [naL12 pre G12 ([(⟨i12, su, 12, true⟩ : Card)] ++ G11 ++ rest)
      (seq ++ [(⟨i12, su, 12, true⟩ : Card)]) _ su i13 hG12
      (by rw [List.map_append, hseq]; rfl) (1 + G12.length) rfl]
  rw [decInd_assemble idxs pre.length (1 + G12.length) G11.length n (by omega)]

theorem aL12 (pre G12 rest seq : List Card) (idxs : List Nat) (su i13 : Nat)
    (hG12 : ∀ x ∈ G12, x.faceUp = false)
    (hseq : seq.map Card.rank = [1, 2, 3, 4, 5, 6, 7, 8, 9, 10, 11, 12])
    (n : Nat) (hn : n = 1 + G12.length) :
    innerScan (pre ++ [⟨i13, su, 13, true⟩] ++ G12 ++ rest) true su seq idxs
        (pre.length + n) =
      some (idxs ++ decInd pre.length n) := by
  have hslen : seq.length = 12 := by
    have h := congrArg List.length hseq
    simpa using h
  rw [show pre.length + n = (pre.length + 1) + G12.length from by omega]
  rw [innerScan_skip (pre ++ [(⟨i13, su, 13, true⟩ : Card)] ++ G12 ++ rest) true su G12
      (pre ++ [(⟨i13, su, 13, true⟩ : Card)]) rest seq idxs (pre.length + 1)
      (by simp [List.append_assoc])
      (by simp)
      hG12]
  rw [innerScan_succ]
  have hget : (pre ++ [(⟨i13, su, 13, true⟩ : Card)] ++ G12 ++ rest).getD pre.length default =
      (⟨i13, su, 13, true⟩ : Card) := by
    rw [show pre ++ [(⟨i13, su, 13, true⟩ : Card)] ++ G12 ++ rest =
        pre ++ ((⟨i13, su, 13, true⟩ : Card) :: (G12 ++ rest)) from by
          simp [List.append_assoc]]
    exact getD_at _ _ _
  dsimp only
  rw [hget]
  have hlast : (seq.getLastD default).rank = 12 :=
    getLastD_rank seq [1, 2, 3, 4, 5, 6, 7, 8, 9, 10, 11] 12 (by rw [hseq]; decide)
  dsimp only
  rw [hlast]
  have hc : ((seq ++ [(⟨i13, su, 13, true⟩ : Card)]).length == 13) = true := by
    simp [List.length_append, hslen]
  simp only [Bool.not_true, beq_self_eq_true, Bool.true_and, Bool.true_or,
    show ((13 : Nat) == 12 + 1) = true from rfl, Bool.false_and, Bool.not_false,
    Bool.false_or, Bool.or_false, hc, if_true, eq_self_iff_true, Bool.false_eq_true,
    if_false]
  rw [decInd_assemble0 idxs pre.length G12.length n hn]

theorem naL10 (pre G12 G11 G10 rest seq : List Card)
    (idxs : List Nat) (su i13 i12 i11 : Nat)
    (hG12 : ∀ x ∈ G12, x.faceUp = false)
    (hG11 : ∀ x ∈ G11, x.faceUp = false)
    (hG10 : ∀ x ∈ G10, x.faceUp = false)
    (hseq : seq.map Card.rank = [2, 3, 4, 5, 6, 7, 8, 9, 10])
    (n : Nat) (hn : n = 3 + (G12.length + G11.length + G10.length)) :
    innerScan (pre ++ [⟨i13, su, 13, true⟩] ++ G12 ++ [⟨i12, su, 12, true⟩] ++ G11 ++ [⟨i11, su, 11, true⟩] ++ G10 ++ rest)
        false su seq idxs (pre.length + n) =
      some (idxs ++ decInd pre.length n) := by
  have hslen : seq.length = 9 := by
    have h := congrArg List.length hseq
    simpa using h
  rw [show pre.length + n = (pre.length + ((2 + (G12.length + G11.length)) + 1)) + G10.length from by omega]
  rw [innerScan_skip
      (pre ++ [(⟨i13, su, 13, true⟩ : Card)] ++ G12 ++ [(⟨i12, su, 12, true⟩ : Card)] ++ G11 ++ [(⟨i11, su, 11, true⟩ : Card)] ++ G10 ++ rest)
      false su G10
      (pre ++ [(⟨i13, su, 13, true⟩ : Card)] ++ G12 ++ [(⟨i12, su, 12, true⟩ : Card)] ++ G11 ++ [(⟨i11, su, 11, true⟩ : Card)])
      rest seq idxs (pre.length + ((2 + (G12.length + G11.length)) + 1))
      (by simp [List.append_assoc])
      (by simp [List.length_append]; omega)
      hG10]
  rw [show pre.length + ((2 + (G12.length + G11.length)) + 1) = (pre.length + (2 + (G12.length + G11.length))) + 1 from rfl]
  rw [innerScan_succ]
  have hget : (pre ++ [(⟨i13, su, 13, true⟩ : Card)] ++ G12 ++ [(⟨i12, su, 12, true⟩ : Card)] ++ G11 ++ [(⟨i11, su, 11, true⟩ : Card)] ++ G10 ++ rest).getD
      (pre.length + (2 + (G12.length + G11.length))) default = (⟨i11, su, 11, true⟩ : Card) := by
    rw [show pre ++ [(⟨i13, su, 13, true⟩ : Card)] ++ G12 ++ [(⟨i12, su, 12, true⟩ : Card)] ++ G11 ++ [(⟨i11, su, 11, true⟩ : Card)] ++ G10 ++ rest =
        (pre ++ [(⟨i13, su, 13, true⟩ : Card)] ++ G12 ++ [(⟨i12, su, 12, true⟩ : Card)] ++ G11) ++ ((⟨i11, su, 11, true⟩ : Card) :: (G10 ++ rest)) from by
          simp [List.append_assoc],
      show pre.length + (2 + (G12.length + G11.length)) =
          (pre ++ [(⟨i13, su, 13, true⟩ : Card)] ++ G12 ++ [(⟨i12, su, 12, true⟩ : Card)] ++ G11).length from by
          simp [List.length_append]
          omega]
    exact getD_at _ _ _
  dsimp only
  rw [hget]
  have hlast : (seq.getLastD default).rank = 10 :=
    getLastD_rank seq [2, 3, 4, 5, 6, 7, 8, 9] 10 (by rw [hseq]; decide)
  dsimp only
  rw [hlast]
  have hc : ((seq ++ [(⟨i11, su, 11, true⟩ : Card)]).length == 12) = false := by
    simp [List.length_append, hslen]
  simp only [Bool.not_true, beq_self_eq_true, Bool.true_and, Bool.true_or,
    show ((11 : Nat) == 10 + 1) = true from rfl, Bool.false_and, Bool.not_false,
    Bool.false_or, Bool.or_false, hc, if_true, eq_self_iff_true, Bool.false_eq_true,
    if_false]
  rw [show pre ++ [(⟨i13, su, 13, true⟩ : Card)] ++ G12 ++ [(⟨i12, su, 12, true⟩ : Card)] ++ G11 ++ [(⟨i11, su, 11, true⟩ : Card)] ++ G10 ++ rest =
      pre ++ [(⟨i13, su, 13, true⟩ : Card)] ++ G12 ++ [(⟨i12, su, 12, true⟩ : Card)] ++ G11 ++ ([(⟨i11, su, 11, true⟩ : Card)] ++ G10 ++ rest) from by
      simp [List.append_assoc]]
  rw [naL11 pre G12 G11 ([(⟨i11, su, 11, true⟩ : Card)] ++ G10 ++ rest) (seq ++ [(⟨i11, su, 11, true⟩ : Card)]) _ su i13 i12 hG12 hG11
      (by rw [List.map_append, hseq]; rfl) (2 + (G12.length + G11.length)) rfl]
  rw [decInd_assemble idxs pre.length (2 + (G12.length + G11.length)) G10.length n (by omega)]

theorem naL9 (pre G12 G11 G10 G9 rest seq : List Card)
    (idxs : List Nat) (su i13 i12 i11 i10 : Nat)
    (hG12 : ∀ x ∈ G12, x.faceUp = false)
    (hG11 : ∀ x ∈ G11, x.faceUp = false)
    (hG10 : ∀ x ∈ G10, x.faceUp = false)
    (hG9 : ∀ x ∈ G9, x.faceUp = false)
    (hseq : seq.map Card.rank = [2, 3, 4, 5, 6, 7, 8, 9])
    (n : Nat) (hn : n = 4 + (G12.length + G11.length + G10.length + G9.length)) :
    innerScan (pre ++ [⟨i13, su, 13, true⟩] ++ G12 ++ [⟨i12, su, 12, true⟩] ++ G11 ++ [⟨i11, su, 11, true⟩] ++ G10 ++ [⟨i10, su, 10, true⟩] ++ G9 ++ rest)
        false su seq idxs (pre.length + n) =
      some (idxs ++ decInd pre.length n) := by
  have hslen : seq.length = 8 := by
    have h := congrArg List.length hseq
    simpa using h
  rw [show pre.length + n = (pre.length + ((3 + (G12.length + G11.length + G10.length)) + 1)) + G9.length from by omega]
  rw [innerScan_skip
      (pre ++ [(⟨i13, su, 13, true⟩ : Card)] ++ G12 ++ [(⟨i12, su, 12, true⟩ : Card)] ++ G11 ++ [(⟨i11, su, 11, true⟩ : Card)] ++ G10 ++ [(⟨i10, su, 10, true⟩ : Card)] ++ G9 ++ rest)
      false su G9
      (pre ++ [(⟨i13, su, 13, true⟩ : Card)] ++ G12 ++ [(⟨i12, su, 12, true⟩ : Card)] ++ G11 ++ [(⟨i11, su, 11, true⟩ : Card)] ++ G10 ++ [(⟨i10, su, 10, true⟩ : Card)])
      rest seq idxs (pre.length + ((3 + (G12.length + G11.length + G10.length)) + 1))
      (by simp [List.append_assoc])
      (by simp [List.length_append]; omega)
      hG9]
  rw [show pre.length + ((3 + (G12.length + G11.length + G10.length)) + 1) = (pre.length + (3 + (G12.length + G11.length + G10.length))) + 1 from rfl]
  rw [innerScan_succ]
  have hget : (pre ++ [(⟨i13, su, 13, true⟩ : Card)] ++ G12 ++ [(⟨i12, su, 12, true⟩ : Card)] ++ G11 ++ [(⟨i11, su, 11, true⟩ : Card)] ++ G10 ++ [(⟨i10, su, 10, true⟩ : Card)] ++ G9 ++ rest).getD
      (pre.length + (3 + (G12.length + G11.length + G10.length))) default = (⟨i10, su, 10, true⟩ : Card) := by
    rw [show pre ++ [(⟨i13, su, 13, true⟩ : Card)] ++ G12 ++ [(⟨i12, su, 12, true⟩ : Card)] ++ G11 ++ [(⟨i11, su, 11, true⟩ : Card)] ++ G10 ++ [(⟨i10, su, 10, true⟩ : Card)] ++ G9 ++ rest =
        (pre ++ [(⟨i13, su, 13, true⟩ : Card)] ++ G12 ++ [(⟨i12, su, 12, true⟩ : Card)] ++ G11 ++ [(⟨i11, su, 11, true⟩ : Card)] ++ G10) ++ ((⟨i10, su, 10, true⟩ : Card) :: (G9 ++ rest)) from by
          simp [List.append_assoc],
      show pre.length + (3 + (G12.length + G11.length + G10.length)) =
          (pre ++ [(⟨i13, su, 13, true⟩ : Card)] ++ G12 ++ [(⟨i12, su, 12, true⟩ : Card)] ++ G11 ++ [(⟨i11, su, 11, true⟩ : Card)] ++ G10).length from by
          simp [List.length_append]
          omega]
    exact getD_at _ _ _
  dsimp only
  rw [hget]
  have hlast : (seq.getLastD default).rank = 9 :=
    getLastD_rank seq [2, 3, 4, 5, 6, 7, 8] 9 (by rw [hseq]; decide)
  dsimp only
  rw [hlast]
  have hc : ((seq ++ [(⟨i10, su, 10, true⟩ : Card)]).length == 12) = false := by
    simp [List.length_append, hslen]
  simp only [Bool.not_true, beq_self_eq_true, Bool.true_and, Bool.true_or,
    show ((10 : Nat) == 9 + 1) = true from rfl, Bool.false_and, Bool.not_false,
    Bool.false_or, Bool.or_false, hc, if_true, eq_self_iff_true, Bool.false_eq_true,
    if_false]
  rw [show pre ++ [(⟨i13, su, 13, true⟩ : Card)] ++ G12 ++ [(⟨i12, su, 12, true⟩ : Card)] ++ G11 ++ [(⟨i11, su, 11, true⟩ : Card)] ++ G10 ++ [(⟨i10, su, 10, true⟩ : Card)] ++ G9 ++ rest =
      pre ++ [(⟨i13, su, 13, true⟩ : Card)] ++ G12 ++ [(⟨i12, su, 12, true⟩ : Card)] ++ G11 ++ [(⟨i11, su, 11, true⟩ : Card)] ++ G10 ++ ([(⟨i10, su, 10, true⟩ : Card)] ++ G9 ++ rest) from by
      simp [List.append_assoc]]
  rw [naL10 pre G12 G11 G10 ([(⟨i10, su, 10, true⟩ : Card)] ++ G9 ++ rest) (seq ++ [(⟨i10, su, 10, true⟩ : Card)]) _ su i13 i12 i11 hG12 hG11 hG10
      (by rw [List.map_append, hseq]; rfl) (3 + (G12.length + G11.length + G10.length)) rfl]
  rw [decInd_assemble idxs pre.length (3 + (G12.length + G11.length + G10.length)) G9.length n (by omega)]

theorem naL8 (pre G12 G11 G10 G9 G8 rest seq : List Card)
    (idxs : List Nat) (su i13 i12 i11 i10 i9 : Nat)
    (hG12 : ∀ x ∈ G12, x.faceUp = false)
    (hG11 : ∀ x ∈ G11, x.faceUp = false)
    (hG10 : ∀ x ∈ G10, x.faceUp = false)
    (hG9 : ∀ x ∈ G9, x.faceUp = false)
    (hG8 : ∀ x ∈ G8, x.faceUp = false)
    (hseq : seq.map Card.rank = [2, 3, 4, 5, 6, 7, 8])
    (n : Nat) (hn : n = 5 + (G12.length + G11.length + G10.length + G9.length + G8.length)) :
    innerScan (pre ++ [⟨i13, su, 13, true⟩] ++ G12 ++ [⟨i12, su, 12, true⟩] ++ G11 ++ [⟨i11, su, 11, true⟩] ++ G10 ++ [⟨i10, su, 10, true⟩] ++ G9 ++ [⟨i9, su, 9, true⟩] ++ G8 ++ rest)
        false su seq idxs (pre.length + n) =
      some (idxs ++ decInd pre.length n) := by
  have hslen : seq.length = 7 := by
    have h := congrArg List.length hseq
    simpa using h
  rw [show pre.length + n = (pre.length + ((4 + (G12.length + G11.length + G10.length + G9.length)) + 1)) + G8.length from by omega]
  rw [innerScan_skip
      (pre ++ [(⟨i13, su, 13, true⟩ : Card)] ++ G12 ++ [(⟨i12, su, 12, true⟩ : Card)] ++ G11 ++ [(⟨i11, su, 11, true⟩ : Card)] ++ G10 ++ [(⟨i10, su, 10, true⟩ : Card)] ++ G9 ++ [(⟨i9, su, 9, true⟩ : Card)] ++ G8 ++ rest)
      false su G8
      (pre ++ [(⟨i13, su, 13, true⟩ : Card)] ++ G12 ++ [(⟨i12, su, 12, true⟩ : Card)] ++ G11 ++ [(⟨i11, su, 11, true⟩ : Card)] ++ G10 ++ [(⟨i10, su, 10, true⟩ : Card)] ++ G9 ++ [(⟨i9, su, 9, true⟩ : Card)])
      rest seq idxs (pre.length + ((4 + (G12.length + G11.length + G10.length + G9.length)) + 1))
      (by simp [List.append_assoc])
      (by simp [List.length_append]; omega)
      hG8]
  rw [show pre.length + ((4 + (G12.length + G11.length + G10.length + G9.length)) + 1) = (pre.length + (4 + (G12.length + G11.length + G10.length + G9.length))) + 1 from rfl]
  rw [innerScan_succ]
  have hget : (pre ++ [(⟨i13, su, 13, true⟩ : Card)] ++ G12 ++ [(⟨i12, su, 12, true⟩ : Card)] ++ G11 ++ [(⟨i11, su, 11, true⟩ : Card)] ++ G10 ++ [(⟨i10, su, 10, true⟩ : Card)] ++ G9 ++ [(⟨i9, su, 9, true⟩ : Card)] ++ G8 ++ rest).getD
      (pre.length + (4 + (G12.length + G11.length + G10.length + G9.length))) default = (⟨i9, su, 9, true⟩ : Card) := by
    rw [show pre ++ [(⟨i13, su, 13, true⟩ : Card)] ++ G12 ++ [(⟨i12, su, 12, true⟩ : Card)] ++ G11 ++ [(⟨i11, su, 11, true⟩ : Card)] ++ G10 ++ [(⟨i10, su, 10, true⟩ : Card)] ++ G9 ++ [(⟨i9, su, 9, true⟩ : Card)] ++ G8 ++ rest =
        (pre ++ [(⟨i13, su, 13, true⟩ : Card)] ++ G12 ++ [(⟨i12, su, 12, true⟩ : Card)] ++ G11 ++ [(⟨i11, su, 11, true⟩ : Card)] ++ G10 ++ [(⟨i10, su, 10, true⟩ : Card)] ++ G9) ++ ((⟨i9, su, 9, true⟩ : Card) :: (G8 ++ rest)) from by
          simp [List.append_assoc],
      show pre.length + (4 + (G12.length + G11.length + G10.length + G9.length)) =
          (pre ++ [(⟨i13, su, 13, true⟩ : Card)] ++ G12 ++ [(⟨i12, su, 12, true⟩ : Card)] ++ G11 ++ [(⟨i11, su, 11, true⟩ : Card)] ++ G10 ++ [(⟨i10, su, 10, true⟩ : Card)] ++ G9).length from by
          simp [List.length_append]
          omega]
    exact getD_at _ _ _
  dsimp only
  rw [hget]
  have hlast : (seq.getLastD default).rank = 8 :=
    getLastD_rank seq [2, 3, 4, 5, 6, 7] 8 (by rw [hseq]; decide)
  dsimp only
  rw [hlast]
  have hc : ((seq ++ [(⟨i9, su, 9, true⟩ : Card)]).length == 12) = false := by
    simp [List.length_append, hslen]
  simp only [Bool.not_true, beq_self_eq_true, Bool.true_and, Bool.true_or,
    show ((9 : Nat) == 8 + 1) = true from rfl, Bool.false_and, Bool.not_false,
    Bool.false_or, Bool.or_false, hc, if_true, eq_self_iff_true, Bool.false_eq_true,
    if_false]
  rw [show pre ++ [(⟨i13, su, 13, true⟩ : Card)] ++ G12 ++ [(⟨i12, su, 12, true⟩ : Card)] ++ G11 ++ [(⟨i11, su, 11, true⟩ : Card)] ++ G10 ++ [(⟨i10, su, 10, true⟩ : Card)] ++ G9 ++ [(⟨i9, su, 9, true⟩ : Card)] ++ G8 ++ rest =
      pre ++ [(⟨i13, su, 13, true⟩ : Card)] ++ G12 ++ [(⟨i12, su, 12, true⟩ : Card)] ++ G11 ++ [(⟨i11, su, 11, true⟩ : Card)] ++ G10 ++ [(⟨i10, su, 10, true⟩ : Card)] ++ G9 ++ ([(⟨i9, su, 9, true⟩ : Card)] ++ G8 ++ rest) from by
      simp [List.append_assoc]]
  rw [naL9 pre G12 G11 G10 G9 ([(⟨i9, su, 9, true⟩ : Card)] ++ G8 ++ rest) (seq ++ [(⟨i9, su, 9, true⟩ : Card)]) _ su i13 i12 i11 i10 hG12 hG11 hG10 hG9
      (by rw [List.map_append, hseq]; rfl) (4 + (G12.length + G11.length + G10.length + G9.length)) rfl]
  rw [decInd_assemble idxs pre.length (4 + (G12.length + G11.length + G10.length + G9.length)) G8.length n (by omega)]

theorem naL7 (pre G12 G11 G10 G9 G8 G7 rest seq : List Card)
    (idxs : List Nat) (su i13 i12 i11 i10 i9 i8 : Nat)
    (hG12 : ∀ x ∈ G12, x.faceUp = false)
    (hG11 : ∀ x ∈ G11, x.faceUp = false)
    (hG10 : ∀ x ∈ G10, x.faceUp = false)
    (hG9 : ∀ x ∈ G9, x.faceUp = false)
    (hG8 : ∀ x ∈ G8, x.faceUp = false)
    (hG7 : ∀ x ∈ G7, x.faceUp = false)
    (hseq : seq.map Card.rank = [2, 3, 4, 5, 6, 7])
    (n : Nat) (hn : n = 6 + (G12.length + G11.length + G10.length + G9.length + G8.length + G7.length)) :
    innerScan (pre ++ [⟨i13, su, 13, true⟩] ++ G12 ++ [⟨i12, su, 12, true⟩] ++ G11 ++ [⟨i11, su, 11, true⟩] ++ G10 ++ [⟨i10, su, 10, true⟩] ++ G9 ++ [⟨i9, su, 9, true⟩] ++ G8 ++ [⟨i8, su, 8, true⟩] ++ G7 ++ rest)
        false su seq idxs (pre.length + n) =
      some (idxs ++ decInd pre.length n) := by
  have hslen : seq.length = 6 := by
    have h := congrArg List.length hseq
    simpa using h
  rw [show pre.length + n = (pre.length + ((5 + (G12.length + G11.length + G10.length + G9.length + G8.length)) + 1)) + G7.length from by omega]
  rw [innerScan_skip
      (pre ++ [(⟨i13, su, 13, true⟩ : Card)] ++ G12 ++ [(⟨i12, su, 12, true⟩ : Card)] ++ G11 ++ [(⟨i11, su, 11, true⟩ : Card)] ++ G10 ++ [(⟨i10, su, 10, true⟩ : Card)] ++ G9 ++ [(⟨i9, su, 9, true⟩ : Card)] ++ G8 ++ [(⟨i8, su, 8, true⟩ : Card)] ++ G7 ++ rest)
      false su G7
      (pre ++ [(⟨i13, su, 13, true⟩ : Card)] ++ G12 ++ [(⟨i12, su, 12, true⟩ : Card)] ++ G11 ++ [(⟨i11, su, 11, true⟩ : Card)] ++ G10 ++ [(⟨i10, su, 10, true⟩ : Card)] ++ G9 ++ [(⟨i9, su, 9, true⟩ : Card)] ++ G8 ++ [(⟨i8, su, 8, true⟩ : Card)])
      rest seq idxs (pre.length + ((5 + (G12.length + G11.length + G10.length + G9.length + G8.length)) + 1))
      (by simp [List.append_assoc])
      (by simp [List.length_append]; omega)
      hG7]
  rw [show pre.length + ((5 + (G12.length + G11.length + G10.length + G9.length + G8.length)) + 1) = (pre.length + (5 + (G12.length + G11.length + G10.length + G9.length + G8.length))) + 1 from rfl]
  rw [innerScan_succ]
  have hget : (pre ++ [(⟨i13, su, 13, true⟩ : Card)] ++ G12 ++ [(⟨i12, su, 12, true⟩ : Card)] ++ G11 ++ [(⟨i11, su, 11, true⟩ : Card)] ++ G10 ++ [(⟨i10, su, 10, true⟩ : Card)] ++ G9 ++ [(⟨i9, su, 9, true⟩ : Card)] ++ G8 ++ [(⟨i8, su, 8, true⟩ : Card)] ++ G7 ++ rest).getD
      (pre.length + (5 + (G12.length + G11.length + G10.length + G9.length + G8.length))) default = (⟨i8, su, 8, true⟩ : Card) := by
    rw [show pre ++ [(⟨i13, su, 13, true⟩ : Card)] ++ G12 ++ [(⟨i12, su, 12, true⟩ : Card)] ++ G11 ++ [(⟨i11, su, 11, true⟩ : Card)] ++ G10 ++ [(⟨i10, su, 10, true⟩ : Card)] ++ G9 ++ [(⟨i9, su, 9, true⟩ : Card)] ++ G8 ++ [(⟨i8, su, 8, true⟩ : Card)] ++ G7 ++ rest =
        (pre ++ [(⟨i13, su, 13, true⟩ : Card)] ++ G12 ++ [(⟨i12, su, 12, true⟩ : Card)] ++ G11 ++ [(⟨i11, su, 11, true⟩ : Card)] ++ G10 ++ [(⟨i10, su, 10, true⟩ : Card)] ++ G9 ++ [(⟨i9, su, 9, true⟩ : Card)] ++ G8) ++ ((⟨i8, su, 8, true⟩ : Card) :: (G7 ++ rest)) from by
          simp [List.append_assoc],
      show pre.length + (5 + (G12.length + G11.length + G10.length + G9.length + G8.length)) =
          (pre ++ [(⟨i13, su, 13, true⟩ : Card)] ++ G12 ++ [(⟨i12, su, 12, true⟩ : Card)] ++ G11 ++ [(⟨i11, su, 11, true⟩ : Card)] ++ G10 ++ [(⟨i10, su, 10, true⟩ : Card)] ++ G9 ++ [(⟨i9, su, 9, true⟩ : Card)] ++ G8).length from by
          simp [List.length_append]
          omega]
    exact getD_at _ _ _
  dsimp only
  rw [hget]
  have hlast : (seq.getLastD default).rank = 7 :=
    getLastD_rank seq [2, 3, 4, 5, 6] 7 (by rw [hseq]; decide)
  dsimp only
  rw [hlast]
  have hc : ((seq ++ [(⟨i8, su, 8, true⟩ : Card)]).length == 12) = false := by
    simp [List.length_append, hslen]
  simp only [Bool.not_true, beq_self_eq_true, Bool.true_and, Bool.true_or,
    show ((8 : Nat) == 7 + 1) = true from rfl, Bool.false_and, Bool.not_false,
    Bool.false_or, Bool.or_false, hc, if_true, eq_self_iff_true, Bool.false_eq_true,
    if_false]
  rw [show pre ++ [(⟨i13, su, 13, true⟩ : Card)] ++ G12 ++ [(⟨i12, su, 12, true⟩ : Card)] ++ G11 ++ [(⟨i11, su, 11, true⟩ : Card)] ++ G10 ++ [(⟨i10, su, 10, true⟩ : Card)] ++ G9 ++ [(⟨i9, su, 9, true⟩ : Card)] ++ G8 ++ [(⟨i8, su, 8, true⟩ : Card)] ++ G7 ++ rest =
      pre ++ [(⟨i13, su, 13, true⟩ : Card)] ++ G12 ++ [(⟨i12, su, 12, true⟩ : Card)] ++ G11 ++ [(⟨i11, su, 11, true⟩ : Card)] ++ G10 ++ [(⟨i10, su, 10, true⟩ : Card)] ++ G9 ++ [(⟨i9, su, 9, true⟩ : Card)] ++ G8 ++ ([(⟨i8, su, 8, true⟩ : Card)] ++ G7 ++ rest) from by
      simp [List.append_assoc]]
  rw [naL8 pre G12 G11 G10 G9 G8 ([(⟨i8, su, 8, true⟩ : Card)] ++ G7 ++ rest) (seq ++ [(⟨i8, su, 8, true⟩ : Card)]) _ su i13 i12 i11 i10 i9 hG12 hG11 hG10 hG9 hG8
      (by rw [List.map_append, hseq]; rfl) (5 + (G12.length + G11.length + G10.length + G9.length + G8.length)) rfl]
  rw [decInd_assemble idxs pre.length (5 + (G12.length + G11.length + G10.length + G9.length + G8.length)) G7.length n (by omega)]

theorem naL6 (pre G12 G11 G10 G9 G8 G7 G6 rest seq : List Card)
    (idxs : List Nat) (su i13 i12 i11 i10 i9 i8 i7 : Nat)
    (hG12 : ∀ x ∈ G12, x.faceUp = false)
    (hG11 : ∀ x ∈ G11, x.faceUp = false)
    (hG10 : ∀ x ∈ G10, x.faceUp = false)
    (hG9 : ∀ x ∈ G9, x.faceUp = false)
    (hG8 : ∀ x ∈ G8, x.faceUp = false)
    (hG7 : ∀ x ∈ G7, x.faceUp = false)
    (hG6 : ∀ x ∈ G6, x.faceUp = false)
    (hseq : seq.map Card.rank = [2, 3, 4, 5, 6])
    (n : Nat) (hn : n = 7 + (G12.length + G11.length + G10.length + G9.length + G8.length + G7.length + G6.length)) :
    innerScan (pre ++ [⟨i13, su, 13, true⟩] ++ G12 ++ [⟨i12, su, 12, true⟩] ++ G11 ++ [⟨i11, su, 11, true⟩] ++ G10 ++ [⟨i10, su, 10, true⟩] ++ G9 ++ [⟨i9, su, 9, true⟩] ++ G8 ++ [⟨i8, su, 8, true⟩] ++ G7 ++ [⟨i7, su, 7, true⟩] ++ G6 ++ rest)
        false su seq idxs (pre.length + n) =
      some (idxs ++ decInd pre.length n) := by
  have hslen : seq.length = 5 := by
    have h := congrArg List.length hseq
    simpa using h
  rw [show pre.length + n = (pre.length + ((6 + (G12.length + G11.length + G10.length + G9.length + G8.length + G7.length)) + 1)) + G6.length from by omega]
  rw [innerScan_skip
      (pre ++ [(⟨i13, su, 13, true⟩ : Card)] ++ G12 ++ [(⟨i12, su, 12, true⟩ : Card)] ++ G11 ++ [(⟨i11, su, 11, true⟩ : Card)] ++ G10 ++ [(⟨i10, su, 10, true⟩ : Card)] ++ G9 ++ [(⟨i9, su, 9, true⟩ : Card)] ++ G8 ++ [(⟨i8, su, 8, true⟩ : Card)] ++ G7 ++ [(⟨i7, su, 7, true⟩ : Card)] ++ G6 ++ rest)
      false su G6
      (pre ++ [(⟨i13, su, 13, true⟩ : Card)] ++ G12 ++ [(⟨i12, su, 12, true⟩ : Card)] ++ G11 ++ [(⟨i11, su, 11, true⟩ : Card)] ++ G10 ++ [(⟨i10, su, 10, true⟩ : Card)] ++ G9 ++ [(⟨i9, su, 9, true⟩ : Card)] ++ G8 ++ [(⟨i8, su, 8, true⟩ : Card)] ++ G7 ++ [(⟨i7, su, 7, true⟩ : Card)])
      rest seq idxs (pre.length + ((6 + (G12.length + G11.length + G10.length + G9.length + G8.length + G7.length)) + 1))
      (by simp [List.append_assoc])
      (by simp [List.length_append]; omega)
      hG6]
  rw [show pre.length + ((6 + (G12.length + G11.length + G10.length + G9.length + G8.length + G7.length)) + 1) = (pre.length + (6 + (G12.length + G11.length + G10.length + G9.length + G8.length + G7.length))) + 1 from rfl]
  rw [innerScan_succ]
  have hget : (pre ++ [(⟨i13, su, 13, true⟩ : Card)] ++ G12 ++ [(⟨i12, su, 12, true⟩ : Card)] ++ G11 ++ [(⟨i11, su, 11, true⟩ : Card)] ++ G10 ++ [(⟨i10, su, 10, true⟩ : Card)] ++ G9 ++ [(⟨i9, su, 9, true⟩ : Card)] ++ G8 ++ [(⟨i8, su, 8, true⟩ : Card)] ++ G7 ++ [(⟨i7, su, 7, true⟩ : Card)] ++ G6 ++ rest).getD
      (pre.length + (6 + (G12.length + G11.length + G10.length + G9.length + G8.length + G7.length))) default = (⟨i7, su, 7, true⟩ : Card) := by
    rw [show pre ++ [(⟨i13, su, 13, true⟩ : Card)] ++ G12 ++ [(⟨i12, su, 12, true⟩ : Card)] ++ G11 ++ [(⟨i11, su, 11, true⟩ : Card)] ++ G10 ++ [(⟨i10, su, 10, true⟩ : Card)] ++ G9 ++ [(⟨i9, su, 9, true⟩ : Card)] ++ G8 ++ [(⟨i8, su, 8, true⟩ : Card)] ++ G7 ++ [(⟨i7, su, 7, true⟩ : Card)] ++ G6 ++ rest =
        (pre ++ [(⟨i13, su, 13, true⟩ : Card)] ++ G12 ++ [(⟨i12, su, 12, true⟩ : Card)] ++ G11 ++ [(⟨i11, su, 11, true⟩ : Card)] ++ G10 ++ [(⟨i10, su, 10, true⟩ : Card)] ++ G9 ++ [(⟨i9, su, 9, true⟩ : Card)] ++ G8 ++ [(⟨i8, su, 8, true⟩ : Card)] ++ G7) ++ ((⟨i7, su, 7, true⟩ : Card) :: (G6 ++ rest)) from by
          simp [List.append_assoc],
      show pre.length + (6 + (G12.length + G11.length + G10.length + G9.length + G8.length + G7.length)) =
          (pre ++ [(⟨i13, su, 13, true⟩ : Card)] ++ G12 ++ [(⟨i12, su, 12, true⟩ : Card)] ++ G11 ++ [(⟨i11, su, 11, true⟩ : Card)] ++ G10 ++ [(⟨i10, su, 10, true⟩ : Card)] ++ G9 ++ [(⟨i9, su, 9, true⟩ : Card)] ++ G8 ++ [(⟨i8, su, 8, true⟩ : Card)] ++ G7).length from by
          simp [List.length_append]
          omega]
    exact getD_at _ _ _
  dsimp only
  rw [hget]
  have hlast : (seq.getLastD default).rank = 6 :=
    getLastD_rank seq [2, 3, 4, 5] 6 (by rw [hseq]; decide)
  dsimp only
  rw [hlast]
  have hc : ((seq ++ [(⟨i7, su, 7, true⟩ : Card)]).length == 12) = false := by
    simp [List.length_append, hslen]
  simp only [Bool.not_true, beq_self_eq_true, Bool.true_and, Bool.true_or,
    show ((7 : Nat) == 6 + 1) = true from rfl, Bool.false_and, Bool.not_false,
    Bool.false_or, Bool.or_false, hc, if_true, eq_self_iff_true, Bool.false_eq_true,
    if_false]
  rw [show pre ++ [(⟨i13, su, 13, true⟩ : Card)] ++ G12 ++ [(⟨i12, su, 12, true⟩ : Card)] ++ G11 ++ [(⟨i11, su, 11, true⟩ : Card)] ++ G10 ++ [(⟨i10, su, 10, true⟩ : Card)] ++ G9 ++ [(⟨i9, su, 9, true⟩ : Card)] ++ G8 ++ [(⟨i8, su, 8, true⟩ : Card)] ++ G7 ++ [(⟨i7, su, 7, true⟩ : Card)] ++ G6 ++ rest =
      pre ++ [(⟨i13, su, 13, true⟩ : Card)] ++ G12 ++ [(⟨i12, su, 12, true⟩ : Card)] ++ G11 ++ [(⟨i11, su, 11, true⟩ : Card)] ++ G10 ++ [(⟨i10, su, 10, true⟩ : Card)] ++ G9 ++ [(⟨i9, su, 9, true⟩ : Card)] ++ G8 ++ [(⟨i8, su, 8, true⟩ : Card)] ++ G7 ++ ([(⟨i7, su, 7, true⟩ : Card)] ++ G6 ++ rest) from by
      simp [List.append_assoc]]
  rw [naL7 pre G12 G11 G10 G9 G8 G7 ([(⟨i7, su, 7, true⟩ : Card)] ++ G6 ++ rest) (seq ++ [(⟨i7, su, 7, true⟩ : Card)]) _ su i13 i12 i11 i10 i9 i8 hG12 hG11 hG10 hG9 hG8 hG7
      (by rw [List.map_append, hseq]; rfl) (6 + (G12.length + G11.length + G10.length + G9.length + G8.length + G7.length)) rfl]
  rw [decInd_assemble idxs pre.length (6 + (G12.length + G11.length + G10.length + G9.length + G8.length + G7.length)) G6.length n (by omega)]

theorem naL5 (pre G12 G11 G10 G9 G8 G7 G6 G5 rest seq : List Card)
    (idxs : List Nat) (su i13 i12 i11 i10 i9 i8 i7 i6 : Nat)
    (hG12 : ∀ x ∈ G12, x.faceUp = false)
    (hG11 : ∀ x ∈ G11, x.faceUp = false)
    (hG10 : ∀ x ∈ G10, x.faceUp = false)
    (hG9 : ∀ x ∈ G9, x.faceUp = false)
    (hG8 : ∀ x ∈ G8, x.faceUp = false)
    (hG7 : ∀ x ∈ G7, x.faceUp = false)
    (hG6 : ∀ x ∈ G6, x.faceUp = false)
    (hG5 : ∀ x ∈ G5, x.faceUp = false)
    (hseq : seq.map Card.rank = [2, 3, 4, 5])
    (n : Nat) (hn : n = 8 + (G12.length + G11.length + G10.length + G9.length + G8.length + G7.length + G6.length + G5.length)) :
    innerScan (pre ++ [⟨i13, su, 13, true⟩] ++ G12 ++ [⟨i12, su, 12, true⟩] ++ G11 ++ [⟨i11, su, 11, true⟩] ++ G10 ++ [⟨i10, su, 10, true⟩] ++ G9 ++ [⟨i9, su, 9, true⟩] ++ G8 ++ [⟨i8, su, 8, true⟩] ++ G7 ++ [⟨i7, su, 7, true⟩] ++ G6 ++ [⟨i6, su, 6, true⟩] ++ G5 ++ rest)
        false su seq idxs (pre.length + n) =
      some (idxs ++ decInd pre.length n) := by
  have hslen : seq.length = 4 := by
    have h := congrArg List.length hseq
    simpa using h
  rw [show pre.length + n = (pre.length + ((7 + (G12.length + G11.length + G10.length + G9.length + G8.length + G7.length + G6.length)) + 1)) + G5.length from by omega]
  rw [innerScan_skip
      (pre ++ [(⟨i13, su, 13, true⟩ : Card)] ++ G12 ++ [(⟨i12, su, 12, true⟩ : Card)] ++ G11 ++ [(⟨i11, su, 11, true⟩ : Card)] ++ G10 ++ [(⟨i10, su, 10, true⟩ : Card)] ++ G9 ++ [(⟨i9, su, 9, true⟩ : Card)] ++ G8 ++ [(⟨i8, su, 8, true⟩ : Card)] ++ G7 ++ [(⟨i7, su, 7, true⟩ : Card)] ++ G6 ++ [(⟨i6, su, 6, true⟩ : Card)] ++ G5 ++ rest)
      false su G5
      (pre ++ [(⟨i13, su, 13, true⟩ : Card)] ++ G12 ++ [(⟨i12, su, 12, true⟩ : Card)] ++ G11 ++ [(⟨i11, su, 11, true⟩ : Card)] ++ G10 ++ [(⟨i10, su, 10, true⟩ : Card)] ++ G9 ++ [(⟨i9, su, 9, true⟩ : Card)] ++ G8 ++ [(⟨i8, su, 8, true⟩ : Card)] ++ G7 ++ [(⟨i7, su, 7, true⟩ : Card)] ++ G6 ++ [(⟨i6, su, 6, true⟩ : Card)])
      rest seq idxs (pre.length + ((7 + (G12.length + G11.length + G10.length + G9.length + G8.length + G7.length + G6.length)) + 1))
      (by simp [List.append_assoc])
      (by simp [List.length_append]; omega)
      hG5]
  rw [show pre.length + ((7 + (G12.length + G11.length + G10.length + G9.length + G8.length + G7.length + G6.length)) + 1) = (pre.length + (7 + (G12.length + G11.length + G10.length + G9.length + G8.length + G7.length + G6.length))) + 1 from rfl]
  rw [innerScan_succ]
  have hget : (pre ++ [(⟨i13, su, 13, true⟩ : Card)] ++ G12 ++ [(⟨i12, su, 12, true⟩ : Card)] ++ G11 ++ [(⟨i11, su, 11, true⟩ : Card)] ++ G10 ++ [(⟨i10, su, 10, true⟩ : Card)] ++ G9 ++ [(⟨i9, su, 9, true⟩ : Card)] ++ G8 ++ [(⟨i8, su, 8, true⟩ : Card)] ++ G7 ++ [(⟨i7, su, 7, true⟩ : Card)] ++ G6 ++ [(⟨i6, su, 6, true⟩ : Card)] ++ G5 ++ rest).getD
      (pre.length + (7 + (G12.length + G11.length + G10.length + G9.length + G8.length + G7.length + G6.length))) default = (⟨i6, su, 6, true⟩ : Card) := by
    rw [show pre ++ [(⟨i13, su, 13, true⟩ : Card)] ++ G12 ++ [(⟨i12, su, 12, true⟩ : Card)] ++ G11 ++ [(⟨i11, su, 11, true⟩ : Card)] ++ G10 ++ [(⟨i10, su, 10, true⟩ : Card)] ++ G9 ++ [(⟨i9, su, 9, true⟩ : Card)] ++ G8 ++ [(⟨i8, su, 8, true⟩ : Card)] ++ G7 ++ [(⟨i7, su, 7, true⟩ : Card)] ++ G6 ++ [(⟨i6, su, 6, true⟩ : Card)] ++ G5 ++ rest =
        (pre ++ [(⟨i13, su, 13, true⟩ : Card)] ++ G12 ++ [(⟨i12, su, 12, true⟩ : Card)] ++ G11 ++ [(⟨i11, su, 11, true⟩ : Card)] ++ G10 ++ [(⟨i10, su, 10, true⟩ : Card)] ++ G9 ++ [(⟨i9, su, 9, true⟩ : Card)] ++ G8 ++ [(⟨i8, su, 8, true⟩ : Card)] ++ G7 ++ [(⟨i7, su, 7, true⟩ : Card)] ++ G6) ++ ((⟨i6, su, 6, true⟩ : Card) :: (G5 ++ rest)) from by
          simp [List.append_assoc],
      show pre.length + (7 + (G12.length + G11.length + G10.length + G9.length + G8.length + G7.length + G6.length)) =
          (pre ++ [(⟨i13, su, 13, true⟩ : Card)] ++ G12 ++ [(⟨i12, su, 12, true⟩ : Card)] ++ G11 ++ [(⟨i11, su, 11, true⟩ : Card)] ++ G10 ++ [(⟨i10, su, 10, true⟩ : Card)] ++ G9 ++ [(⟨i9, su, 9, true⟩ : Card)] ++ G8 ++ [(⟨i8, su, 8, true⟩ : Card)] ++ G7 ++ [(⟨i7, su, 7, true⟩ : Card)] ++ G6).length from by
          simp [List.length_append]
          omega]
    exact getD_at _ _ _
  dsimp only
  rw [hget]
  have hlast : (seq.getLastD default).rank = 5 :=
    getLastD_rank seq [2, 3, 4] 5 (by rw [hseq]; decide)
  dsimp only
  rw [hlast]
  have hc : ((seq ++ [(⟨i6, su, 6, true⟩ : Card)]).length == 12) = false := by
    simp [List.length_append, hslen]
  simp only [Bool.not_true, beq_self_eq_true, Bool.true_and, Bool.true_or,
    show ((6 : Nat) == 5 + 1) = true from rfl, Bool.false_and, Bool.not_false,
    Bool.false_or, Bool.or_false, hc, if_true, eq_self_iff_true, Bool.false_eq_true,
    if_false]
  rw [show pre ++ [(⟨i13, su, 13, true⟩ : Card)] ++ G12 ++ [(⟨i12, su, 12, true⟩ : Card)] ++ G11 ++ [(⟨i11, su, 11, true⟩ : Card)] ++ G10 ++ [(⟨i10, su, 10, true⟩ : Card)] ++ G9 ++ [(⟨i9, su, 9, true⟩ : Card)] ++ G8 ++ [(⟨i8, su, 8, true⟩ : Card)] ++ G7 ++ [(⟨i7, su, 7, true⟩ : Card)] ++ G6 ++ [(⟨i6, su, 6, true⟩ : Card)] ++ G5 ++ rest =
      pre ++ [(⟨i13, su, 13, true⟩ : Card)] ++ G12 ++ [(⟨i12, su, 12, true⟩ : Card)] ++ G11 ++ [(⟨i11, su, 11, true⟩ : Card)] ++ G10 ++ [(⟨i10, su, 10, true⟩ : Card)] ++ G9 ++ [(⟨i9, su, 9, true⟩ : Card)] ++ G8 ++ [(⟨i8, su, 8, true⟩ : Card)] ++ G7 ++ [(⟨i7, su, 7, true⟩ : Card)] ++ G6 ++ ([(⟨i6, su, 6, true⟩ : Card)] ++ G5 ++ rest) from by
      simp [List.append_assoc]]
  rw [naL6 pre G12 G11 G10 G9 G8 G7 G6 ([(⟨i6, su, 6, true⟩ : Card)] ++ G5 ++ rest) (seq ++ [(⟨i6, su, 6, true⟩ : Card)]) _ su i13 i12 i11 i10 i9 i8 i7 hG12 hG11 hG10 hG9 hG8 hG7 hG6
      (by rw [List.map_append, hseq]; rfl) (7 + (G12.length + G11.length + G10.length + G9.length + G8.length + G7.length + G6.length)) rfl]
  rw [decInd_assemble idxs pre.length (7 + (G12.length + G11.length + G10.length + G9.length + G8.length + G7.length + G6.length)) G5.length n (by omega)]

theorem naL4 (pre G12 G11 G10 G9 G8 G7 G6 G5 G4 rest seq : List Card)
    (idxs : List Nat) (su i13 i12 i11 i10 i9 i8 i7 i6 i5 : Nat)
    (hG12 : ∀ x ∈ G12, x.faceUp = false)
    (hG11 : ∀ x ∈ G11, x.faceUp = false)
    (hG10 : ∀ x ∈ G10, x.faceUp = false)
    (hG9 : ∀ x ∈ G9, x.faceUp = false)
    (hG8 : ∀ x ∈ G8, x.faceUp = false)
    (hG7 : ∀ x ∈ G7, x.faceUp = false)
    (hG6 : ∀ x ∈ G6, x.faceUp = false)
    (hG5 : ∀ x ∈ G5, x.faceUp = false)
    (hG4 : ∀ x ∈ G4, x.faceUp = false)
    (hseq : seq.map Card.rank = [2, 3, 4])
    (n : Nat) (hn : n = 9 + (G12.length + G11.length + G10.length + G9.length + G8.length + G7.length + G6.length + G5.length + G4.length)) :
    innerScan (pre ++ [⟨i13, su, 13, true⟩] ++ G12 ++ [⟨i12, su, 12, true⟩] ++ G11 ++ [⟨i11, su, 11, true⟩] ++ G10 ++ [⟨i10, su, 10, true⟩] ++ G9 ++ [⟨i9, su, 9, true⟩] ++ G8 ++ [⟨i8, su, 8, true⟩] ++ G7 ++ [⟨i7, su, 7, true⟩] ++ G6 ++ [⟨i6, su, 6, true⟩] ++ G5 ++ [⟨i5, su, 5, true⟩] ++ G4 ++ rest)
        false su seq idxs (pre.length + n) =
      some (idxs ++ decInd pre.length n) := by
  have hslen : seq.length = 3 := by
    have h := congrArg List.length hseq
    simpa using h
  rw [show pre.length + n = (pre.length + ((8 + (G12.length + G11.length + G10.length + G9.length + G8.length + G7.length + G6.length + G5.length)) + 1)) + G4.length from by omega]
  rw [innerScan_skip
      (pre ++ [(⟨i13, su, 13, true⟩ : Card)] ++ G12 ++ [(⟨i12, su, 12, true⟩ : Card)] ++ G11 ++ [(⟨i11, su, 11, true⟩ : Card)] ++ G10 ++ [(⟨i10, su, 10, true⟩ : Card)] ++ G9 ++ [(⟨i9, su, 9, true⟩ : Card)] ++ G8 ++ [(⟨i8, su, 8, true⟩ : Card)] ++ G7 ++ [(⟨i7, su, 7, true⟩ : Card)] ++ G6 ++ [(⟨i6, su, 6, true⟩ : Card)] ++ G5 ++ [(⟨i5, su, 5, true⟩ : Card)] ++ G4 ++ rest)
      false su G4
      (pre ++ [(⟨i13, su, 13, true⟩ : Card)] ++ G12 ++ [(⟨i12, su, 12, true⟩ : Card)] ++ G11 ++ [(⟨i11, su, 11, true⟩ : Card)] ++ G10 ++ [(⟨i10, su, 10, true⟩ : Card)] ++ G9 ++ [(⟨i9, su, 9, true⟩ : Card)] ++ G8 ++ [(⟨i8, su, 8, true⟩ : Card)] ++ G7 ++ [(⟨i7, su, 7, true⟩ : Card)] ++ G6 ++ [(⟨i6, su, 6, true⟩ : Card)] ++ G5 ++ [(⟨i5, su, 5, true⟩ : Card)])
      rest seq idxs (pre.length + ((8 + (G12.length + G11.length + G10.length + G9.length + G8.length + G7.length + G6.length + G5.length)) + 1))
      (by simp [List.append_assoc])
      (by simp [List.length_append]; omega)
      hG4]
  rw [show pre.length + ((8 + (G12.length + G11.length + G10.length + G9.length + G8.length + G7.length + G6.length + G5.length)) + 1) = (pre.length + (8 + (G12.length + G11.length + G10.length + G9.length + G8.length + G7.length + G6.length + G5.length))) + 1 from rfl]
  rw [innerScan_succ]
  have hget : (pre ++ [(⟨i13, su, 13, true⟩ : Card)] ++ G12 ++ [(⟨i12, su, 12, true⟩ : Card)] ++ G11 ++ [(⟨i11, su, 11, true⟩ : Card)] ++ G10 ++ [(⟨i10, su, 10, true⟩ : Card)] ++ G9 ++ [(⟨i9, su, 9, true⟩ : Card)] ++ G8 ++ [(⟨i8, su, 8, true⟩ : Card)] ++ G7 ++ [(⟨i7, su, 7, true⟩ : Card)] ++ G6 ++ [(⟨i6, su, 6, true⟩ : Card)] ++ G5 ++ [(⟨i5, su, 5, true⟩ : Card)] ++ G4 ++ rest).getD
      (pre.length + (8 + (G12.length + G11.length + G10.length + G9.length + G8.length + G7.length + G6.length + G5.length))) default = (⟨i5, su, 5, true⟩ : Card) := by
    rw [show pre ++ [(⟨i13, su, 13, true⟩ : Card)] ++ G12 ++ [(⟨i12, su, 12, true⟩ : Card)] ++ G11 ++ [(⟨i11, su, 11, true⟩ : Card)] ++ G10 ++ [(⟨i10, su, 10, true⟩ : Card)] ++ G9 ++ [(⟨i9, su, 9, true⟩ : Card)] ++ G8 ++ [(⟨i8, su, 8, true⟩ : Card)] ++ G7 ++ [(⟨i7, su, 7, true⟩ : Card)] ++ G6 ++ [(⟨i6, su, 6, true⟩ : Card)] ++ G5 ++ [(⟨i5, su, 5, true⟩ : Card)] ++ G4 ++ rest =
        (pre ++ [(⟨i13, su, 13, true⟩ : Card)] ++ G12 ++ [(⟨i12, su, 12, true⟩ : Card)] ++ G11 ++ [(⟨i11, su, 11, true⟩ : Card)] ++ G10 ++ [(⟨i10, su, 10, true⟩ : Card)] ++ G9 ++ [(⟨i9, su, 9, true⟩ : Card)] ++ G8 ++ [(⟨i8, su, 8, true⟩ : Card)] ++ G7 ++ [(⟨i7, su, 7, true⟩ : Card)] ++ G6 ++ [(⟨i6, su, 6, true⟩ : Card)] ++ G5) ++ ((⟨i5, su, 5, true⟩ : Card) :: (G4 ++ rest)) from by
          simp [List.append_assoc],
      show pre.length + (8 + (G12.length + G11.length + G10.length + G9.length + G8.length + G7.length + G6.length + G5.length)) =
          (pre ++ [(⟨i13, su, 13, true⟩ : Card)] ++ G12 ++ [(⟨i12, su, 12, true⟩ : Card)] ++ G11 ++ [(⟨i11, su, 11, true⟩ : Card)] ++ G10 ++ [(⟨i10, su, 10, true⟩ : Card)] ++ G9 ++ [(⟨i9, su, 9, true⟩ : Card)] ++ G8 ++ [(⟨i8, su, 8, true⟩ : Card)] ++ G7 ++ [(⟨i7, su, 7, true⟩ : Card)] ++ G6 ++ [(⟨i6, su, 6, true⟩ : Card)] ++ G5).length from by
          simp [List.length_append]
          omega]
    exact getD_at _ _ _
  dsimp only
  rw [hget]
  have hlast : (seq.getLastD default).rank = 4 :=
    getLastD_rank seq [2, 3] 4 (by rw [hseq]; decide)
  dsimp only
  rw [hlast]
  have hc : ((seq ++ [(⟨i5, su, 5, true⟩ : Card)]).length == 12) = false := by
    simp [List.length_append, hslen]
  simp only [Bool.not_true, beq_self_eq_true, Bool.true_and, Bool.true_or,
    show ((5 : Nat) == 4 + 1) = true from rfl, Bool.false_and, Bool.not_false,
    Bool.false_or, Bool.or_false, hc, if_true, eq_self_iff_true, Bool.false_eq_true,
    if_false]
  rw [show pre ++ [(⟨i13, su, 13, true⟩ : Card)] ++ G12 ++ [(⟨i12, su, 12, true⟩ : Card)] ++ G11 ++ [(⟨i11, su, 11, true⟩ : Card)] ++ G10 ++ [(⟨i10, su, 10, true⟩ : Card)] ++ G9 ++ [(⟨i9, su, 9, true⟩ : Card)] ++ G8 ++ [(⟨i8, su, 8, true⟩ : Card)] ++ G7 ++ [(⟨i7, su, 7, true⟩ : Card)] ++ G6 ++ [(⟨i6, su, 6, true⟩ : Card)] ++ G5 ++ [(⟨i5, su, 5, true⟩ : Card)] ++ G4 ++ rest =
      pre ++ [(⟨i13, su, 13, true⟩ : Card)] ++ G12 ++ [(⟨i12, su, 12, true⟩ : Card)] ++ G11 ++ [(⟨i11, su, 11, true⟩ : Card)] ++ G10 ++ [(⟨i10, su, 10, true⟩ : Card)] ++ G9 ++ [(⟨i9, su, 9, true⟩ : Card)] ++ G8 ++ [(⟨i8, su, 8, true⟩ : Card)] ++ G7 ++ [(⟨i7, su, 7, true⟩ : Card)] ++ G6 ++ [(⟨i6, su, 6, true⟩ : Card)] ++ G5 ++ ([(⟨i5, su, 5, true⟩ : Card)] ++ G4 ++ rest) from by
      simp [List.append_assoc]]
  rw [naL5 pre G12 G11 G10 G9 G8 G7 G6 G5 ([(⟨i5, su, 5, true⟩ : Card)] ++ G4 ++ rest) (seq ++ [(⟨i5, su, 5, true⟩ : Card)]) _ su i13 i12 i11 i10 i9 i8 i7 i6 hG12 hG11 hG10 hG9 hG8 hG7 hG6 hG5
      (by rw [List.map_append, hseq]; rfl) (8 + (G12.length + G11.length + G10.length + G9.length + G8.length + G7.length + G6.length + G5.length)) rfl]
  rw [decInd_assemble idxs pre.length (8 + (G12.length + G11.length + G10.length + G9.length + G8.length + G7.length + G6.length + G5.length)) G4.length n (by omega)]

theorem naL3 (pre G12 G11 G10 G9 G8 G7 G6 G5 G4 G3 rest seq : List Card)
    (idxs : List Nat) (su i13 i12 i11 i10 i9 i8 i7 i6 i5 i4 : Nat)
    (hG12 : ∀ x ∈ G12, x.faceUp = false)
    (hG11 : ∀ x ∈ G11, x.faceUp = false)
    (hG10 : ∀ x ∈ G10, x.faceUp = false)
    (hG9 : ∀ x ∈ G9, x.faceUp = false)
    (hG8 : ∀ x ∈ G8, x.faceUp = false)
    (hG7 : ∀ x ∈ G7, x.faceUp = false)
    (hG6 : ∀ x ∈ G6, x.faceUp = false)
    (hG5 : ∀ x ∈ G5, x.faceUp = false)
    (hG4 : ∀ x ∈ G4, x.faceUp = false)
    (hG3 : ∀ x ∈ G3, x.faceUp = false)
    (hseq : seq.map Card.rank = [2, 3])
    (n : Nat) (hn : n = 10 + (G12.length + G11.length + G10.length + G9.length + G8.length + G7.length + G6.length + G5.length + G4.length + G3.length)) :
    innerScan (pre ++ [⟨i13, su, 13, true⟩] ++ G12 ++ [⟨i12, su, 12, true⟩] ++ G11 ++ [⟨i11, su, 11, true⟩] ++ G10 ++ [⟨i10, su, 10, true⟩] ++ G9 ++ [⟨i9, su, 9, true⟩] ++ G8 ++ [⟨i8, su, 8, true⟩] ++ G7 ++ [⟨i7, su, 7, true⟩] ++ G6 ++ [⟨i6, su, 6, true⟩] ++ G5 ++ [⟨i5, su, 5, true⟩] ++ G4 ++ [⟨i4, su, 4, true⟩] ++ G3 ++ rest)
        false su seq idxs (pre.length + n) =
      some (idxs ++ decInd pre.length n) := by
  have hslen : seq.length = 2 := by
    have h := congrArg List.length hseq
    simpa using h
  rw [show pre.length + n = (pre.length + ((9 + (G12.length + G11.length + G10.length + G9.length + G8.length + G7.length + G6.length + G5.length + G4.length)) + 1)) + G3.length from by omega]
  rw [innerScan_skip
      (pre ++ [(⟨i13, su, 13, true⟩ : Card)] ++ G12 ++ [(⟨i12, su, 12, true⟩ : Card)] ++ G11 ++ [(⟨i11, su, 11, true⟩ : Card)] ++ G10 ++ [(⟨i10, su, 10, true⟩ : Card)] ++ G9 ++ [(⟨i9, su, 9, true⟩ : Card)] ++ G8 ++ [(⟨i8, su, 8, true⟩ : Card)] ++ G7 ++ [(⟨i7, su, 7, true⟩ : Card)] ++ G6 ++ [(⟨i6, su, 6, true⟩ : Card)] ++ G5 ++ [(⟨i5, su, 5, true⟩ : Card)] ++ G4 ++ [(⟨i4, su, 4, true⟩ : Card)] ++ G3 ++ rest)
      false su G3
      (pre ++ [(⟨i13, su, 13, true⟩ : Card)] ++ G12 ++ [(⟨i12, su, 12, true⟩ : Card)] ++ G11 ++ [(⟨i11, su, 11, true⟩ : Card)] ++ G10 ++ [(⟨i10, su, 10, true⟩ : Card)] ++ G9 ++ [(⟨i9, su, 9, true⟩ : Card)] ++ G8 ++ [(⟨i8, su, 8, true⟩ : Card)] ++ G7 ++ [(⟨i7, su, 7, true⟩ : Card)] ++ G6 ++ [(⟨i6, su, 6, true⟩ : Card)] ++ G5 ++ [(⟨i5, su, 5, true⟩ : Card)] ++ G4 ++ [(⟨i4, su, 4, true⟩ : Card)])
      rest seq idxs (pre.length + ((9 + (G12.length + G11.length + G10.length + G9.length + G8.length + G7.length + G6.length + G5.length + G4.length)) + 1))
      (by simp [List.append_assoc])
      (by simp [List.length_append]; omega)
      hG3]
  rw [show pre.length + ((9 + (G12.length + G11.length + G10.length + G9.length + G8.length + G7.length + G6.length + G5.length + G4.length)) + 1) = (pre.length + (9 + (G12.length + G11.length + G10.length + G9.length + G8.length + G7.length + G6.length + G5.length + G4.length))) + 1 from rfl]
  rw [innerScan_succ]
  have hget : (pre ++ [(⟨i13, su, 13, true⟩ : Card)] ++ G12 ++ [(⟨i12, su, 12, true⟩ : Card)] ++ G11 ++ [(⟨i11, su, 11, true⟩ : Card)] ++ G10 ++ [(⟨i10, su, 10, true⟩ : Card)] ++ G9 ++ [(⟨i9, su, 9, true⟩ : Card)] ++ G8 ++ [(⟨i8, su, 8, true⟩ : Card)] ++ G7 ++ [(⟨i7, su, 7, true⟩ : Card)] ++ G6 ++ [(⟨i6, su, 6, true⟩ : Card)] ++ G5 ++ [(⟨i5, su, 5, true⟩ : Card)] ++ G4 ++ [(⟨i4, su, 4, true⟩ : Card)] ++ G3 ++ rest).getD
      (pre.length + (9 + (G12.length + G11.length + G10.length + G9.length + G8.length + G7.length + G6.length + G5.length + G4.length))) default = (⟨i4, su, 4, true⟩ : Card) := by
    rw [show pre ++ [(⟨i13, su, 13, true⟩ : Card)] ++ G12 ++ [(⟨i12, su, 12, true⟩ : Card)] ++ G11 ++ [(⟨i11, su, 11, true⟩ : Card)] ++ G10 ++ [(⟨i10, su, 10, true⟩ : Card)] ++ G9 ++ [(⟨i9, su, 9, true⟩ : Card)] ++ G8 ++ [(⟨i8, su, 8, true⟩ : Card)] ++ G7 ++ [(⟨i7, su, 7, true⟩ : Card)] ++ G6 ++ [(⟨i6, su, 6, true⟩ : Card)] ++ G5 ++ [(⟨i5, su, 5, true⟩ : Card)] ++ G4 ++ [(⟨i4, su, 4, true⟩ : Card)] ++ G3 ++ rest =
        (pre ++ [(⟨i13, su, 13, true⟩ : Card)] ++ G12 ++ [(⟨i12, su, 12, true⟩ : Card)] ++ G11 ++ [(⟨i11, su, 11, true⟩ : Card)] ++ G10 ++ [(⟨i10, su, 10, true⟩ : Card)] ++ G9 ++ [(⟨i9, su, 9, true⟩ : Card)] ++ G8 ++ [(⟨i8, su, 8, true⟩ : Card)] ++ G7 ++ [(⟨i7, su, 7, true⟩ : Card)] ++ G6 ++ [(⟨i6, su, 6, true⟩ : Card)] ++ G5 ++ [(⟨i5, su, 5, true⟩ : Card)] ++ G4) ++ ((⟨i4, su, 4, true⟩ : Card) :: (G3 ++ rest)) from by
          simp [List.append_assoc],
      show pre.length + (9 + (G12.length + G11.length + G10.length + G9.length + G8.length + G7.length + G6.length + G5.length + G4.length)) =
          (pre ++ [(⟨i13, su, 13, true⟩ : Card)] ++ G12 ++ [(⟨i12, su, 12, true⟩ : Card)] ++ G11 ++ [(⟨i11, su, 11, true⟩ : Card)] ++ G10 ++ [(⟨i10, su, 10, true⟩ : Card)] ++ G9 ++ [(⟨i9, su, 9, true⟩ : Card)] ++ G8 ++ [(⟨i8, su, 8, true⟩ : Card)] ++ G7 ++ [(⟨i7, su, 7, true⟩ : Card)] ++ G6 ++ [(⟨i6, su, 6, true⟩ : Card)] ++ G5 ++ [(⟨i5, su, 5, true⟩ : Card)] ++ G4).length from by
          simp [List.length_append]
          omega]
    exact getD_at _ _ _
  dsimp only
  rw [hget]
  have hlast : (seq.getLastD default).rank = 3 :=
    getLastD_rank seq [2] 3 (by rw [hseq]; decide)
  dsimp only
  rw [hlast]
  have hc : ((seq ++ [(⟨i4, su, 4, true⟩ : Card)]).length == 12) = false := by
    simp [List.length_append, hslen]
  simp only [Bool.not_true, beq_self_eq_true, Bool.true_and, Bool.true_or,
    show ((4 : Nat) == 3 + 1) = true from rfl, Bool.false_and, Bool.not_false,
    Bool.false_or, Bool.or_false, hc, if_true, eq_self_iff_true, Bool.false_eq_true,
    if_false]
  rw [show pre ++ [(⟨i13, su, 13, true⟩ : Card)] ++ G12 ++ [(⟨i12, su, 12, true⟩ : Card)] ++ G11 ++ [(⟨i11, su, 11, true⟩ : Card)] ++ G10 ++ [(⟨i10, su, 10, true⟩ : Card)] ++ G9 ++ [(⟨i9, su, 9, true⟩ : Card)] ++ G8 ++ [(⟨i8, su, 8, true⟩ : Card)] ++ G7 ++ [(⟨i7, su, 7, true⟩ : Card)] ++ G6 ++ [(⟨i6, su, 6, true⟩ : Card)] ++ G5 ++ [(⟨i5, su, 5, true⟩ : Card)] ++ G4 ++ [(⟨i4, su, 4, true⟩ : Card)] ++ G3 ++ rest =
      pre ++ [(⟨i13, su, 13, true⟩ : Card)] ++ G12 ++ [(⟨i12, su, 12, true⟩ : Card)] ++ G11 ++ [(⟨i11, su, 11, true⟩ : Card)] ++ G10 ++ [(⟨i10, su, 10, true⟩ : Card)] ++ G9 ++ [(⟨i9, su, 9, true⟩ : Card)] ++ G8 ++ [(⟨i8, su, 8, true⟩ : Card)] ++ G7 ++ [(⟨i7, su, 7, true⟩ : Card)] ++ G6 ++ [(⟨i6, su, 6, true⟩ : Card)] ++ G5 ++ [(⟨i5, su, 5, true⟩ : Card)] ++ G4 ++ ([(⟨i4, su, 4, true⟩ : Card)] ++ G3 ++ rest) from by
      simp [List.append_assoc]]
  rw [naL4 pre G12 G11 G10 G9 G8 G7 G6 G5 G4 ([(⟨i4, su, 4, true⟩ : Card)] ++ G3 ++ rest) (seq ++ [(⟨i4, su, 4, true⟩ : Card)]) _ su i13 i12 i11 i10 i9 i8 i7 i6 i5 hG12 hG11 hG10 hG9 hG8 hG7 hG6 hG5 hG4
      (by rw [List.map_append, hseq]; rfl) (9 + (G12.length + G11.length + G10.length + G9.length + G8.length + G7.length + G6.length + G5.length + G4.length)) rfl]
  rw [decInd_assemble idxs pre.length (9 + (G12.length + G11.length + G10.length + G9.length + G8.length + G7.length + G6.length + G5.length + G4.length)) G3.length n (by omega)]

theorem naL2 (pre G12 G11 G10 G9 G8 G7 G6 G5 G4 G3 G2 rest seq : List Card)
    (idxs : List Nat) (su i13 i12 i11 i10 i9 i8 i7 i6 i5 i4 i3 : Nat)
    (hG12 : ∀ x ∈ G12, x.faceUp = false)
    (hG11 : ∀ x ∈ G11, x.faceUp = false)
    (hG10 : ∀ x ∈ G10, x.faceUp = false)
    (hG9 : ∀ x ∈ G9, x.faceUp = false)
    (hG8 : ∀ x ∈ G8, x.faceUp = false)
    (hG7 : ∀ x ∈ G7, x.faceUp = false)
    (hG6 : ∀ x ∈ G6, x.faceUp = false)
    (hG5 : ∀ x ∈ G5, x.faceUp = false)
    (hG4 : ∀ x ∈ G4, x.faceUp = false)
    (hG3 : ∀ x ∈ G3, x.faceUp = false)
    (hG2 : ∀ x ∈ G2, x.faceUp = false)
    (hseq : seq.map Card.rank = [2])
    (n : Nat) (hn : n = 11 + (G12.length + G11.length + G10.length + G9.length + G8.length + G7.length + G6.length + G5.length + G4.length + G3.length + G2.length)) :
    innerScan (pre ++ [⟨i13, su, 13, true⟩] ++ G12 ++ [⟨i12, su, 12, true⟩] ++ G11 ++ [⟨i11, su, 11, true⟩] ++ G10 ++ [⟨i10, su, 10, true⟩] ++ G9 ++ [⟨i9, su, 9, true⟩] ++ G8 ++ [⟨i8, su, 8, true⟩] ++ G7 ++ [⟨i7, su, 7, true⟩] ++ G6 ++ [⟨i6, su, 6, true⟩] ++ G5 ++ [⟨i5, su, 5, true⟩] ++ G4 ++ [⟨i4, su, 4, true⟩] ++ G3 ++ [⟨i3, su, 3, true⟩] ++ G2 ++ rest)
        false su seq idxs (pre.length + n) =
      some (idxs ++ decInd pre.length n) := by
  have hslen : seq.length = 1 := by
    have h := congrArg List.length hseq
    simpa using h
  rw [show pre.length + n = (pre.length + ((10 + (G12.length + G11.length + G10.length + G9.length + G8.length + G7.length + G6.length + G5.length + G4.length + G3.length)) + 1)) + G2.length from by omega]
  rw [innerScan_skip
      (pre ++ [(⟨i13, su, 13, true⟩ : Card)] ++ G12 ++ [(⟨i12, su, 12, true⟩ : Card)] ++ G11 ++ [(⟨i11, su, 11, true⟩ : Card)] ++ G10 ++ [(⟨i10, su, 10, true⟩ : Card)] ++ G9 ++ [(⟨i9, su, 9, true⟩ : Card)] ++ G8 ++ [(⟨i8, su, 8, true⟩ : Card)] ++ G7 ++ [(⟨i7, su, 7, true⟩ : Card)] ++ G6 ++ [(⟨i6, su, 6, true⟩ : Card)] ++ G5 ++ [(⟨i5, su, 5, true⟩ : Card)] ++ G4 ++ [(⟨i4, su, 4, true⟩ : Card)] ++ G3 ++ [(⟨i3, su, 3, true⟩ : Card)] ++ G2 ++ rest)
      false su G2
      (pre ++ [(⟨i13, su, 13, true⟩ : Card)] ++ G12 ++ [(⟨i12, su, 12, true⟩ : Card)] ++ G11 ++ [(⟨i11, su, 11, true⟩ : Card)] ++ G10 ++ [(⟨i10, su, 10, true⟩ : Card)] ++ G9 ++ [(⟨i9, su, 9, true⟩ : Card)] ++ G8 ++ [(⟨i8, su, 8, true⟩ : Card)] ++ G7 ++ [(⟨i7, su, 7, true⟩ : Card)] ++ G6 ++ [(⟨i6, su, 6, true⟩ : Card)] ++ G5 ++ [(⟨i5, su, 5, true⟩ : Card)] ++ G4 ++ [(⟨i4, su, 4, true⟩ : Card)] ++ G3 ++ [(⟨i3, su, 3, true⟩ : Card)])
      rest seq idxs (pre.length + ((10 + (G12.length + G11.length + G10.length + G9.length + G8.length + G7.length + G6.length + G5.length + G4.length + G3.length)) + 1))
      (by simp [List.append_assoc])
      (by simp [List.length_append]; omega)
      hG2]
  rw [show pre.length + ((10 + (G12.length + G11.length + G10.length + G9.length + G8.length + G7.length + G6.length + G5.length + G4.length + G3.length)) + 1) = (pre.length + (10 + (G12.length + G11.length + G10.length + G9.length + G8.length + G7.length + G6.length + G5.length + G4.length + G3.length))) + 1 from rfl]
  rw [innerScan_succ]
  have hget : (pre ++ [(⟨i13, su, 13, true⟩ : Card)] ++ G12 ++ [(⟨i12, su, 12, true⟩ : Card)] ++ G11 ++ [(⟨i11, su, 11, true⟩ : Card)] ++ G10 ++ [(⟨i10, su, 10, true⟩ : Card)] ++ G9 ++ [(⟨i9, su, 9, true⟩ : Card)] ++ G8 ++ [(⟨i8, su, 8, true⟩ : Card)] ++ G7 ++ [(⟨i7, su, 7, true⟩ : Card)] ++ G6 ++ [(⟨i6, su, 6, true⟩ : Card)] ++ G5 ++ [(⟨i5, su, 5, true⟩ : Card)] ++ G4 ++ [(⟨i4, su, 4, true⟩ : Card)] ++ G3 ++ [(⟨i3, su, 3, true⟩ : Card)] ++ G2 ++ rest).getD
      (pre.length + (10 + (G12.length + G11.length + G10.length + G9.length + G8.length + G7.length + G6.length + G5.length + G4.length + G3.length))) default = (⟨i3, su, 3, true⟩ : Card) := by
    rw [show pre ++ [(⟨i13, su, 13, true⟩ : Card)] ++ G12 ++ [(⟨i12, su, 12, true⟩ : Card)] ++ G11 ++ [(⟨i11, su, 11, true⟩ : Card)] ++ G10 ++ [(⟨i10, su, 10, true⟩ : Card)] ++ G9 ++ [(⟨i9, su, 9, true⟩ : Card)] ++ G8 ++ [(⟨i8, su, 8, true⟩ : Card)] ++ G7 ++ [(⟨i7, su, 7, true⟩ : Card)] ++ G6 ++ [(⟨i6, su, 6, true⟩ : Card)] ++ G5 ++ [(⟨i5, su, 5, true⟩ : Card)] ++ G4 ++ [(⟨i4, su, 4, true⟩ : Card)] ++ G3 ++ [(⟨i3, su, 3, true⟩ : Card)] ++ G2 ++ rest =
        (pre ++ [(⟨i13, su, 13, true⟩ : Card)] ++ G12 ++ [(⟨i12, su, 12, true⟩ : Card)] ++ G11 ++ [(⟨i11, su, 11, true⟩ : Card)] ++ G10 ++ [(⟨i10, su, 10, true⟩ : Card)] ++ G9 ++ [(⟨i9, su, 9, true⟩ : Card)] ++ G8 ++ [(⟨i8, su, 8, true⟩ : Card)] ++ G7 ++ [(⟨i7, su, 7, true⟩ : Card)] ++ G6 ++ [(⟨i6, su, 6, true⟩ : Card)] ++ G5 ++ [(⟨i5, su, 5, true⟩ : Card)] ++ G4 ++ [(⟨i4, su, 4, true⟩ : Card)] ++ G3) ++ ((⟨i3, su, 3, true⟩ : Card) :: (G2 ++ rest)) from by
          simp [List.append_assoc],
      show pre.length + (10 + (G12.length + G11.length + G10.length + G9.length + G8.length + G7.length + G6.length + G5.length + G4.length + G3.length)) =
          (pre ++ [(⟨i13, su, 13, true⟩ : Card)] ++ G12 ++ [(⟨i12, su, 12, true⟩ : Card)] ++ G11 ++ [(⟨i11, su, 11, true⟩ : Card)] ++ G10 ++ [(⟨i10, su, 10, true⟩ : Card)] ++ G9 ++ [(⟨i9, su, 9, true⟩ : Card)] ++ G8 ++ [(⟨i8, su, 8, true⟩ : Card)] ++ G7 ++ [(⟨i7, su, 7, true⟩ : Card)] ++ G6 ++ [(⟨i6, su, 6, true⟩ : Card)] ++ G5 ++ [(⟨i5, su, 5, true⟩ : Card)] ++ G4 ++ [(⟨i4, su, 4, true⟩ : Card)] ++ G3).length from by
          simp [List.length_append]
          omega]
    exact getD_at _ _ _
  dsimp only
  rw [hget]
  have hlast : (seq.getLastD default).rank = 2 :=
    getLastD_rank seq [] 2 (by rw [hseq]; decide)
  dsimp only
  rw [hlast]
  have hc : ((seq ++ [(⟨i3, su, 3, true⟩ : Card)]).length == 12) = false := by
    simp [List.length_append, hslen]
  simp only [Bool.not_true, beq_self_eq_true, Bool.true_and, Bool.true_or,
    show ((3 : Nat) == 2 + 1) = true from rfl, Bool.false_and, Bool.not_false,
    Bool.false_or, Bool.or_false, hc, if_true, eq_self_iff_true, Bool.false_eq_true,
    if_false]
  rw [show pre ++ [(⟨i13, su, 13, true⟩ : Card)] ++ G12 ++ [(⟨i12, su, 12, true⟩ : Card)] ++ G11 ++ [(⟨i11, su, 11, true⟩ : Card)] ++ G10 ++ [(⟨i10, su, 10, true⟩ : Card)] ++ G9 ++ [(⟨i9, su, 9, true⟩ : Card)] ++ G8 ++ [(⟨i8, su, 8, true⟩ : Card)] ++ G7 ++ [(⟨i7, su, 7, true⟩ : Card)] ++ G6 ++ [(⟨i6, su, 6, true⟩ : Card)] ++ G5 ++ [(⟨i5, su, 5, true⟩ : Card)] ++ G4 ++ [(⟨i4, su, 4, true⟩ : Card)] ++ G3 ++ [(⟨i3, su, 3, true⟩ : Card)] ++ G2 ++ rest =
      pre ++ [(⟨i13, su, 13, true⟩ : Card)] ++ G12 ++ [(⟨i12, su, 12, true⟩ : Card)] ++ G11 ++ [(⟨i11, su, 11, true⟩ : Card)] ++ G10 ++ [(⟨i10, su, 10, true⟩ : Card)] ++ G9 ++ [(⟨i9, su, 9, true⟩ : Card)] ++ G8 ++ [(⟨i8, su, 8, true⟩ : Card)] ++ G7 ++ [(⟨i7, su, 7, true⟩ : Card)] ++ G6 ++ [(⟨i6, su, 6, true⟩ : Card)] ++ G5 ++ [(⟨i5, su, 5, true⟩ : Card)] ++ G4 ++ [(⟨i4, su, 4, true⟩ : Card)] ++ G3 ++ ([(⟨i3, su, 3, true⟩ : Card)] ++ G2 ++ rest) from by
      simp [List.append_assoc]]
  rw [naL3 pre G12 G11 G10 G9 G8 G7 G6 G5 G4 G3 ([(⟨i3, su, 3, true⟩ : Card)] ++ G2 ++ rest) (seq ++ [(⟨i3, su, 3, true⟩ : Card)]) _ su i13 i12 i11 i10 i9 i8 i7 i6 i5 i4 hG12 hG11 hG10 hG9 hG8 hG7 hG6 hG5 hG4 hG3
      (by rw [List.map_append, hseq]; rfl) (10 + (G12.length + G11.length + G10.length + G9.length + G8.length + G7.length + G6.length + G5.length + G4.length + G3.length)) rfl]
  rw [decInd_assemble idxs pre.length (10 + (G12.length + G11.length + G10.length + G9.length + G8.length + G7.length + G6.length + G5.length + G4.length + G3.length)) G2.length n (by omega)]

theorem aL11 (pre G12 G11 rest seq : List Card)
    (idxs : List Nat) (su i13 i12 : Nat)
    (hG12 : ∀ x ∈ G12, x.faceUp = false)
    (hG11 : ∀ x ∈ G11, x.faceUp = false)
    (hseq : seq.map Card.rank = [1, 2, 3, 4, 5, 6, 7, 8, 9, 10, 11])
    (n : Nat) (hn : n = 2 + (G12.length + G11.length)) :
    innerScan (pre ++ [⟨i13, su, 13, true⟩] ++ G12 ++ [⟨i12, su, 12, true⟩] ++ G11 ++ rest)
        true su seq idxs (pre.length + n) =
      some (idxs ++ decInd pre.length n) := by
  have hslen : seq.length = 11 := by
    have h := congrArg List.length hseq
    simpa using h
  rw [show pre.length + n = (pre.length + ((1 + G12.length) + 1)) + G11.length from by omega]
  rw [innerScan_skip
      (pre ++ [(⟨i13, su, 13, true⟩ : Card)] ++ G12 ++ [(⟨i12, su, 12, true⟩ : Card)] ++ G11 ++ rest)
      true su G11
      (pre ++ [(⟨i13, su, 13, true⟩ : Card)] ++ G12 ++ [(⟨i12, su, 12, true⟩ : Card)])
      rest seq idxs (pre.length + ((1 + G12.length) + 1))
      (by simp [List.append_assoc])
      (by simp [List.length_append]; omega)
      hG11]
  rw [show pre.length + ((1 + G12.length) + 1) = (pre.length + (1 + G12.length)) + 1 from rfl]
  rw [innerScan_succ]
  have hget : (pre ++ [(⟨i13, su, 13, true⟩ : Card)] ++ G12 ++ [(⟨i12, su, 12, true⟩ : Card)] ++ G11 ++ rest).getD
      (pre.length + (1 + G12.length)) default = (⟨i12, su, 12, true⟩ : Card) := by
    rw [show pre ++ [(⟨i13, su, 13, true⟩ : Card)] ++ G12 ++ [(⟨i12, su, 12, true⟩ : Card)] ++ G11 ++ rest =
        (pre ++ [(⟨i13, su, 13, true⟩ : Card)] ++ G12) ++ ((⟨i12, su, 12, true⟩ : Card) :: (G11 ++ rest)) from by
          simp [List.append_assoc],
      show pre.length + (1 + G12.length) =
          (pre ++ [(⟨i13, su, 13, true⟩ : Card)] ++ G12).length from by
          simp [List.length_append]
          omega]
    exact getD_at _ _ _
  dsimp only
  rw [hget]
  have hlast : (seq.getLastD default).rank = 11 :=
    getLastD_rank seq [1, 2, 3, 4, 5, 6, 7, 8, 9, 10] 11 (by rw [hseq]; decide)
  dsimp only
  rw [hlast]
  have hc : ((seq ++ [(⟨i12, su, 12, true⟩ : Card)]).length == 13) = false := by
    simp [List.length_append, hslen]
  simp only [Bool.not_true, beq_self_eq_true, Bool.true_and, Bool.true_or,
    show ((12 : Nat) == 11 + 1) = true from rfl, Bool.false_and, Bool.not_false,
    Bool.false_or, Bool.or_false, hc, if_true, eq_self_iff_true, Bool.false_eq_true,
    if_false]
  rw [show pre ++ [(⟨i13, su, 13, true⟩ : Card)] ++ G12 ++ [(⟨i12, su, 12, true⟩ : Card)] ++ G11 ++ rest =
      pre ++ [(⟨i13, su, 13, true⟩ : Card)] ++ G12 ++ ([(⟨i12, su, 12, true⟩ : Card)] ++ G11 ++ rest) from by
      simp [List.append_assoc]]
  rw [aL12 pre G12 ([(⟨i12, su, 12, true⟩ : Card)] ++ G11 ++ rest) (seq ++ [(⟨i12, su, 12, true⟩ : Card)]) _ su i13 hG12
      (by rw [List.map_append, hseq]; rfl) (1 + G12.length) rfl]
  rw [decInd_assemble idxs pre.length (1 + G12.length) G11.length n (by omega)]

theorem aL10 (pre G12 G11 G10 rest seq : List Card)
    (idxs : List Nat) (su i13 i12 i11 : Nat)
    (hG12 : ∀ x ∈ G12, x.faceUp = false)
    (hG11 : ∀ x ∈ G11, x.faceUp = false)
    (hG10 : ∀ x ∈ G10, x.faceUp = false)
    (hseq : seq.map Card.rank = [1, 2, 3, 4, 5, 6, 7, 8, 9, 10])
    (n : Nat) (hn : n = 3 + (G12.length + G11.length + G10.length)) :
    innerScan (pre ++ [⟨i13, su, 13, true⟩] ++ G12 ++ [⟨i12, su, 12, true⟩] ++ G11 ++ [⟨i11, su, 11, true⟩] ++ G10 ++ rest)
        true su seq idxs (pre.length + n) =
      some (idxs ++ decInd pre.length n) := by
  have hslen : seq.length = 10 := by
    have h := congrArg List.length hseq
    simpa using h
  rw [show pre.length + n = (pre.length + ((2 + (G12.length + G11.length)) + 1)) + G10.length from by omega]
  rw [innerScan_skip
      (pre ++ [(⟨i13, su, 13, true⟩ : Card)] ++ G12 ++ [(⟨i12, su, 12, true⟩ : Card)] ++ G11 ++ [(⟨i11, su, 11, true⟩ : Card)] ++ G10 ++ rest)
      true su G10
      (pre ++ [(⟨i13, su, 13, true⟩ : Card)] ++ G12 ++ [(⟨i12, su, 12, true⟩ : Card)] ++ G11 ++ [(⟨i11, su, 11, true⟩ : Card)])
      rest seq idxs (pre.length + ((2 + (G12.length + G11.length)) + 1))
      (by simp [List.append_assoc])
      (by simp [List.length_append]; omega)
      hG10]
  rw [show pre.length + ((2 + (G12.length + G11.length)) + 1) = (pre.length + (2 + (G12.length + G11.length))) + 1 from rfl]
  rw [innerScan_succ]
  have hget : (pre ++ [(⟨i13, su, 13, true⟩ : Card)] ++ G12 ++ [(⟨i12, su, 12, true⟩ : Card)] ++ G11 ++ [(⟨i11, su, 11, true⟩ : Card)] ++ G10 ++ rest).getD
      (pre.length + (2 + (G12.length + G11.length))) default = (⟨i11, su, 11, true⟩ : Card) := by
    rw [show pre ++ [(⟨i13, su, 13, true⟩ : Card)] ++ G12 ++ [(⟨i12, su, 12, true⟩ : Card)] ++ G11 ++ [(⟨i11, su, 11, true⟩ : Card)] ++ G10 ++ rest =
        (pre ++ [(⟨i13, su, 13, true⟩ : Card)] ++ G12 ++ [(⟨i12, su, 12, true⟩ : Card)] ++ G11) ++ ((⟨i11, su, 11, true⟩ : Card) :: (G10 ++ rest)) from by
          simp [List.append_assoc],
      show pre.length + (2 + (G12.length + G11.length)) =
          (pre ++ [(⟨i13, su, 13, true⟩ : Card)] ++ G12 ++ [(⟨i12, su, 12, true⟩ : Card)] ++ G11).length from by
          simp [List.length_append]
          omega]
    exact getD_at _ _ _
  dsimp only
  rw [hget]
  have hlast : (seq.getLastD default).rank = 10 :=
    getLastD_rank seq [1, 2, 3, 4, 5, 6, 7, 8, 9] 10 (by rw [hseq]; decide)
  dsimp only
  rw [hlast]
  have hc : ((seq ++ [(⟨i11, su, 11, true⟩ : Card)]).length == 13) = false := by
    simp [List.length_append, hslen]
  simp only [Bool.not_true, beq_self_eq_true, Bool.true_and, Bool.true_or,
    show ((11 : Nat) == 10 + 1) = true from rfl, Bool.false_and, Bool.not_false,
    Bool.false_or, Bool.or_false, hc, if_true, eq_self_iff_true, Bool.false_eq_true,
    if_false]
  rw [show pre ++ [(⟨i13, su, 13, true⟩ : Card)] ++ G12 ++ [(⟨i12, su, 12, true⟩ : Card)] ++ G11 ++ [(⟨i11, su, 11, true⟩ : Card)] ++ G10 ++ rest =
      pre ++ [(⟨i13, su, 13, true⟩ : Card)] ++ G12 ++ [(⟨i12, su, 12, true⟩ : Card)] ++ G11 ++ ([(⟨i11, su, 11, true⟩ : Card)] ++ G10 ++ rest) from by
      simp [List.append_assoc]]
  rw [aL11 pre G12 G11 ([(⟨i11, su, 11, true⟩ : Card)] ++ G10 ++ rest) (seq ++ [(⟨i11, su, 11, true⟩ : Card)]) _ su i13 i12 hG12 hG11
      (by rw [List.map_append, hseq]; rfl) (2 + (G12.length + G11.length)) rfl]
  rw [decInd_assemble idxs pre.length (2 + (G12.length + G11.length)) G10.length n (by omega)]

theorem aL9 (pre G12 G11 G10 G9 rest seq : List Card)
    (idxs : List Nat) (su i13 i12 i11 i10 : Nat)
    (hG12 : ∀ x ∈ G12, x.faceUp = false)
    (hG11 : ∀ x ∈ G11, x.faceUp = false)
    (hG10 : ∀ x ∈ G10, x.faceUp = false)
    (hG9 : ∀ x ∈ G9, x.faceUp = false)
    (hseq : seq.map Card.rank = [1, 2, 3, 4, 5, 6, 7, 8, 9])
    (n : Nat) (hn : n = 4 + (G12.length + G11.length + G10.length + G9.length)) :
    innerScan (pre ++ [⟨i13, su, 13, true⟩] ++ G12 ++ [⟨i12, su, 12, true⟩] ++ G11 ++ [⟨i11, su, 11, true⟩] ++ G10 ++ [⟨i10, su, 10, true⟩] ++ G9 ++ rest)
        true su seq idxs (pre.length + n) =
      some (idxs ++ decInd pre.length n) := by
  have hslen : seq.length = 9 := by
    have h := congrArg List.length hseq
    simpa using h
  rw [show pre.length + n = (pre.length + ((3 + (G12.length + G11.length + G10.length)) + 1)) + G9.length from by omega]
  rw [innerScan_skip
      (pre ++ [(⟨i13, su, 13, true⟩ : Card)] ++ G12 ++ [(⟨i12, su, 12, true⟩ : Card)] ++ G11 ++ [(⟨i11, su, 11, true⟩ : Card)] ++ G10 ++ [(⟨i10, su, 10, true⟩ : Card)] ++ G9 ++ rest)
      true su G9
      (pre ++ [(⟨i13, su, 13, true⟩ : Card)] ++ G12 ++ [(⟨i12, su, 12, true⟩ : Card)] ++ G11 ++ [(⟨i11, su, 11, true⟩ : Card)] ++ G10 ++ [(⟨i10, su, 10, true⟩ : Card)])
      rest seq idxs (pre.length + ((3 + (G12.length + G11.length + G10.length)) + 1))
      (by simp [List.append_assoc])
      (by simp [List.length_append]; omega)
      hG9]
  rw [show pre.length + ((3 + (G12.length + G11.length + G10.length)) + 1) = (pre.length + (3 + (G12.length + G11.length + G10.length))) + 1 from rfl]
  rw [innerScan_succ]
  have hget : (pre ++ [(⟨i13, su, 13, true⟩ : Card)] ++ G12 ++ [(⟨i12, su, 12, true⟩ : Card)] ++ G11 ++ [(⟨i11, su, 11, true⟩ : Card)] ++ G10 ++ [(⟨i10, su, 10, true⟩ : Card)] ++ G9 ++ rest).getD
      (pre.length + (3 + (G12.length + G11.length + G10.length))) default = (⟨i10, su, 10, true⟩ : Card) := by
    rw [show pre ++ [(⟨i13, su, 13, true⟩ : Card)] ++ G12 ++ [(⟨i12, su, 12, true⟩ : Card)] ++ G11 ++ [(⟨i11, su, 11, true⟩ : Card)] ++ G10 ++ [(⟨i10, su, 10, true⟩ : Card)] ++ G9 ++ rest =
        (pre ++ [(⟨i13, su, 13, true⟩ : Card)] ++ G12 ++ [(⟨i12, su, 12, true⟩ : Card)] ++ G11 ++ [(⟨i11, su, 11, true⟩ : Card)] ++ G10) ++ ((⟨i10, su, 10, true⟩ : Card) :: (G9 ++ rest)) from by
          simp [List.append_assoc],
      show pre.length + (3 + (G12.length + G11.length + G10.length)) =
          (pre ++ [(⟨i13, su, 13, true⟩ : Card)] ++ G12 ++ [(⟨i12, su, 12, true⟩ : Card)] ++ G11 ++ [(⟨i11, su, 11, true⟩ : Card)] ++ G10).length from by
          simp [List.length_append]
          omega]
    exact getD_at _ _ _
  dsimp only
  rw [hget]
  have hlast : (seq.getLastD default).rank = 9 :=
    getLastD_rank seq [1, 2, 3, 4, 5, 6, 7, 8] 9 (by rw [hseq]; decide)
  dsimp only
  rw [hlast]
  have hc : ((seq ++ [(⟨i10, su, 10, true⟩ : Card)]).length == 13) = false := by
    simp [List.length_append, hslen]
  simp only [Bool.not_true, beq_self_eq_true, Bool.true_and, Bool.true_or,
    show ((10 : Nat) == 9 + 1) = true from rfl, Bool.false_and, Bool.not_false,
    Bool.false_or, Bool.or_false, hc, if_true, eq_self_iff_true, Bool.false_eq_true,
    if_false]
  rw [show pre ++ [(⟨i13, su, 13, true⟩ : Card)] ++ G12 ++ [(⟨i12, su, 12, true⟩ : Card)] ++ G11 ++ [(⟨i11, su, 11, true⟩ : Card)] ++ G10 ++ [(⟨i10, su, 10, true⟩ : Card)] ++ G9 ++ rest =
      pre ++ [(⟨i13, su, 13, true⟩ : Card)] ++ G12 ++ [(⟨i12, su, 12, true⟩ : Card)] ++ G11 ++ [(⟨i11, su, 11, true⟩ : Card)] ++ G10 ++ ([(⟨i10, su, 10, true⟩ : Card)] ++ G9 ++ rest) from by
      simp [List.append_assoc]]
  rw [aL10 pre G12 G11 G10 ([(⟨i10, su, 10, true⟩ : Card)] ++ G9 ++ rest) (seq ++ [(⟨i10, su, 10, true⟩ : Card)]) _ su i13 i12 i11 hG12 hG11 hG10
      (by rw [List.map_append, hseq]; rfl) (3 + (G12.length + G11.length + G10.length)) rfl]
  rw [decInd_assemble idxs pre.length (3 + (G12.length + G11.length + G10.length)) G9.length n (by omega)]

theorem aL8 (pre G12 G11 G10 G9 G8 rest seq : List Card)
    (idxs : List Nat) (su i13 i12 i11 i10 i9 : Nat)
    (hG12 : ∀ x ∈ G12, x.faceUp = false)
    (hG11 : ∀ x ∈ G11, x.faceUp = false)
    (hG10 : ∀ x ∈ G10, x.faceUp = false)
    (hG9 : ∀ x ∈ G9, x.faceUp = false)
    (hG8 : ∀ x ∈ G8, x.faceUp = false)
    (hseq : seq.map Card.rank = [1, 2, 3, 4, 5, 6, 7, 8])
    (n : Nat) (hn : n = 5 + (G12.length + G11.length + G10.length + G9.length + G8.length)) :
    innerScan (pre ++ [⟨i13, su, 13, true⟩] ++ G12 ++ [⟨i12, su, 12, true⟩] ++ G11 ++ [⟨i11, su, 11, true⟩] ++ G10 ++ [⟨i10, su, 10, true⟩] ++ G9 ++ [⟨i9, su, 9, true⟩] ++ G8 ++ rest)
        true su seq idxs (pre.length + n) =
      some (idxs ++ decInd pre.length n) := by
  have hslen : seq.length = 8 := by
    have h := congrArg List.length hseq
    simpa using h
  rw [show pre.length + n = (pre.length + ((4 + (G12.length + G11.length + G10.length + G9.length)) + 1)) + G8.length from by omega]
  rw [innerScan_skip
      (pre ++ [(⟨i13, su, 13, true⟩ : Card)] ++ G12 ++ [(⟨i12, su, 12, true⟩ : Card)] ++ G11 ++ [(⟨i11, su, 11, true⟩ : Card)] ++ G10 ++ [(⟨i10, su, 10, true⟩ : Card)] ++ G9 ++ [(⟨i9, su, 9, true⟩ : Card)] ++ G8 ++ rest)
      true su G8
      (pre ++ [(⟨i13, su, 13, true⟩ : Card)] ++ G12 ++ [(⟨i12, su, 12, true⟩ : Card)] ++ G11 ++ [(⟨i11, su, 11, true⟩ : Card)] ++ G10 ++ [(⟨i10, su, 10, true⟩ : Card)] ++ G9 ++ [(⟨i9, su, 9, true⟩ : Card)])
      rest seq idxs (pre.length + ((4 + (G12.length + G11.length + G10.length + G9.length)) + 1))
      (by simp [List.append_assoc])
      (by simp [List.length_append]; omega)
      hG8]
  rw [show pre.length + ((4 + (G12.length + G11.length + G10.length + G9.length)) + 1) = (pre.length + (4 + (G12.length + G11.length + G10.length + G9.length))) + 1 from rfl]
  rw [innerScan_succ]
  have hget : (pre ++ [(⟨i13, su, 13, true⟩ : Card)] ++ G12 ++ [(⟨i12, su, 12, true⟩ : Card)] ++ G11 ++ [(⟨i11, su, 11, true⟩ : Card)] ++ G10 ++ [(⟨i10, su, 10, true⟩ : Card)] ++ G9 ++ [(⟨i9, su, 9, true⟩ : Card)] ++ G8 ++ rest).getD
      (pre.length + (4 + (G12.length + G11.length + G10.length + G9.length))) default = (⟨i9, su, 9, true⟩ : Card) := by
    rw [show pre ++ [(⟨i13, su, 13, true⟩ : Card)] ++ G12 ++ [(⟨i12, su, 12, true⟩ : Card)] ++ G11 ++ [(⟨i11, su, 11, true⟩ : Card)] ++ G10 ++ [(⟨i10, su, 10, true⟩ : Card)] ++ G9 ++ [(⟨i9, su, 9, true⟩ : Card)] ++ G8 ++ rest =
        (pre ++ [(⟨i13, su, 13, true⟩ : Card)] ++ G12 ++ [(⟨i12, su, 12, true⟩ : Card)] ++ G11 ++ [(⟨i11, su, 11, true⟩ : Card)] ++ G10 ++ [(⟨i10, su, 10, true⟩ : Card)] ++ G9) ++ ((⟨i9, su, 9, true⟩ : Card) :: (G8 ++ rest)) from by
          simp [List.append_assoc],
      show pre.length + (4 + (G12.length + G11.length + G10.length + G9.length)) =
          (pre ++ [(⟨i13, su, 13, true⟩ : Card)] ++ G12 ++ [(⟨i12, su, 12, true⟩ : Card)] ++ G11 ++ [(⟨i11, su, 11, true⟩ : Card)] ++ G10 ++ [(⟨i10, su, 10, true⟩ : Card)] ++ G9).length from by
          simp [List.length_append]
          omega]
    exact getD_at _ _ _
  dsimp only
  rw [hget]
  have hlast : (seq.getLastD default).rank = 8 :=
    getLastD_rank seq [1, 2, 3, 4, 5, 6, 7] 8 (by rw [hseq]; decide)
  dsimp only
  rw [hlast]
  have hc : ((seq ++ [(⟨i9, su, 9, true⟩ : Card)]).length == 13) = false := by
    simp [List.length_append, hslen]
  simp only [Bool.not_true, beq_self_eq_true, Bool.true_and, Bool.true_or,
    show ((9 : Nat) == 8 + 1) = true from rfl, Bool.false_and, Bool.not_false,
    Bool.false_or, Bool.or_false, hc, if_true, eq_self_iff_true, Bool.false_eq_true,
    if_false]
  rw [show pre ++ [(⟨i13, su, 13, true⟩ : Card)] ++ G12 ++ [(⟨i12, su, 12, true⟩ : Card)] ++ G11 ++ [(⟨i11, su, 11, true⟩ : Card)] ++ G10 ++ [(⟨i10, su, 10, true⟩ : Card)] ++ G9 ++ [(⟨i9, su, 9, true⟩ : Card)] ++ G8 ++ rest =
      pre ++ [(⟨i13, su, 13, true⟩ : Card)] ++ G12 ++ [(⟨i12, su, 12, true⟩ : Card)] ++ G11 ++ [(⟨i11, su, 11, true⟩ : Card)] ++ G10 ++ [(⟨i10, su, 10, true⟩ : Card)] ++ G9 ++ ([(⟨i9, su, 9, true⟩ : Card)] ++ G8 ++ rest) from by
      simp [List.append_assoc]]
  rw [aL9 pre G12 G11 G10 G9 ([(⟨i9, su, 9, true⟩ : Card)] ++ G8 ++ rest) (seq ++ [(⟨i9, su, 9, true⟩ : Card)]) _ su i13 i12 i11 i10 hG12 hG11 hG10 hG9
      (by rw [List.map_append, hseq]; rfl) (4 + (G12.length + G11.length + G10.length + G9.length)) rfl]
  rw [decInd_assemble idxs pre.length (4 + (G12.length + G11.length + G10.length + G9.length)) G8.length n (by omega)]

theorem aL7 (pre G12 G11 G10 G9 G8 G7 rest seq : List Card)
    (idxs : List Nat) (su i13 i12 i11 i10 i9 i8 : Nat)
    (hG12 : ∀ x ∈ G12, x.faceUp = false)
    (hG11 : ∀ x ∈ G11, x.faceUp = false)
    (hG10 : ∀ x ∈ G10, x.faceUp = false)
    (hG9 : ∀ x ∈ G9, x.faceUp = false)
    (hG8 : ∀ x ∈ G8, x.faceUp = false)
    (hG7 : ∀ x ∈ G7, x.faceUp = false)
    (hseq : seq.map Card.rank = [1, 2, 3, 4, 5, 6, 7])
    (n : Nat) (hn : n = 6 + (G12.length + G11.length + G10.length + G9.length + G8.length + G7.length)) :
    innerScan (pre ++ [⟨i13, su, 13, true⟩] ++ G12 ++ [⟨i12, su, 12, true⟩] ++ G11 ++ [⟨i11, su, 11, true⟩] ++ G10 ++ [⟨i10, su, 10, true⟩] ++ G9 ++ [⟨i9, su, 9, true⟩] ++ G8 ++ [⟨i8, su, 8, true⟩] ++ G7 ++ rest)
        true su seq idxs (pre.length + n) =
      some (idxs ++ decInd pre.length n) := by
  have hslen : seq.length = 7 := by
    have h := congrArg List.length hseq
    simpa using h
  rw [show pre.length + n = (pre.length + ((5 + (G12.length + G11.length + G10.length + G9.length + G8.length)) + 1)) + G7.length from by omega]
  rw [innerScan_skip
      (pre ++ [(⟨i13, su, 13, true⟩ : Card)] ++ G12 ++ [(⟨i12, su, 12, true⟩ : Card)] ++ G11 ++ [(⟨i11, su, 11, true⟩ : Card)] ++ G10 ++ [(⟨i10, su, 10, true⟩ : Card)] ++ G9 ++ [(⟨i9, su, 9, true⟩ : Card)] ++ G8 ++ [(⟨i8, su, 8, true⟩ : Card)] ++ G7 ++ rest)
      true su G7
      (pre ++ [(⟨i13, su, 13, true⟩ : Card)] ++ G12 ++ [(⟨i12, su, 12, true⟩ : Card)] ++ G11 ++ [(⟨i11, su, 11, true⟩ : Card)] ++ G10 ++ [(⟨i10, su, 10, true⟩ : Card)] ++ G9 ++ [(⟨i9, su, 9, true⟩ : Card)] ++ G8 ++ [(⟨i8, su, 8, true⟩ : Card)])
      rest seq idxs (pre.length + ((5 + (G12.length + G11.length + G10.length + G9.length + G8.length)) + 1))
      (by simp [List.append_assoc])
      (by simp [List.length_append]; omega)
      hG7]
  rw [show pre.length + ((5 + (G12.length + G11.length + G10.length + G9.length + G8.length)) + 1) = (pre.length + (5 + (G12.length + G11.length + G10.length + G9.length + G8.length))) + 1 from rfl]
  rw [innerScan_succ]
  have hget : (pre ++ [(⟨i13, su, 13, true⟩ : Card)] ++ G12 ++ [(⟨i12, su, 12, true⟩ : Card)] ++ G11 ++ [(⟨i11, su, 11, true⟩ : Card)] ++ G10 ++ [(⟨i10, su, 10, true⟩ : Card)] ++ G9 ++ [(⟨i9, su, 9, true⟩ : Card)] ++ G8 ++ [(⟨i8, su, 8, true⟩ : Card)] ++ G7 ++ rest).getD
      (pre.length + (5 + (G12.length + G11.length + G10.length + G9.length + G8.length))) default = (⟨i8, su, 8, true⟩ : Card) := by
    rw [show pre ++ [(⟨i13, su, 13, true⟩ : Card)] ++ G12 ++ [(⟨i12, su, 12, true⟩ : Card)] ++ G11 ++ [(⟨i11, su, 11, true⟩ : Card)] ++ G10 ++ [(⟨i10, su, 10, true⟩ : Card)] ++ G9 ++ [(⟨i9, su, 9, true⟩ : Card)] ++ G8 ++ [(⟨i8, su, 8, true⟩ : Card)] ++ G7 ++ rest =
        (pre ++ [(⟨i13, su, 13, true⟩ : Card)] ++ G12 ++ [(⟨i12, su, 12, true⟩ : Card)] ++ G11 ++ [(⟨i11, su, 11, true⟩ : Card)] ++ G10 ++ [(⟨i10, su, 10, true⟩ : Card)] ++ G9 ++ [(⟨i9, su, 9, true⟩ : Card)] ++ G8) ++ ((⟨i8, su, 8, true⟩ : Card) :: (G7 ++ rest)) from by
          simp [List.append_assoc],
      show pre.length + (5 + (G12.length + G11.length + G10.length + G9.length + G8.length)) =
          (pre ++ [(⟨i13, su, 13, true⟩ : Card)] ++ G12 ++ [(⟨i12, su, 12, true⟩ : Card)] ++ G11 ++ [(⟨i11, su, 11, true⟩ : Card)] ++ G10 ++ [(⟨i10, su, 10, true⟩ : Card)] ++ G9 ++ [(⟨i9, su, 9, true⟩ : Card)] ++ G8).length from by
          simp [List.length_append]
          omega]
    exact getD_at _ _ _
  dsimp only
  rw [hget]
  have hlast : (seq.getLastD default).rank = 7 :=
    getLastD_rank seq [1, 2, 3, 4, 5, 6] 7 (by rw [hseq]; decide)
  dsimp only
  rw [hlast]
  have hc : ((seq ++ [(⟨i8, su, 8, true⟩ : Card)]).length == 13) = false := by
    simp [List.length_append, hslen]
  simp only [Bool.not_true, beq_self_eq_true, Bool.true_and, Bool.true_or,
    show ((8 : Nat) == 7 + 1) = true from rfl, Bool.false_and, Bool.not_false,
    Bool.false_or, Bool.or_false, hc, if_true, eq_self_iff_true, Bool.false_eq_true,
    if_false]
  rw [show pre ++ [(⟨i13, su, 13, true⟩ : Card)] ++ G12 ++ [(⟨i12, su, 12, true⟩ : Card)] ++ G11 ++ [(⟨i11, su, 11, true⟩ : Card)] ++ G10 ++ [(⟨i10, su, 10, true⟩ : Card)] ++ G9 ++ [(⟨i9, su, 9, true⟩ : Card)] ++ G8 ++ [(⟨i8, su, 8, true⟩ : Card)] ++ G7 ++ rest =
      pre ++ [(⟨i13, su, 13, true⟩ : Card)] ++ G12 ++ [(⟨i12, su, 12, true⟩ : Card)] ++ G11 ++ [(⟨i11, su, 11, true⟩ : Card)] ++ G10 ++ [(⟨i10, su, 10, true⟩ : Card)] ++ G9 ++ [(⟨i9, su, 9, true⟩ : Card)] ++ G8 ++ ([(⟨i8, su, 8, true⟩ : Card)] ++ G7 ++ rest) from by
      simp [List.append_assoc]]
  rw [aL8 pre G12 G11 G10 G9 G8 ([(⟨i8, su, 8, true⟩ : Card)] ++ G7 ++ rest) (seq ++ [(⟨i8, su, 8, true⟩ : Card)]) _ su i13 i12 i11 i10 i9 hG12 hG11 hG10 hG9 hG8
      (by rw [List.map_append, hseq]; rfl) (5 + (G12.length + G11.length + G10.length + G9.length + G8.length)) rfl]
  rw [decInd_assemble idxs pre.length (5 + (G12.length + G11.length + G10.length + G9.length + G8.length)) G7.length n (by omega)]

theorem aL6 (pre G12 G11 G10 G9 G8 G7 G6 rest seq : List Card)
    (idxs : List Nat) (su i13 i12 i11 i10 i9 i8 i7 : Nat)
    (hG12 : ∀ x ∈ G12, x.faceUp = false)
    (hG11 : ∀ x ∈ G11, x.faceUp = false)
    (hG10 : ∀ x ∈ G10, x.faceUp = false)
    (hG9 : ∀ x ∈ G9, x.faceUp = false)
    (hG8 : ∀ x ∈ G8, x.faceUp = false)
    (hG7 : ∀ x ∈ G7, x.faceUp = false)
    (hG6 : ∀ x ∈ G6, x.faceUp = false)
    (hseq : seq.map Card.rank = [1, 2, 3, 4, 5, 6])
    (n : Nat) (hn : n = 7 + (G12.length + G11.length + G10.length + G9.length + G8.length + G7.length + G6.length)) :
    innerScan (pre ++ [⟨i13, su, 13, true⟩] ++ G12 ++ [⟨i12, su, 12, true⟩] ++ G11 ++ [⟨i11, su, 11, true⟩] ++ G10 ++ [⟨i10, su, 10, true⟩] ++ G9 ++ [⟨i9, su, 9, true⟩] ++ G8 ++ [⟨i8, su, 8, true⟩] ++ G7 ++ [⟨i7, su, 7, true⟩] ++ G6 ++ rest)
        true su seq idxs (pre.length + n) =
      some (idxs ++ decInd pre.length n) := by
  have hslen : seq.length = 6 := by
    have h := congrArg List.length hseq
    simpa using h
  rw [show pre.length + n = (pre.length + ((6 + (G12.length + G11.length + G10.length + G9.length + G8.length + G7.length)) + 1)) + G6.length from by omega]
  rw [innerScan_skip
      (pre ++ [(⟨i13, su, 13, true⟩ : Card)] ++ G12 ++ [(⟨i12, su, 12, true⟩ : Card)] ++ G11 ++ [(⟨i11, su, 11, true⟩ : Card)] ++ G10 ++ [(⟨i10, su, 10, true⟩ : Card)] ++ G9 ++ [(⟨i9, su, 9, true⟩ : Card)] ++ G8 ++ [(⟨i8, su, 8, true⟩ : Card)] ++ G7 ++ [(⟨i7, su, 7, true⟩ : Card)] ++ G6 ++ rest)
      true su G6
      (pre ++ [(⟨i13, su, 13, true⟩ : Card)] ++ G12 ++ [(⟨i12, su, 12, true⟩ : Card)] ++ G11 ++ [(⟨i11, su, 11, true⟩ : Card)] ++ G10 ++ [(⟨i10, su, 10, true⟩ : Card)] ++ G9 ++ [(⟨i9, su, 9, true⟩ : Card)] ++ G8 ++ [(⟨i8, su, 8, true⟩ : Card)] ++ G7 ++ [(⟨i7, su, 7, true⟩ : Card)])
      rest seq idxs (pre.length + ((6 + (G12.length + G11.length + G10.length + G9.length + G8.length + G7.length)) + 1))
      (by simp [List.append_assoc])
      (by simp [List.length_append]; omega)
      hG6]
  rw [show pre.length + ((6 + (G12.length + G11.length + G10.length + G9.length + G8.length + G7.length)) + 1) = (pre.length + (6 + (G12.length + G11.length + G10.length + G9.length + G8.length + G7.length))) + 1 from rfl]
  rw [innerScan_succ]
  have hget : (pre ++ [(⟨i13, su, 13, true⟩ : Card)] ++ G12 ++ [(⟨i12, su, 12, true⟩ : Card)] ++ G11 ++ [(⟨i11, su, 11, true⟩ : Card)] ++ G10 ++ [(⟨i10, su, 10, true⟩ : Card)] ++ G9 ++ [(⟨i9, su, 9, true⟩ : Card)] ++ G8 ++ [(⟨i8, su, 8, true⟩ : Card)] ++ G7 ++ [(⟨i7, su, 7, true⟩ : Card)] ++ G6 ++ rest).getD
      (pre.length + (6 + (G12.length + G11.length + G10.length + G9.length + G8.length + G7.length))) default = (⟨i7, su, 7, true⟩ : Card) := by
    rw [show pre ++ [(⟨i13, su, 13, true⟩ : Card)] ++ G12 ++ [(⟨i12, su, 12, true⟩ : Card)] ++ G11 ++ [(⟨i11, su, 11, true⟩ : Card)] ++ G10 ++ [(⟨i10, su, 10, true⟩ : Card)] ++ G9 ++ [(⟨i9, su, 9, true⟩ : Card)] ++ G8 ++ [(⟨i8, su, 8, true⟩ : Card)] ++ G7 ++ [(⟨i7, su, 7, true⟩ : Card)] ++ G6 ++ rest =
        (pre ++ [(⟨i13, su, 13, true⟩ : Card)] ++ G12 ++ [(⟨i12, su, 12, true⟩ : Card)] ++ G11 ++ [(⟨i11, su, 11, true⟩ : Card)] ++ G10 ++ [(⟨i10, su, 10, true⟩ : Card)] ++ G9 ++ [(⟨i9, su, 9, true⟩ : Card)] ++ G8 ++ [(⟨i8, su, 8, true⟩ : Card)] ++ G7) ++ ((⟨i7, su, 7, true⟩ : Card) :: (G6 ++ rest)) from by
          simp [List.append_assoc],
      show pre.length + (6 + (G12.length + G11.length + G10.length + G9.length + G8.length + G7.length)) =
          (pre ++ [(⟨i13, su, 13, true⟩ : Card)] ++ G12 ++ [(⟨i12, su, 12, true⟩ : Card)] ++ G11 ++ [(⟨i11, su, 11, true⟩ : Card)] ++ G10 ++ [(⟨i10, su, 10, true⟩ : Card)] ++ G9 ++ [(⟨i9, su, 9, true⟩ : Card)] ++ G8 ++ [(⟨i8, su, 8, true⟩ : Card)] ++ G7).length from by
          simp [List.length_append]
          omega]
    exact getD_at _ _ _
  dsimp only
  rw [hget]
  have hlast : (seq.getLastD default).rank = 6 :=
    getLastD_rank seq [1, 2, 3, 4, 5] 6 (by rw [hseq]; decide)
  dsimp only
  rw [hlast]
  have hc : ((seq ++ [(⟨i7, su, 7, true⟩ : Card)]).length == 13) = false := by
    simp [List.length_append, hslen]
  simp only [Bool.not_true, beq_self_eq_true, Bool.true_and, Bool.true_or,
    show ((7 : Nat) == 6 + 1) = true from rfl, Bool.false_and, Bool.not_false,
    Bool.false_or, Bool.or_false, hc, if_true, eq_self_iff_true, Bool.false_eq_true,
    if_false]
  rw [show pre ++ [(⟨i13, su, 13, true⟩ : Card)] ++ G12 ++ [(⟨i12, su, 12, true⟩ : Card)] ++ G11 ++ [(⟨i11, su, 11, true⟩ : Card)] ++ G10 ++ [(⟨i10, su, 10, true⟩ : Card)] ++ G9 ++ [(⟨i9, su, 9, true⟩ : Card)] ++ G8 ++ [(⟨i8, su, 8, true⟩ : Card)] ++ G7 ++ [(⟨i7, su, 7, true⟩ : Card)] ++ G6 ++ rest =
      pre ++ [(⟨i13, su, 13, true⟩ : Card)] ++ G12 ++ [(⟨i12, su, 12, true⟩ : Card)] ++ G11 ++ [(⟨i11, su, 11, true⟩ : Card)] ++ G10 ++ [(⟨i10, su, 10, true⟩ : Card)] ++ G9 ++ [(⟨i9, su, 9, true⟩ : Card)] ++ G8 ++ [(⟨i8, su, 8, true⟩ : Card)] ++ G7 ++ ([(⟨i7, su, 7, true⟩ : Card)] ++ G6 ++ rest) from by
      simp [List.append_assoc]]
  rw [aL7 pre G12 G11 G10 G9 G8 G7 ([(⟨i7, su, 7, true⟩ : Card)] ++ G6 ++ rest) (seq ++ [(⟨i7, su, 7, true⟩ : Card)]) _ su i13 i12 i11 i10 i9 i8 hG12 hG11 hG10 hG9 hG8 hG7
      (by rw [List.map_append, hseq]; rfl) (6 + (G12.length + G11.length + G10.length + G9.length + G8.length + G7.length)) rfl]
  rw [decInd_assemble idxs pre.length (6 + (G12.length + G11.length + G10.length + G9.length + G8.length + G7.length)) G6.length n (by omega)]

theorem aL5 (pre G12 G11 G10 G9 G8 G7 G6 G5 rest seq : List Card)
    (idxs : List Nat) (su i13 i12 i11 i10 i9 i8 i7 i6 : Nat)
    (hG12 : ∀ x ∈ G12, x.faceUp = false)
    (hG11 : ∀ x ∈ G11, x.faceUp = false)
    (hG10 : ∀ x ∈ G10, x.faceUp = false)
    (hG9 : ∀ x ∈ G9, x.faceUp = false)
    (hG8 : ∀ x ∈ G8, x.faceUp = false)
    (hG7 : ∀ x ∈ G7, x.faceUp = false)
    (hG6 : ∀ x ∈ G6, x.faceUp = false)
    (hG5 : ∀ x ∈ G5, x.faceUp = false)
    (hseq : seq.map Card.rank = [1, 2, 3, 4, 5])
    (n : Nat) (hn : n = 8 + (G12.length + G11.length + G10.length + G9.length + G8.length + G7.length + G6.length + G5.length)) :
    innerScan (pre ++ [⟨i13, su, 13, true⟩] ++ G12 ++ [⟨i12, su, 12, true⟩] ++ G11 ++ [⟨i11, su, 11, true⟩] ++ G10 ++ [⟨i10, su, 10, true⟩] ++ G9 ++ [⟨i9, su, 9, true⟩] ++ G8 ++ [⟨i8, su, 8, true⟩] ++ G7 ++ [⟨i7, su, 7, true⟩] ++ G6 ++ [⟨i6, su, 6, true⟩] ++ G5 ++ rest)
        true su seq idxs (pre.length + n) =
      some (idxs ++ decInd pre.length n) := by
  have hslen : seq.length = 5 := by
    have h := congrArg List.length hseq
    simpa using h
  rw [show pre.length + n = (pre.length + ((7 + (G12.length + G11.length + G10.length + G9.length + G8.length + G7.length + G6.length)) + 1)) + G5.length from by omega]
  rw [innerScan_skip
      (pre ++ [(⟨i13, su, 13, true⟩ : Card)] ++ G12 ++ [(⟨i12, su, 12, true⟩ : Card)] ++ G11 ++ [(⟨i11, su, 11, true⟩ : Card)] ++ G10 ++ [(⟨i10, su, 10, true⟩ : Card)] ++ G9 ++ [(⟨i9, su, 9, true⟩ : Card)] ++ G8 ++ [(⟨i8, su, 8, true⟩ : Card)] ++ G7 ++ [(⟨i7, su, 7, true⟩ : Card)] ++ G6 ++ [(⟨i6, su, 6, true⟩ : Card)] ++ G5 ++ rest)
      true su G5
      (pre ++ [(⟨i13, su, 13, true⟩ : Card)] ++ G12 ++ [(⟨i12, su, 12, true⟩ : Card)] ++ G11 ++ [(⟨i11, su, 11, true⟩ : Card)] ++ G10 ++ [(⟨i10, su, 10, true⟩ : Card)] ++ G9 ++ [(⟨i9, su, 9, true⟩ : Card)] ++ G8 ++ [(⟨i8, su, 8, true⟩ : Card)] ++ G7 ++ [(⟨i7, su, 7, true⟩ : Card)] ++ G6 ++ [(⟨i6, su, 6, true⟩ : Card)])
      rest seq idxs (pre.length + ((7 + (G12.length + G11.length + G10.length + G9.length + G8.length + G7.length + G6.length)) + 1))
      (by simp [List.append_assoc])
      (by simp [List.length_append]; omega)
      hG5]
  rw [show pre.length + ((7 + (G12.length + G11.length + G10.length + G9.length + G8.length + G7.length + G6.length)) + 1) = (pre.length + (7 + (G12.length + G11.length + G10.length + G9.length + G8.length + G7.length + G6.length))) + 1 from rfl]
  rw [innerScan_succ]
  have hget : (pre ++ [(⟨i13, su, 13, true⟩ : Card)] ++ G12 ++ [(⟨i12, su, 12, true⟩ : Card)] ++ G11 ++ [(⟨i11, su, 11, true⟩ : Card)] ++ G10 ++ [(⟨i10, su, 10, true⟩ : Card)] ++ G9 ++ [(⟨i9, su, 9, true⟩ : Card)] ++ G8 ++ [(⟨i8, su, 8, true⟩ : Card)] ++ G7 ++ [(⟨i7, su, 7, true⟩ : Card)] ++ G6 ++ [(⟨i6, su, 6, true⟩ : Card)] ++ G5 ++ rest).getD
      (pre.length + (7 + (G12.length + G11.length + G10.length + G9.length + G8.length + G7.length + G6.length))) default = (⟨i6, su, 6, true⟩ : Card) := by
    rw [show pre ++ [(⟨i13, su, 13, true⟩ : Card)] ++ G12 ++ [(⟨i12, su, 12, true⟩ : Card)] ++ G11 ++ [(⟨i11, su, 11, true⟩ : Card)] ++ G10 ++ [(⟨i10, su, 10, true⟩ : Card)] ++ G9 ++ [(⟨i9, su, 9, true⟩ : Card)] ++ G8 ++ [(⟨i8, su, 8, true⟩ : Card)] ++ G7 ++ [(⟨i7, su, 7, true⟩ : Card)] ++ G6 ++ [(⟨i6, su, 6, true⟩ : Card)] ++ G5 ++ rest =
        (pre ++ [(⟨i13, su, 13, true⟩ : Card)] ++ G12 ++ [(⟨i12, su, 12, true⟩ : Card)] ++ G11 ++ [(⟨i11, su, 11, true⟩ : Card)] ++ G10 ++ [(⟨i10, su, 10, true⟩ : Card)] ++ G9 ++ [(⟨i9, su, 9, true⟩ : Card)] ++ G8 ++ [(⟨i8, su, 8, true⟩ : Card)] ++ G7 ++ [(⟨i7, su, 7, true⟩ : Card)] ++ G6) ++ ((⟨i6, su, 6, true⟩ : Card) :: (G5 ++ rest)) from by
          simp [List.append_assoc],
      show pre.length + (7 + (G12.length + G11.length + G10.length + G9.length + G8.length + G7.length + G6.length)) =
          (pre ++ [(⟨i13, su, 13, true⟩ : Card)] ++ G12 ++ [(⟨i12, su, 12, true⟩ : Card)] ++ G11 ++ [(⟨i11, su, 11, true⟩ : Card)] ++ G10 ++ [(⟨i10, su, 10, true⟩ : Card)] ++ G9 ++ [(⟨i9, su, 9, true⟩ : Card)] ++ G8 ++ [(⟨i8, su, 8, true⟩ : Card)] ++ G7 ++ [(⟨i7, su, 7, true⟩ : Card)] ++ G6).length from by
          simp [List.length_append]
          omega]
    exact getD_at _ _ _
  dsimp only
  rw [hget]
  have hlast : (seq.getLastD default).rank = 5 :=
    getLastD_rank seq [1, 2, 3, 4] 5 (by rw [hseq]; decide)
  dsimp only
  rw [hlast]
  have hc : ((seq ++ [(⟨i6, su, 6, true⟩ : Card)]).length == 13) = false := by
    simp [List.length_append, hslen]
  simp only [Bool.not_true, beq_self_eq_true, Bool.true_and, Bool.true_or,
    show ((6 : Nat) == 5 + 1) = true from rfl, Bool.false_and, Bool.not_false,
    Bool.false_or, Bool.or_false, hc, if_true, eq_self_iff_true, Bool.false_eq_true,
    if_false]
  rw [show pre ++ [(⟨i13, su, 13, true⟩ : Card)] ++ G12 ++ [(⟨i12, su, 12, true⟩ : Card)] ++ G11 ++ [(⟨i11, su, 11, true⟩ : Card)] ++ G10 ++ [(⟨i10, su, 10, true⟩ : Card)] ++ G9 ++ [(⟨i9, su, 9, true⟩ : Card)] ++ G8 ++ [(⟨i8, su, 8, true⟩ : Card)] ++ G7 ++ [(⟨i7, su, 7, true⟩ : Card)] ++ G6 ++ [(⟨i6, su, 6, true⟩ : Card)] ++ G5 ++ rest =
      pre ++ [(⟨i13, su, 13, true⟩ : Card)] ++ G12 ++ [(⟨i12, su, 12, true⟩ : Card)] ++ G11 ++ [(⟨i11, su, 11, true⟩ : Card)] ++ G10 ++ [(⟨i10, su, 10, true⟩ : Card)] ++ G9 ++ [(⟨i9, su, 9, true⟩ : Card)] ++ G8 ++ [(⟨i8, su, 8, true⟩ : Card)] ++ G7 ++ [(⟨i7, su, 7, true⟩ : Card)] ++ G6 ++ ([(⟨i6, su, 6, true⟩ : Card)] ++ G5 ++ rest) from by
      simp [List.append_assoc]]
  rw [aL6 pre G12 G11 G10 G9 G8 G7 G6 ([(⟨i6, su, 6, true⟩ : Card)] ++ G5 ++ rest) (seq ++ [(⟨i6, su, 6, true⟩ : Card)]) _ su i13 i12 i11 i10 i9 i8 i7 hG12 hG11 hG10 hG9 hG8 hG7 hG6
      (by rw [List.map_append, hseq]; rfl) (7 + (G12.length + G11.length + G10.length + G9.length + G8.length + G7.length + G6.length)) rfl]
  rw [decInd_assemble idxs pre.length (7 + (G12.length + G11.length + G10.length + G9.length + G8.length + G7.length + G6.length)) G5.length n (by omega)]

theorem aL4 (pre G12 G11 G10 G9 G8 G7 G6 G5 G4 rest seq : List Card)
    (idxs : List Nat) (su i13 i12 i11 i10 i9 i8 i7 i6 i5 : Nat)
    (hG12 : ∀ x ∈ G12, x.faceUp = false)
    (hG11 : ∀ x ∈ G11, x.faceUp = false)
    (hG10 : ∀ x ∈ G10, x.faceUp = false)
    (hG9 : ∀ x ∈ G9, x.faceUp = false)
    (hG8 : ∀ x ∈ G8, x.faceUp = false)
    (hG7 : ∀ x ∈ G7, x.faceUp = false)
    (hG6 : ∀ x ∈ G6, x.faceUp = false)
    (hG5 : ∀ x ∈ G5, x.faceUp = false)
    (hG4 : ∀ x ∈ G4, x.faceUp = false)
    (hseq : seq.map Card.rank = [1, 2, 3, 4])
    (n : Nat) (hn : n = 9 + (G12.length + G11.length + G10.length + G9.length + G8.length + G7.length + G6.length + G5.length + G4.length)) :
    innerScan (pre ++ [⟨i13, su, 13, true⟩] ++ G12 ++ [⟨i12, su, 12, true⟩] ++ G11 ++ [⟨i11, su, 11, true⟩] ++ G10 ++ [⟨i10, su, 10, true⟩] ++ G9 ++ [⟨i9, su, 9, true⟩] ++ G8 ++ [⟨i8, su, 8, true⟩] ++ G7 ++ [⟨i7, su, 7, true⟩] ++ G6 ++ [⟨i6, su, 6, true⟩] ++ G5 ++ [⟨i5, su, 5, true⟩] ++ G4 ++ rest)
        true su seq idxs (pre.length + n) =
      some (idxs ++ decInd pre.length n) := by
  have hslen : seq.length = 4 := by
    have h := congrArg List.length hseq
    simpa using h
  rw [show pre.length + n = (pre.length + ((8 + (G12.length + G11.length + G10.length + G9.length + G8.length + G7.length + G6.length + G5.length)) + 1)) + G4.length from by omega]
  rw [innerScan_skip
      (pre ++ [(⟨i13, su, 13, true⟩ : Card)] ++ G12 ++ [(⟨i12, su, 12, true⟩ : Card)] ++ G11 ++ [(⟨i11, su, 11, true⟩ : Card)] ++ G10 ++ [(⟨i10, su, 10, true⟩ : Card)] ++ G9 ++ [(⟨i9, su, 9, true⟩ : Card)] ++ G8 ++ [(⟨i8, su, 8, true⟩ : Card)] ++ G7 ++ [(⟨i7, su, 7, true⟩ : Card)] ++ G6 ++ [(⟨i6, su, 6, true⟩ : Card)] ++ G5 ++ [(⟨i5, su, 5, true⟩ : Card)] ++ G4 ++ rest)
      true su G4
      (pre ++ [(⟨i13, su, 13, true⟩ : Card)] ++ G12 ++ [(⟨i12, su, 12, true⟩ : Card)] ++ G11 ++ [(⟨i11, su, 11, true⟩ : Card)] ++ G10 ++ [(⟨i10, su, 10, true⟩ : Card)] ++ G9 ++ [(⟨i9, su, 9, true⟩ : Card)] ++ G8 ++ [(⟨i8, su, 8, true⟩ : Card)] ++ G7 ++ [(⟨i7, su, 7, true⟩ : Card)] ++ G6 ++ [(⟨i6, su, 6, true⟩ : Card)] ++ G5 ++ [(⟨i5, su, 5, true⟩ : Card)])
      rest seq idxs (pre.length + ((8 + (G12.length + G11.length + G10.length + G9.length + G8.length + G7.length + G6.length + G5.length)) + 1))
      (by simp [List.append_assoc])
      (by simp [List.length_append]; omega)
      hG4]
  rw [show pre.length + ((8 + (G12.length + G11.length + G10.length + G9.length + G8.length + G7.length + G6.length + G5.length)) + 1) = (pre.length + (8 + (G12.length + G11.length + G10.length + G9.length + G8.length + G7.length + G6.length + G5.length))) + 1 from rfl]
  rw [innerScan_succ]
  have hget : (pre ++ [(⟨i13, su, 13, true⟩ : Card)] ++ G12 ++ [(⟨i12, su, 12, true⟩ : Card)] ++ G11 ++ [(⟨i11, su, 11, true⟩ : Card)] ++ G10 ++ [(⟨i10, su, 10, true⟩ : Card)] ++ G9 ++ [(⟨i9, su, 9, true⟩ : Card)] ++ G8 ++ [(⟨i8, su, 8, true⟩ : Card)] ++ G7 ++ [(⟨i7, su, 7, true⟩ : Card)] ++ G6 ++ [(⟨i6, su, 6, true⟩ : Card)] ++ G5 ++ [(⟨i5, su, 5, true⟩ : Card)] ++ G4 ++ rest).getD
      (pre.length + (8 + (G12.length + G11.length + G10.length + G9.length + G8.length + G7.length + G6.length + G5.length))) default = (⟨i5, su, 5, true⟩ : Card) := by
    rw [show pre ++ [(⟨i13, su, 13, true⟩ : Card)] ++ G12 ++ [(⟨i12, su, 12, true⟩ : Card)] ++ G11 ++ [(⟨i11, su, 11, true⟩ : Card)] ++ G10 ++ [(⟨i10, su, 10, true⟩ : Card)] ++ G9 ++ [(⟨i9, su, 9, true⟩ : Card)] ++ G8 ++ [(⟨i8, su, 8, true⟩ : Card)] ++ G7 ++ [(⟨i7, su, 7, true⟩ : Card)] ++ G6 ++ [(⟨i6, su, 6, true⟩ : Card)] ++ G5 ++ [(⟨i5, su, 5, true⟩ : Card)] ++ G4 ++ rest =
        (pre ++ [(⟨i13, su, 13, true⟩ : Card)] ++ G12 ++ [(⟨i12, su, 12, true⟩ : Card)] ++ G11 ++ [(⟨i11, su, 11, true⟩ : Card)] ++ G10 ++ [(⟨i10, su, 10, true⟩ : Card)] ++ G9 ++ [(⟨i9, su, 9, true⟩ : Card)] ++ G8 ++ [(⟨i8, su, 8, true⟩ : Card)] ++ G7 ++ [(⟨i7, su, 7, true⟩ : Card)] ++ G6 ++ [(⟨i6, su, 6, true⟩ : Card)] ++ G5) ++ ((⟨i5, su, 5, true⟩ : Card) :: (G4 ++ rest)) from by
          simp [List.append_assoc],
      show pre.length + (8 + (G12.length + G11.length + G10.length + G9.length + G8.length + G7.length + G6.length + G5.length)) =
          (pre ++ [(⟨i13, su, 13, true⟩ : Card)] ++ G12 ++ [(⟨i12, su, 12, true⟩ : Card)] ++ G11 ++ [(⟨i11, su, 11, true⟩ : Card)] ++ G10 ++ [(⟨i10, su, 10, true⟩ : Card)] ++ G9 ++ [(⟨i9, su, 9, true⟩ : Card)] ++ G8 ++ [(⟨i8, su, 8, true⟩ : Card)] ++ G7 ++ [(⟨i7, su, 7, true⟩ : Card)] ++ G6 ++ [(⟨i6, su, 6, true⟩ : Card)] ++ G5).length from by
          simp [List.length_append]
          omega]
    exact getD_at _ _ _
  dsimp only
  rw [hget]
  have hlast : (seq.getLastD default).rank = 4 :=
    getLastD_rank seq [1, 2, 3] 4 (by rw [hseq]; decide)
  dsimp only
  rw [hlast]
  have hc : ((seq ++ [(⟨i5, su, 5, true⟩ : Card)]).length == 13) = false := by
    simp [List.length_append, hslen]
  simp only [Bool.not_true, beq_self_eq_true, Bool.true_and, Bool.true_or,
    show ((5 : Nat) == 4 + 1) = true from rfl, Bool.false_and, Bool.not_false,
    Bool.false_or, Bool.or_false, hc, if_true, eq_self_iff_true, Bool.false_eq_true,
    if_false]
  rw [show pre ++ [(⟨i13, su, 13, true⟩ : Card)] ++ G12 ++ [(⟨i12, su, 12, true⟩ : Card)] ++ G11 ++ [(⟨i11, su, 11, true⟩ : Card)] ++ G10 ++ [(⟨i10, su, 10, true⟩ : Card)] ++ G9 ++ [(⟨i9, su, 9, true⟩ : Card)] ++ G8 ++ [(⟨i8, su, 8, true⟩ : Card)] ++ G7 ++ [(⟨i7, su, 7, true⟩ : Card)] ++ G6 ++ [(⟨i6, su, 6, true⟩ : Card)] ++ G5 ++ [(⟨i5, su, 5, true⟩ : Card)] ++ G4 ++ rest =
      pre ++ [(⟨i13, su, 13, true⟩ : Card)] ++ G12 ++ [(⟨i12, su, 12, true⟩ : Card)] ++ G11 ++ [(⟨i11, su, 11, true⟩ : Card)] ++ G10 ++ [(⟨i10, su, 10, true⟩ : Card)] ++ G9 ++ [(⟨i9, su, 9, true⟩ : Card)] ++ G8 ++ [(⟨i8, su, 8, true⟩ : Card)] ++ G7 ++ [(⟨i7, su, 7, true⟩ : Card)] ++ G6 ++ [(⟨i6, su, 6, true⟩ : Card)] ++ G5 ++ ([(⟨i5, su, 5, true⟩ : Card)] ++ G4 ++ rest) from by
      simp [List.append_assoc]]
  rw [aL5 pre G12 G11 G10 G9 G8 G7 G6 G5 ([(⟨i5, su, 5, true⟩ : Card)] ++ G4 ++ rest) (seq ++ [(⟨i5, su, 5, true⟩ : Card)]) _ su i13 i12 i11 i10 i9 i8 i7 i6 hG12 hG11 hG10 hG9 hG8 hG7 hG6 hG5
      (by rw [List.map_append, hseq]; rfl) (8 + (G12.length + G11.length + G10.length + G9.length + G8.length + G7.length + G6.length + G5.length)) rfl]
  rw [decInd_assemble idxs pre.length (8 + (G12.length + G11.length + G10.length + G9.length + G8.length + G7.length + G6.length + G5.length)) G4.length n (by omega)]

theorem aL3 (pre G12 G11 G10 G9 G8 G7 G6 G5 G4 G3 rest seq : List Card)
    (idxs : List Nat) (su i13 i12 i11 i10 i9 i8 i7 i6 i5 i4 : Nat)
    (hG12 : ∀ x ∈ G12, x.faceUp = false)
    (hG11 : ∀ x ∈ G11, x.faceUp = false)
    (hG10 : ∀ x ∈ G10, x.faceUp = false)
    (hG9 : ∀ x ∈ G9, x.faceUp = false)
    (hG8 : ∀ x ∈ G8, x.faceUp = false)
    (hG7 : ∀ x ∈ G7, x.faceUp = false)
    (hG6 : ∀ x ∈ G6, x.faceUp = false)
    (hG5 : ∀ x ∈ G5, x.faceUp = false)
    (hG4 : ∀ x ∈ G4, x.faceUp = false)
    (hG3 : ∀ x ∈ G3, x.faceUp = false)
    (hseq : seq.map Card.rank = [1, 2, 3])
    (n : Nat) (hn : n = 10 + (G12.length + G11.length + G10.length + G9.length + G8.length + G7.length + G6.length + G5.length + G4.length + G3.length)) :
    innerScan (pre ++ [⟨i13, su, 13, true⟩] ++ G12 ++ [⟨i12, su, 12, true⟩] ++ G11 ++ [⟨i11, su, 11, true⟩] ++ G10 ++ [⟨i10, su, 10, true⟩] ++ G9 ++ [⟨i9, su, 9, true⟩] ++ G8 ++ [⟨i8, su, 8, true⟩] ++ G7 ++ [⟨i7, su, 7, true⟩] ++ G6 ++ [⟨i6, su, 6, true⟩] ++ G5 ++ [⟨i5, su, 5, true⟩] ++ G4 ++ [⟨i4, su, 4, true⟩] ++ G3 ++ rest)
        true su seq idxs (pre.length + n) =
      some (idxs ++ decInd pre.length n) := by
  have hslen : seq.length = 3 := by
    have h := congrArg List.length hseq
    simpa using h
  rw [show pre.length + n = (pre.length + ((9 + (G12.length + G11.length + G10.length + G9.length + G8.length + G7.length + G6.length + G5.length + G4.length)) + 1)) + G3.length from by omega]
  rw [innerScan_skip
      (pre ++ [(⟨i13, su, 13, true⟩ : Card)] ++ G12 ++ [(⟨i12, su, 12, true⟩ : Card)] ++ G11 ++ [(⟨i11, su, 11, true⟩ : Card)] ++ G10 ++ [(⟨i10, su, 10, true⟩ : Card)] ++ G9 ++ [(⟨i9, su, 9, true⟩ : Card)] ++ G8 ++ [(⟨i8, su, 8, true⟩ : Card)] ++ G7 ++ [(⟨i7, su, 7, true⟩ : Card)] ++ G6 ++ [(⟨i6, su, 6, true⟩ : Card)] ++ G5 ++ [(⟨i5, su, 5, true⟩ : Card)] ++ G4 ++ [(⟨i4, su, 4, true⟩ : Card)] ++ G3 ++ rest)
      true su G3
      (pre ++ [(⟨i13, su, 13, true⟩ : Card)] ++ G12 ++ [(⟨i12, su, 12, true⟩ : Card)] ++ G11 ++ [(⟨i11, su, 11, true⟩ : Card)] ++ G10 ++ [(⟨i10, su, 10, true⟩ : Card)] ++ G9 ++ [(⟨i9, su, 9, true⟩ : Card)] ++ G8 ++ [(⟨i8, su, 8, true⟩ : Card)] ++ G7 ++ [(⟨i7, su, 7, true⟩ : Card)] ++ G6 ++ [(⟨i6, su, 6, true⟩ : Card)] ++ G5 ++ [(⟨i5, su, 5, true⟩ : Card)] ++ G4 ++ [(⟨i4, su, 4, true⟩ : Card)])
      rest seq idxs (pre.length + ((9 + (G12.length + G11.length + G10.length + G9.length + G8.length + G7.length + G6.length + G5.length + G4.length)) + 1))
      (by simp [List.append_assoc])
      (by simp [List.length_append]; omega)
      hG3]
  rw [show pre.length + ((9 + (G12.length + G11.length + G10.length + G9.length + G8.length + G7.length + G6.length + G5.length + G4.length)) + 1) = (pre.length + (9 + (G12.length + G11.length + G10.length + G9.length + G8.length + G7.length + G6.length + G5.length + G4.length))) + 1 from rfl]
  rw [innerScan_succ]
  have hget : (pre ++ [(⟨i13, su, 13, true⟩ : Card)] ++ G12 ++ [(⟨i12, su, 12, true⟩ : Card)] ++ G11 ++ [(⟨i11, su, 11, true⟩ : Card)] ++ G10 ++ [(⟨i10, su, 10, true⟩ : Card)] ++ G9 ++ [(⟨i9, su, 9, true⟩ : Card)] ++ G8 ++ [(⟨i8, su, 8, true⟩ : Card)] ++ G7 ++ [(⟨i7, su, 7, true⟩ : Card)] ++ G6 ++ [(⟨i6, su, 6, true⟩ : Card)] ++ G5 ++ [(⟨i5, su, 5, true⟩ : Card)] ++ G4 ++ [(⟨i4, su, 4, true⟩ : Card)] ++ G3 ++ rest).getD
      (pre.length + (9 + (G12.length + G11.length + G10.length + G9.length + G8.length + G7.length + G6.length + G5.length + G4.length))) default = (⟨i4, su, 4, true⟩ : Card) := by
    rw [show pre ++ [(⟨i13, su, 13, true⟩ : Card)] ++ G12 ++ [(⟨i12, su, 12, true⟩ : Card)] ++ G11 ++ [(⟨i11, su, 11, true⟩ : Card)] ++ G10 ++ [(⟨i10, su, 10, true⟩ : Card)] ++ G9 ++ [(⟨i9, su, 9, true⟩ : Card)] ++ G8 ++ [(⟨i8, su, 8, true⟩ : Card)] ++ G7 ++ [(⟨i7, su, 7, true⟩ : Card)] ++ G6 ++ [(⟨i6, su, 6, true⟩ : Card)] ++ G5 ++ [(⟨i5, su, 5, true⟩ : Card)] ++ G4 ++ [(⟨i4, su, 4, true⟩ : Card)] ++ G3 ++ rest =
        (pre ++ [(⟨i13, su, 13, true⟩ : Card)] ++ G12 ++ [(⟨i12, su, 12, true⟩ : Card)] ++ G11 ++ [(⟨i11, su, 11, true⟩ : Card)] ++ G10 ++ [(⟨i10, su, 10, true⟩ : Card)] ++ G9 ++ [(⟨i9, su, 9, true⟩ : Card)] ++ G8 ++ [(⟨i8, su, 8, true⟩ : Card)] ++ G7 ++ [(⟨i7, su, 7, true⟩ : Card)] ++ G6 ++ [(⟨i6, su, 6, true⟩ : Card)] ++ G5 ++ [(⟨i5, su, 5, true⟩ : Card)] ++ G4) ++ ((⟨i4, su, 4, true⟩ : Card) :: (G3 ++ rest)) from by
          simp [List.append_assoc],
      show pre.length + (9 + (G12.length + G11.length + G10.length + G9.length + G8.length + G7.length + G6.length + G5.length + G4.length)) =
          (pre ++ [(⟨i13, su, 13, true⟩ : Card)] ++ G12 ++ [(⟨i12, su, 12, true⟩ : Card)] ++ G11 ++ [(⟨i11, su, 11, true⟩ : Card)] ++ G10 ++ [(⟨i10, su, 10, true⟩ : Card)] ++ G9 ++ [(⟨i9, su, 9, true⟩ : Card)] ++ G8 ++ [(⟨i8, su, 8, true⟩ : Card)] ++ G7 ++ [(⟨i7, su, 7, true⟩ : Card)] ++ G6 ++ [(⟨i6, su, 6, true⟩ : Card)] ++ G5 ++ [(⟨i5, su, 5, true⟩ : Card)] ++ G4).length from by
          simp [List.length_append]
          omega]
    exact getD_at _ _ _
  dsimp only
  rw [hget]
  have hlast : (seq.getLastD default).rank = 3 :=
    getLastD_rank seq [1, 2] 3 (by rw [hseq]; decide)
  dsimp only
  rw [hlast]
  have hc : ((seq ++ [(⟨i4, su, 4, true⟩ : Card)]).length == 13) = false := by
    simp [List.length_append, hslen]
  simp only [Bool.not_true, beq_self_eq_true, Bool.true_and, Bool.true_or,
    show ((4 : Nat) == 3 + 1) = true from rfl, Bool.false_and, Bool.not_false,
    Bool.false_or, Bool.or_false, hc, if_true, eq_self_iff_true, Bool.false_eq_true,
    if_false]
  rw [show pre ++ [(⟨i13, su, 13, true⟩ : Card)] ++ G12 ++ [(⟨i12, su, 12, true⟩ : Card)] ++ G11 ++ [(⟨i11, su, 11, true⟩ : Card)] ++ G10 ++ [(⟨i10, su, 10, true⟩ : Card)] ++ G9 ++ [(⟨i9, su, 9, true⟩ : Card)] ++ G8 ++ [(⟨i8, su, 8, true⟩ : Card)] ++ G7 ++ [(⟨i7, su, 7, true⟩ : Card)] ++ G6 ++ [(⟨i6, su, 6, true⟩ : Card)] ++ G5 ++ [(⟨i5, su, 5, true⟩ : Card)] ++ G4 ++ [(⟨i4, su, 4, true⟩ : Card)] ++ G3 ++ rest =
      pre ++ [(⟨i13, su, 13, true⟩ : Card)] ++ G12 ++ [(⟨i12, su, 12, true⟩ : Card)] ++ G11 ++ [(⟨i11, su, 11, true⟩ : Card)] ++ G10 ++ [(⟨i10, su, 10, true⟩ : Card)] ++ G9 ++ [(⟨i9, su, 9, true⟩ : Card)] ++ G8 ++ [(⟨i8, su, 8, true⟩ : Card)] ++ G7 ++ [(⟨i7, su, 7, true⟩ : Card)] ++ G6 ++ [(⟨i6, su, 6, true⟩ : Card)] ++ G5 ++ [(⟨i5, su, 5, true⟩ : Card)] ++ G4 ++ ([(⟨i4, su, 4, true⟩ : Card)] ++ G3 ++ rest) from by
      simp [List.append_assoc]]
  rw [aL4 pre G12 G11 G10 G9 G8 G7 G6 G5 G4 ([(⟨i4, su, 4, true⟩ : Card)] ++ G3 ++ rest) (seq ++ [(⟨i4, su, 4, true⟩ : Card)]) _ su i13 i12 i11 i10 i9 i8 i7 i6 i5 hG12 hG11 hG10 hG9 hG8 hG7 hG6 hG5 hG4
      (by rw [List.map_append, hseq]; rfl) (9 + (G12.length + G11.length + G10.length + G9.length + G8.length + G7.length + G6.length + G5.length + G4.length)) rfl]
  rw [decInd_assemble idxs pre.length (9 + (G12.length + G11.length + G10.length + G9.length + G8.length + G7.length + G6.length + G5.length + G4.length)) G3.length n (by omega)]

theorem aL2 (pre G12 G11 G10 G9 G8 G7 G6 G5 G4 G3 G2 rest seq : List Card)
    (idxs : List Nat) (su i13 i12 i11 i10 i9 i8 i7 i6 i5 i4 i3 : Nat)
    (hG12 : ∀ x ∈ G12, x.faceUp = false)
    (hG11 : ∀ x ∈ G11, x.faceUp = false)
    (hG10 : ∀ x ∈ G10, x.faceUp = false)
    (hG9 : ∀ x ∈ G9, x.faceUp = false)
    (hG8 : ∀ x ∈ G8, x.faceUp = false)
    (hG7 : ∀ x ∈ G7, x.faceUp = false)
    (hG6 : ∀ x ∈ G6, x.faceUp = false)
    (hG5 : ∀ x ∈ G5, x.faceUp = false)
    (hG4 : ∀ x ∈ G4, x.faceUp = false)
    (hG3 : ∀ x ∈ G3, x.faceUp = false)
    (hG2 : ∀ x ∈ G2, x.faceUp = false)
    (hseq : seq.map Card.rank = [1, 2])
    (n : Nat) (hn : n = 11 + (G12.length + G11.length + G10.length + G9.length + G8.length + G7.length + G6.length + G5.length + G4.length + G3.length + G2.length)) :
    innerScan (pre ++ [⟨i13, su, 13, true⟩] ++ G12 ++ [⟨i12, su, 12, true⟩] ++ G11 ++ [⟨i11, su, 11, true⟩] ++ G10 ++ [⟨i10, su, 10, true⟩] ++ G9 ++ [⟨i9, su, 9, true⟩] ++ G8 ++ [⟨i8, su, 8, true⟩] ++ G7 ++ [⟨i7, su, 7, true⟩] ++ G6 ++ [⟨i6, su, 6, true⟩] ++ G5 ++ [⟨i5, su, 5, true⟩] ++ G4 ++ [⟨i4, su, 4, true⟩] ++ G3 ++ [⟨i3, su, 3, true⟩] ++ G2 ++ rest)
        true su seq idxs (pre.length + n) =
      some (idxs ++ decInd pre.length n) := by
  have hslen : seq.length = 2 := by
    have h := congrArg List.length hseq
    simpa using h
  rw [show pre.length + n = (pre.length + ((10 + (G12.length + G11.length + G10.length + G9.length + G8.length + G7.length + G6.length + G5.length + G4.length + G3.length)) + 1)) + G2.length from by omega]
  rw [innerScan_skip
      (pre ++ [(⟨i13, su, 13, true⟩ : Card)] ++ G12 ++ [(⟨i12, su, 12, true⟩ : Card)] ++ G11 ++ [(⟨i11, su, 11, true⟩ : Card)] ++ G10 ++ [(⟨i10, su, 10, true⟩ : Card)] ++ G9 ++ [(⟨i9, su, 9, true⟩ : Card)] ++ G8 ++ [(⟨i8, su, 8, true⟩ : Card)] ++ G7 ++ [(⟨i7, su, 7, true⟩ : Card)] ++ G6 ++ [(⟨i6, su, 6, true⟩ : Card)] ++ G5 ++ [(⟨i5, su, 5, true⟩ : Card)] ++ G4 ++ [(⟨i4, su, 4, true⟩ : Card)] ++ G3 ++ [(⟨i3, su, 3, true⟩ : Card)] ++ G2 ++ rest)
      true su G2
      (pre ++ [(⟨i13, su, 13, true⟩ : Card)] ++ G12 ++ [(⟨i12, su, 12, true⟩ : Card)] ++ G11 ++ [(⟨i11, su, 11, true⟩ : Card)] ++ G10 ++ [(⟨i10, su, 10, true⟩ : Card)] ++ G9 ++ [(⟨i9, su, 9, true⟩ : Card)] ++ G8 ++ [(⟨i8, su, 8, true⟩ : Card)] ++ G7 ++ [(⟨i7, su, 7, true⟩ : Card)] ++ G6 ++ [(⟨i6, su, 6, true⟩ : Card)] ++ G5 ++ [(⟨i5, su, 5, true⟩ : Card)] ++ G4 ++ [(⟨i4, su, 4, true⟩ : Card)] ++ G3 ++ [(⟨i3, su, 3, true⟩ : Card)])
      rest seq idxs (pre.length + ((10 + (G12.length + G11.length + G10.length + G9.length + G8.length + G7.length + G6.length + G5.length + G4.length + G3.length)) + 1))
      (by simp [List.append_assoc])
      (by simp [List.length_append]; omega)
      hG2]
  rw [show pre.length + ((10 + (G12.length + G11.length + G10.length + G9.length + G8.length + G7.length + G6.length + G5.length + G4.length + G3.length)) + 1) = (pre.length + (10 + (G12.length + G11.length + G10.length + G9.length + G8.length + G7.length + G6.length + G5.length + G4.length + G3.length))) + 1 from rfl]
  rw [innerScan_succ]
  have hget : (pre ++ [(⟨i13, su, 13, true⟩ : Card)] ++ G12 ++ [(⟨i12, su, 12, true⟩ : Card)] ++ G11 ++ [(⟨i11, su, 11, true⟩ : Card)] ++ G10 ++ [(⟨i10, su, 10, true⟩ : Card)] ++ G9 ++ [(⟨i9, su, 9, true⟩ : Card)] ++ G8 ++ [(⟨i8, su, 8, true⟩ : Card)] ++ G7 ++ [(⟨i7, su, 7, true⟩ : Card)] ++ G6 ++ [(⟨i6, su, 6, true⟩ : Card)] ++ G5 ++ [(⟨i5, su, 5, true⟩ : Card)] ++ G4 ++ [(⟨i4, su, 4, true⟩ : Card)] ++ G3 ++ [(⟨i3, su, 3, true⟩ : Card)] ++ G2 ++ rest).getD
      (pre.length + (10 + (G12.length + G11.length + G10.length + G9.length + G8.length + G7.length + G6.length + G5.length + G4.length + G3.length))) default = (⟨i3, su, 3, true⟩ : Card) := by
    rw [show pre ++ [(⟨i13, su, 13, true⟩ : Card)] ++ G12 ++ [(⟨i12, su, 12, true⟩ : Card)] ++ G11 ++ [(⟨i11, su, 11, true⟩ : Card)] ++ G10 ++ [(⟨i10, su, 10, true⟩ : Card)] ++ G9 ++ [(⟨i9, su, 9, true⟩ : Card)] ++ G8 ++ [(⟨i8, su, 8, true⟩ : Card)] ++ G7 ++ [(⟨i7, su, 7, true⟩ : Card)] ++ G6 ++ [(⟨i6, su, 6, true⟩ : Card)] ++ G5 ++ [(⟨i5, su, 5, true⟩ : Card)] ++ G4 ++ [(⟨i4, su, 4, true⟩ : Card)] ++ G3 ++ [(⟨i3, su, 3, true⟩ : Card)] ++ G2 ++ rest =
        (pre ++ [(⟨i13, su, 13, true⟩ : Card)] ++ G12 ++ [(⟨i12, su, 12, true⟩ : Card)] ++ G11 ++ [(⟨i11, su, 11, true⟩ : Card)] ++ G10 ++ [(⟨i10, su, 10, true⟩ : Card)] ++ G9 ++ [(⟨i9, su, 9, true⟩ : Card)] ++ G8 ++ [(⟨i8, su, 8, true⟩ : Card)] ++ G7 ++ [(⟨i7, su, 7, true⟩ : Card)] ++ G6 ++ [(⟨i6, su, 6, true⟩ : Card)] ++ G5 ++ [(⟨i5, su, 5, true⟩ : Card)] ++ G4 ++ [(⟨i4, su, 4, true⟩ : Card)] ++ G3) ++ ((⟨i3, su, 3, true⟩ : Card) :: (G2 ++ rest)) from by
          simp [List.append_assoc],
      show pre.length + (10 + (G12.length + G11.length + G10.length + G9.length + G8.length + G7.length + G6.length + G5.length + G4.length + G3.length)) =
          (pre ++ [(⟨i13, su, 13, true⟩ : Card)] ++ G12 ++ [(⟨i12, su, 12, true⟩ : Card)] ++ G11 ++ [(⟨i11, su, 11, true⟩ : Card)] ++ G10 ++ [(⟨i10, su, 10, true⟩ : Card)] ++ G9 ++ [(⟨i9, su, 9, true⟩ : Card)] ++ G8 ++ [(⟨i8, su, 8, true⟩ : Card)] ++ G7 ++ [(⟨i7, su, 7, true⟩ : Card)] ++ G6 ++ [(⟨i6, su, 6, true⟩ : Card)] ++ G5 ++ [(⟨i5, su, 5, true⟩ : Card)] ++ G4 ++ [(⟨i4, su, 4, true⟩ : Card)] ++ G3).length from by
          simp [List.length_append]
          omega]
    exact getD_at _ _ _
  dsimp only
  rw [hget]
  have hlast : (seq.getLastD default).rank = 2 :=
    getLastD_rank seq [1] 2 (by rw [hseq]; decide)
  dsimp only
  rw [hlast]
  have hc : ((seq ++ [(⟨i3, su, 3, true⟩ : Card)]).length == 13) = false := by
    simp [List.length_append, hslen]
  simp only [Bool.not_true, beq_self_eq_true, Bool.true_and, Bool.true_or,
    show ((3 : Nat) == 2 + 1) = true from rfl, Bool.false_and, Bool.not_false,
    Bool.false_or, Bool.or_false, hc, if_true, eq_self_iff_true, Bool.false_eq_true,
    if_false]
  rw [show pre ++ [(⟨i13, su, 13, true⟩ : Card)] ++ G12 ++ [(⟨i12, su, 12, true⟩ : Card)] ++ G11 ++ [(⟨i11, su, 11, true⟩ : Card)] ++ G10 ++ [(⟨i10, su, 10, true⟩ : Card)] ++ G9 ++ [(⟨i9, su, 9, true⟩ : Card)] ++ G8 ++ [(⟨i8, su, 8, true⟩ : Card)] ++ G7 ++ [(⟨i7, su, 7, true⟩ : Card)] ++ G6 ++ [(⟨i6, su, 6, true⟩ : Card)] ++ G5 ++ [(⟨i5, su, 5, true⟩ : Card)] ++ G4 ++ [(⟨i4, su, 4, true⟩ : Card)] ++ G3 ++ [(⟨i3, su, 3, true⟩ : Card)] ++ G2 ++ rest =
      pre ++ [(⟨i13, su, 13, true⟩ : Card)] ++ G12 ++ [(⟨i12, su, 12, true⟩ : Card)] ++ G11 ++ [(⟨i11, su, 11, true⟩ : Card)] ++ G10 ++ [(⟨i10, su, 10, true⟩ : Card)] ++ G9 ++ [(⟨i9, su, 9, true⟩ : Card)] ++ G8 ++ [(⟨i8, su, 8, true⟩ : Card)] ++ G7 ++ [(⟨i7, su, 7, true⟩ : Card)] ++ G6 ++ [(⟨i6, su, 6, true⟩ : Card)] ++ G5 ++ [(⟨i5, su, 5, true⟩ : Card)] ++ G4 ++ [(⟨i4, su, 4, true⟩ : Card)] ++ G3 ++ ([(⟨i3, su, 3, true⟩ : Card)] ++ G2 ++ rest) from by
      simp [List.append_assoc]]
  rw [aL3 pre G12 G11 G10 G9 G8 G7 G6 G5 G4 G3 ([(⟨i3, su, 3, true⟩ : Card)] ++ G2 ++ rest) (seq ++ [(⟨i3, su, 3, true⟩ : Card)]) _ su i13 i12 i11 i10 i9 i8 i7 i6 i5 i4 hG12 hG11 hG10 hG9 hG8 hG7 hG6 hG5 hG4 hG3
      (by rw [List.map_append, hseq]; rfl) (10 + (G12.length + G11.length + G10.length + G9.length + G8.length + G7.length + G6.length + G5.length + G4.length + G3.length)) rfl]
  rw [decInd_assemble idxs pre.length (10 + (G12.length + G11.length + G10.length + G9.length + G8.length + G7.length + G6.length + G5.length + G4.length + G3.length)) G2.length n (by omega)]

theorem aL1 (pre G12 G11 G10 G9 G8 G7 G6 G5 G4 G3 G2 G1 rest seq : List Card)
    (idxs : List Nat) (su i13 i12 i11 i10 i9 i8 i7 i6 i5 i4 i3 i2 : Nat)
    (hG12 : ∀ x ∈ G12, x.faceUp = false)
    (hG11 : ∀ x ∈ G11, x.faceUp = false)
    (hG10 : ∀ x ∈ G10, x.faceUp = false)
    (hG9 : ∀ x ∈ G9, x.faceUp = false)
    (hG8 : ∀ x ∈ G8, x.faceUp = false)
    (hG7 : ∀ x ∈ G7, x.faceUp = false)
    (hG6 : ∀ x ∈ G6, x.faceUp = false)
    (hG5 : ∀ x ∈ G5, x.faceUp = false)
    (hG4 : ∀ x ∈ G4, x.faceUp = false)
    (hG3 : ∀ x ∈ G3, x.faceUp = false)
    (hG2 : ∀ x ∈ G2, x.faceUp = false)
    (hG1 : ∀ x ∈ G1, x.faceUp = false)
    (hseq : seq.map Card.rank = [1])
    (n : Nat) (hn : n = 12 + (G12.length + G11.length + G10.length + G9.length + G8.length + G7.length + G6.length + G5.length + G4.length + G3.length + G2.length + G1.length)) :
    innerScan (pre ++ [⟨i13, su, 13, true⟩] ++ G12 ++ [⟨i12, su, 12, true⟩] ++ G11 ++ [⟨i11, su, 11, true⟩] ++ G10 ++ [⟨i10, su, 10, true⟩] ++ G9 ++ [⟨i9, su, 9, true⟩] ++ G8 ++ [⟨i8, su, 8, true⟩] ++ G7 ++ [⟨i7, su, 7, true⟩] ++ G6 ++ [⟨i6, su, 6, true⟩] ++ G5 ++ [⟨i5, su, 5, true⟩] ++ G4 ++ [⟨i4, su, 4, true⟩] ++ G3 ++ [⟨i3, su, 3, true⟩] ++ G2 ++ [⟨i2, su, 2, true⟩] ++ G1 ++ rest)
        true su seq idxs (pre.length + n) =
      some (idxs ++ decInd pre.length n) := by
  have hslen : seq.length = 1 := by
    have h := congrArg List.length hseq
    simpa using h
  rw [show pre.length + n = (pre.length + ((11 + (G12.length + G11.length + G10.length + G9.length + G8.length + G7.length + G6.length + G5.length + G4.length + G3.length + G2.length)) + 1)) + G1.length from by omega]
  rw [innerScan_skip
      (pre ++ [(⟨i13, su, 13, true⟩ : Card)] ++ G12 ++ [(⟨i12, su, 12, true⟩ : Card)] ++ G11 ++ [(⟨i11, su, 11, true⟩ : Card)] ++ G10 ++ [(⟨i10, su, 10, true⟩ : Card)] ++ G9 ++ [(⟨i9, su, 9, true⟩ : Card)] ++ G8 ++ [(⟨i8, su, 8, true⟩ : Card)] ++ G7 ++ [(⟨i7, su, 7, true⟩ : Card)] ++ G6 ++ [(⟨i6, su, 6, true⟩ : Card)] ++ G5 ++ [(⟨i5, su, 5, true⟩ : Card)] ++ G4 ++ [(⟨i4, su, 4, true⟩ : Card)] ++ G3 ++ [(⟨i3, su, 3, true⟩ : Card)] ++ G2 ++ [(⟨i2, su, 2, true⟩ : Card)] ++ G1 ++ rest)
      true su G1
      (pre ++ [(⟨i13, su, 13, true⟩ : Card)] ++ G12 ++ [(⟨i12, su, 12, true⟩ : Card)] ++ G11 ++ [(⟨i11, su, 11, true⟩ : Card)] ++ G10 ++ [(⟨i10, su, 10, true⟩ : Card)] ++ G9 ++ [(⟨i9, su, 9, true⟩ : Card)] ++ G8 ++ [(⟨i8, su, 8, true⟩ : Card)] ++ G7 ++ [(⟨i7, su, 7, true⟩ : Card)] ++ G6 ++ [(⟨i6, su, 6, true⟩ : Card)] ++ G5 ++ [(⟨i5, su, 5, true⟩ : Card)] ++ G4 ++ [(⟨i4, su, 4, true⟩ : Card)] ++ G3 ++ [(⟨i3, su, 3, true⟩ : Card)] ++ G2 ++ [(⟨i2, su, 2, true⟩ : Card)])
      rest seq idxs (pre.length + ((11 + (G12.length + G11.length + G10.length + G9.length + G8.length + G7.length + G6.length + G5.length + G4.length + G3.length + G2.length)) + 1))
      (by simp [List.append_assoc])
      (by simp [List.length_append]; omega)
      hG1]
  rw [show pre.length + ((11 + (G12.length + G11.length + G10.length + G9.length + G8.length + G7.length + G6.length + G5.length + G4.length + G3.length + G2.length)) + 1) = (pre.length + (11 + (G12.length + G11.length + G10.length + G9.length + G8.length + G7.length + G6.length + G5.length + G4.length + G3.length + G2.length))) + 1 from rfl]
  rw [innerScan_succ]
  have hget : (pre ++ [(⟨i13, su, 13, true⟩ : Card)] ++ G12 ++ [(⟨i12, su, 12, true⟩ : Card)] ++ G11 ++ [(⟨i11, su, 11, true⟩ : Card)] ++ G10 ++ [(⟨i10, su, 10, true⟩ : Card)] ++ G9 ++ [(⟨i9, su, 9, true⟩ : Card)] ++ G8 ++ [(⟨i8, su, 8, true⟩ : Card)] ++ G7 ++ [(⟨i7, su, 7, true⟩ : Card)] ++ G6 ++ [(⟨i6, su, 6, true⟩ : Card)] ++ G5 ++ [(⟨i5, su, 5, true⟩ : Card)] ++ G4 ++ [(⟨i4, su, 4, true⟩ : Card)] ++ G3 ++ [(⟨i3, su, 3, true⟩ : Card)] ++ G2 ++ [(⟨i2, su, 2, true⟩ : Card)] ++ G1 ++ rest).getD
      (pre.length + (11 + (G12.length + G11.length + G10.length + G9.length + G8.length + G7.length + G6.length + G5.length + G4.length + G3.length + G2.length))) default = (⟨i2, su, 2, true⟩ : Card) := by
    rw [show pre ++ [(⟨i13, su, 13, true⟩ : Card)] ++ G12 ++ [(⟨i12, su, 12, true⟩ : Card)] ++ G11 ++ [(⟨i11, su, 11, true⟩ : Card)] ++ G10 ++ [(⟨i10, su, 10, true⟩ : Card)] ++ G9 ++ [(⟨i9, su, 9, true⟩ : Card)] ++ G8 ++ [(⟨i8, su, 8, true⟩ : Card)] ++ G7 ++ [(⟨i7, su, 7, true⟩ : Card)] ++ G6 ++ [(⟨i6, su, 6, true⟩ : Card)] ++ G5 ++ [(⟨i5, su, 5, true⟩ : Card)] ++ G4 ++ [(⟨i4, su, 4, true⟩ : Card)] ++ G3 ++ [(⟨i3, su, 3, true⟩ : Card)] ++ G2 ++ [(⟨i2, su, 2, true⟩ : Card)] ++ G1 ++ rest =
        (pre ++ [(⟨i13, su, 13, true⟩ : Card)] ++ G12 ++ [(⟨i12, su, 12, true⟩ : Card)] ++ G11 ++ [(⟨i11, su, 11, true⟩ : Card)] ++ G10 ++ [(⟨i10, su, 10, true⟩ : Card)] ++ G9 ++ [(⟨i9, su, 9, true⟩ : Card)] ++ G8 ++ [(⟨i8, su, 8, true⟩ : Card)] ++ G7 ++ [(⟨i7, su, 7, true⟩ : Card)] ++ G6 ++ [(⟨i6, su, 6, true⟩ : Card)] ++ G5 ++ [(⟨i5, su, 5, true⟩ : Card)] ++ G4 ++ [(⟨i4, su, 4, true⟩ : Card)] ++ G3 ++ [(⟨i3, su, 3, true⟩ : Card)] ++ G2) ++ ((⟨i2, su, 2, true⟩ : Card) :: (G1 ++ rest)) from by
          simp [List.append_assoc],
      show pre.length + (11 + (G12.length + G11.length + G10.length + G9.length + G8.length + G7.length + G6.length + G5.length + G4.length + G3.length + G2.length)) =
          (pre ++ [(⟨i13, su, 13, true⟩ : Card)] ++ G12 ++ [(⟨i12, su, 12, true⟩ : Card)] ++ G11 ++ [(⟨i11, su, 11, true⟩ : Card)] ++ G10 ++ [(⟨i10, su, 10, true⟩ : Card)] ++ G9 ++ [(⟨i9, su, 9, true⟩ : Card)] ++ G8 ++ [(⟨i8, su, 8, true⟩ : Card)] ++ G7 ++ [(⟨i7, su, 7, true⟩ : Card)] ++ G6 ++ [(⟨i6, su, 6, true⟩ : Card)] ++ G5 ++ [(⟨i5, su, 5, true⟩ : Card)] ++ G4 ++ [(⟨i4, su, 4, true⟩ : Card)] ++ G3 ++ [(⟨i3, su, 3, true⟩ : Card)] ++ G2).length from by
          simp [List.length_append]
          omega]
    exact getD_at _ _ _
  dsimp only
  rw [hget]
  have hlast : (seq.getLastD default).rank = 1 :=
    getLastD_rank seq [] 1 (by rw [hseq]; decide)
  dsimp only
  rw [hlast]
  have hc : ((seq ++ [(⟨i2, su, 2, true⟩ : Card)]).length == 13) = false := by
    simp [List.length_append, hslen]
  simp only [Bool.not_true, beq_self_eq_true, Bool.true_and, Bool.true_or,
    show ((2 : Nat) == 1 + 1) = true from rfl, Bool.false_and, Bool.not_false,
    Bool.false_or, Bool.or_false, hc, if_true, eq_self_iff_true, Bool.false_eq_true,
    if_false]
  rw [show pre ++ [(⟨i13, su, 13, true⟩ : Card)] ++ G12 ++ [(⟨i12, su, 12, true⟩ : Card)] ++ G11 ++ [(⟨i11, su, 11, true⟩ : Card)] ++ G10 ++ [(⟨i10, su, 10, true⟩ : Card)] ++ G9 ++ [(⟨i9, su, 9, true⟩ : Card)] ++ G8 ++ [(⟨i8, su, 8, true⟩ : Card)] ++ G7 ++ [(⟨i7, su, 7, true⟩ : Card)] ++ G6 ++ [(⟨i6, su, 6, true⟩ : Card)] ++ G5 ++ [(⟨i5, su, 5, true⟩ : Card)] ++ G4 ++ [(⟨i4, su, 4, true⟩ : Card)] ++ G3 ++ [(⟨i3, su, 3, true⟩ : Card)] ++ G2 ++ [(⟨i2, su, 2, true⟩ : Card)] ++ G1 ++ rest =
      pre ++ [(⟨i13, su, 13, true⟩ : Card)] ++ G12 ++ [(⟨i12, su, 12, true⟩ : Card)] ++ G11 ++ [(⟨i11, su, 11, true⟩ : Card)] ++ G10 ++ [(⟨i10, su, 10, true⟩ : Card)] ++ G9 ++ [(⟨i9, su, 9, true⟩ : Card)] ++ G8 ++ [(⟨i8, su, 8, true⟩ : Card)] ++ G7 ++ [(⟨i7, su, 7, true⟩ : Card)] ++ G6 ++ [(⟨i6, su, 6, true⟩ : Card)] ++ G5 ++ [(⟨i5, su, 5, true⟩ : Card)] ++ G4 ++ [(⟨i4, su, 4, true⟩ : Card)] ++ G3 ++ [(⟨i3, su, 3, true⟩ : Card)] ++ G2 ++ ([(⟨i2, su, 2, true⟩ : Card)] ++ G1 ++ rest) from by
      simp [List.append_assoc]]
  rw [aL2 pre G12 G11 G10 G9 G8 G7 G6 G5 G4 G3 G2 ([(⟨i2, su, 2, true⟩ : Card)] ++ G1 ++ rest) (seq ++ [(⟨i2, su, 2, true⟩ : Card)]) _ su i13 i12 i11 i10 i9 i8 i7 i6 i5 i4 i3 hG12 hG11 hG10 hG9 hG8 hG7 hG6 hG5 hG4 hG3 hG2
      (by rw [List.map_append, hseq]; rfl) (11 + (G12.length + G11.length + G10.length + G9.length + G8.length + G7.length + G6.length + G5.length + G4.length + G3.length + G2.length)) rfl]
  rw [decInd_assemble idxs pre.length (11 + (G12.length + G11.length + G10.length + G9.length + G8.length + G7.length + G6.length + G5.length + G4.length + G3.length + G2.length)) G1.length n (by omega)]

/-- A column segment holding a face-up, contiguous, same-suit K..2 run (12 cards, no-Aces mode)
read bottom-to-top, with an arbitrary block of face-down cards interleaved
below each run card inside the scan window (suit and all ids arbitrary). -/
def windowNA (su i13 i12 i11 i10 i9 i8 i7 i6 i5 i4 i3 i2 : Nat)
    (G12 G11 G10 G9 G8 G7 G6 G5 G4 G3 G2 : List Card) : List Card :=
  [⟨i13, su, 13, true⟩] ++ G12 ++ [⟨i12, su, 12, true⟩] ++ G11 ++ [⟨i11, su, 11, true⟩] ++ G10 ++ [⟨i10, su, 10, true⟩] ++ G9 ++ [⟨i9, su, 9, true⟩] ++ G8 ++ [⟨i8, su, 8, true⟩] ++ G7 ++ [⟨i7, su, 7, true⟩] ++ G6 ++ [⟨i6, su, 6, true⟩] ++ G5 ++ [⟨i5, su, 5, true⟩] ++ G4 ++ [⟨i4, su, 4, true⟩] ++ G3 ++ [⟨i3, su, 3, true⟩] ++ G2 ++ [⟨i2, su, 2, true⟩]

/-- `tryComplete` on any column made of an arbitrary portion `pre` with a
12-card run window on top: it fires and removes the whole window -
run cards and interleaved face-down cards alike, top of the column first -
leaving exactly `pre`. -/
theorem tryComplete_windowNA (pre : List Card) (su i13 i12 i11 i10 i9 i8 i7 i6 i5 i4 i3 i2 : Nat)
    (G12 G11 G10 G9 G8 G7 G6 G5 G4 G3 G2 : List Card)
    (hG12 : ∀ x ∈ G12, x.faceUp = false)
    (hG11 : ∀ x ∈ G11, x.faceUp = false)
    (hG10 : ∀ x ∈ G10, x.faceUp = false)
    (hG9 : ∀ x ∈ G9, x.faceUp = false)
    (hG8 : ∀ x ∈ G8, x.faceUp = false)
    (hG7 : ∀ x ∈ G7, x.faceUp = false)
    (hG6 : ∀ x ∈ G6, x.faceUp = false)
    (hG5 : ∀ x ∈ G5, x.faceUp = false)
    (hG4 : ∀ x ∈ G4, x.faceUp = false)
    (hG3 : ∀ x ∈ G3, x.faceUp = false)
    (hG2 : ∀ x ∈ G2, x.faceUp = false) :
    tryComplete (pre ++ windowNA su i13 i12 i11 i10 i9 i8 i7 i6 i5 i4 i3 i2 G12 G11 G10 G9 G8 G7 G6 G5 G4 G3 G2) false =
      some ((windowNA su i13 i12 i11 i10 i9 i8 i7 i6 i5 i4 i3 i2 G12 G11 G10 G9 G8 G7 G6 G5 G4 G3 G2).reverse, pre) := by
  unfold tryComplete windowNA
  dsimp only
  split
  · rename_i hfalse
    exact absurd hfalse (by decide)
  · rw [show (pre ++ ([(⟨i13, su, 13, true⟩ : Card)] ++ G12 ++ [(⟨i12, su, 12, true⟩ : Card)] ++ G11 ++ [(⟨i11, su, 11, true⟩ : Card)] ++ G10 ++ [(⟨i10, su, 10, true⟩ : Card)] ++ G9 ++ [(⟨i9, su, 9, true⟩ : Card)] ++ G8 ++ [(⟨i8, su, 8, true⟩ : Card)] ++ G7 ++ [(⟨i7, su, 7, true⟩ : Card)] ++ G6 ++ [(⟨i6, su, 6, true⟩ : Card)] ++ G5 ++ [(⟨i5, su, 5, true⟩ : Card)] ++ G4 ++ [(⟨i4, su, 4, true⟩ : Card)] ++ G3 ++ [(⟨i3, su, 3, true⟩ : Card)] ++ G2 ++ [(⟨i2, su, 2, true⟩ : Card)])).length = pre.length + (11 + (G12.length + G11.length + G10.length + G9.length + G8.length + G7.length + G6.length + G5.length + G4.length + G3.length + G2.length)) + 1 from by
        simp [List.length_append]
        omega]
    split
    · rename_i hlt
      exfalso
      omega
    · rw [outerScan_succ]
      have hget2 : (pre ++ ([(⟨i13, su, 13, true⟩ : Card)] ++ G12 ++ [(⟨i12, su, 12, true⟩ : Card)] ++ G11 ++ [(⟨i11, su, 11, true⟩ : Card)] ++ G10 ++ [(⟨i10, su, 10, true⟩ : Card)] ++ G9 ++ [(⟨i9, su, 9, true⟩ : Card)] ++ G8 ++ [(⟨i8, su, 8, true⟩ : Card)] ++ G7 ++ [(⟨i7, su, 7, true⟩ : Card)] ++ G6 ++ [(⟨i6, su, 6, true⟩ : Card)] ++ G5 ++ [(⟨i5, su, 5, true⟩ : Card)] ++ G4 ++ [(⟨i4, su, 4, true⟩ : Card)] ++ G3 ++ [(⟨i3, su, 3, true⟩ : Card)] ++ G2 ++ [(⟨i2, su, 2, true⟩ : Card)])).getD (pre.length + (11 + (G12.length + G11.length + G10.length + G9.length + G8.length + G7.length + G6.length + G5.length + G4.length + G3.length + G2.length))) default =
          (⟨i2, su, 2, true⟩ : Card) := by
        rw [show pre ++ ([(⟨i13, su, 13, true⟩ : Card)] ++ G12 ++ [(⟨i12, su, 12, true⟩ : Card)] ++ G11 ++ [(⟨i11, su, 11, true⟩ : Card)] ++ G10 ++ [(⟨i10, su, 10, true⟩ : Card)] ++ G9 ++ [(⟨i9, su, 9, true⟩ : Card)] ++ G8 ++ [(⟨i8, su, 8, true⟩ : Card)] ++ G7 ++ [(⟨i7, su, 7, true⟩ : Card)] ++ G6 ++ [(⟨i6, su, 6, true⟩ : Card)] ++ G5 ++ [(⟨i5, su, 5, true⟩ : Card)] ++ G4 ++ [(⟨i4, su, 4, true⟩ : Card)] ++ G3 ++ [(⟨i3, su, 3, true⟩ : Card)] ++ G2 ++ [(⟨i2, su, 2, true⟩ : Card)]) =
            (pre ++ [(⟨i13, su, 13, true⟩ : Card)] ++ G12 ++ [(⟨i12, su, 12, true⟩ : Card)] ++ G11 ++ [(⟨i11, su, 11, true⟩ : Card)] ++ G10 ++ [(⟨i10, su, 10, true⟩ : Card)] ++ G9 ++ [(⟨i9, su, 9, true⟩ : Card)] ++ G8 ++ [(⟨i8, su, 8, true⟩ : Card)] ++ G7 ++ [(⟨i7, su, 7, true⟩ : Card)] ++ G6 ++ [(⟨i6, su, 6, true⟩ : Card)] ++ G5 ++ [(⟨i5, su, 5, true⟩ : Card)] ++ G4 ++ [(⟨i4, su, 4, true⟩ : Card)] ++ G3 ++ [(⟨i3, su, 3, true⟩ : Card)] ++ G2) ++ ((⟨i2, su, 2, true⟩ : Card) :: []) from by
              simp [List.append_assoc],
          show pre.length + (11 + (G12.length + G11.length + G10.length + G9.length + G8.length + G7.length + G6.length + G5.length + G4.length + G3.length + G2.length)) = (pre ++ [(⟨i13, su, 13, true⟩ : Card)] ++ G12 ++ [(⟨i12, su, 12, true⟩ : Card)] ++ G11 ++ [(⟨i11, su, 11, true⟩ : Card)] ++ G10 ++ [(⟨i10, su, 10, true⟩ : Card)] ++ G9 ++ [(⟨i9, su, 9, true⟩ : Card)] ++ G8 ++ [(⟨i8, su, 8, true⟩ : Card)] ++ G7 ++ [(⟨i7, su, 7, true⟩ : Card)] ++ G6 ++ [(⟨i6, su, 6, true⟩ : Card)] ++ G5 ++ [(⟨i5, su, 5, true⟩ : Card)] ++ G4 ++ [(⟨i4, su, 4, true⟩ : Card)] ++ G3 ++ [(⟨i3, su, 3, true⟩ : Card)] ++ G2).length from by
              simp [List.length_append]
              omega]
        exact getD_at _ _ _
      dsimp only
      rw [hget2]
      dsimp only
      simp only [Bool.not_true, Bool.false_eq_true, if_false]
      rw [show pre ++ ([(⟨i13, su, 13, true⟩ : Card)] ++ G12 ++ [(⟨i12, su, 12, true⟩ : Card)] ++ G11 ++ [(⟨i11, su, 11, true⟩ : Card)] ++ G10 ++ [(⟨i10, su, 10, true⟩ : Card)] ++ G9 ++ [(⟨i9, su, 9, true⟩ : Card)] ++ G8 ++ [(⟨i8, su, 8, true⟩ : Card)] ++ G7 ++ [(⟨i7, su, 7, true⟩ : Card)] ++ G6 ++ [(⟨i6, su, 6, true⟩ : Card)] ++ G5 ++ [(⟨i5, su, 5, true⟩ : Card)] ++ G4 ++ [(⟨i4, su, 4, true⟩ : Card)] ++ G3 ++ [(⟨i3, su, 3, true⟩ : Card)] ++ G2 ++ [(⟨i2, su, 2, true⟩ : Card)]) = pre ++ [(⟨i13, su, 13, true⟩ : Card)] ++ G12 ++ [(⟨i12, su, 12, true⟩ : Card)] ++ G11 ++ [(⟨i11, su, 11, true⟩ : Card)] ++ G10 ++ [(⟨i10, su, 10, true⟩ : Card)] ++ G9 ++ [(⟨i9, su, 9, true⟩ : Card)] ++ G8 ++ [(⟨i8, su, 8, true⟩ : Card)] ++ G7 ++ [(⟨i7, su, 7, true⟩ : Card)] ++ G6 ++ [(⟨i6, su, 6, true⟩ : Card)] ++ G5 ++ [(⟨i5, su, 5, true⟩ : Card)] ++ G4 ++ [(⟨i4, su, 4, true⟩ : Card)] ++ G3 ++ [(⟨i3, su, 3, true⟩ : Card)] ++ G2 ++ [(⟨i2, su, 2, true⟩ : Card)] from by simp [List.append_assoc]]
      rw [naL2 pre G12 G11 G10 G9 G8 G7 G6 G5 G4 G3 G2 ([(⟨i2, su, 2, true⟩ : Card)]) ([(⟨i2, su, 2, true⟩ : Card)]) _ su i13 i12 i11 i10 i9 i8 i7 i6 i5 i4 i3 hG12 hG11 hG10 hG9 hG8 hG7 hG6 hG5 hG4 hG3 hG2 rfl (11 + (G12.length + G11.length + G10.length + G9.length + G8.length + G7.length + G6.length + G5.length + G4.length + G3.length + G2.length)) rfl]
      dsimp only
      rw [show ([pre.length + (11 + (G12.length + G11.length + G10.length + G9.length + G8.length + G7.length + G6.length + G5.length + G4.length + G3.length + G2.length))] ++ decInd pre.length (11 + (G12.length + G11.length + G10.length + G9.length + G8.length + G7.length + G6.length + G5.length + G4.length + G3.length + G2.length)) : List Nat) =
          decInd pre.length ((11 + (G12.length + G11.length + G10.length + G9.length + G8.length + G7.length + G6.length + G5.length + G4.length + G3.length + G2.length)) + 1) from by
          rw [List.singleton_append, ← decInd_succ]]
      rw [show pre ++ [(⟨i13, su, 13, true⟩ : Card)] ++ G12 ++ [(⟨i12, su, 12, true⟩ : Card)] ++ G11 ++ [(⟨i11, su, 11, true⟩ : Card)] ++ G10 ++ [(⟨i10, su, 10, true⟩ : Card)] ++ G9 ++ [(⟨i9, su, 9, true⟩ : Card)] ++ G8 ++ [(⟨i8, su, 8, true⟩ : Card)] ++ G7 ++ [(⟨i7, su, 7, true⟩ : Card)] ++ G6 ++ [(⟨i6, su, 6, true⟩ : Card)] ++ G5 ++ [(⟨i5, su, 5, true⟩ : Card)] ++ G4 ++ [(⟨i4, su, 4, true⟩ : Card)] ++ G3 ++ [(⟨i3, su, 3, true⟩ : Card)] ++ G2 ++ [(⟨i2, su, 2, true⟩ : Card)] = pre ++ ([(⟨i13, su, 13, true⟩ : Card)] ++ G12 ++ [(⟨i12, su, 12, true⟩ : Card)] ++ G11 ++ [(⟨i11, su, 11, true⟩ : Card)] ++ G10 ++ [(⟨i10, su, 10, true⟩ : Card)] ++ G9 ++ [(⟨i9, su, 9, true⟩ : Card)] ++ G8 ++ [(⟨i8, su, 8, true⟩ : Card)] ++ G7 ++ [(⟨i7, su, 7, true⟩ : Card)] ++ G6 ++ [(⟨i6, su, 6, true⟩ : Card)] ++ G5 ++ [(⟨i5, su, 5, true⟩ : Card)] ++ G4 ++ [(⟨i4, su, 4, true⟩ : Card)] ++ G3 ++ [(⟨i3, su, 3, true⟩ : Card)] ++ G2 ++ [(⟨i2, su, 2, true⟩ : Card)]) from by simp [List.append_assoc]]
      rw [removeIndices_decInd ([(⟨i13, su, 13, true⟩ : Card)] ++ G12 ++ [(⟨i12, su, 12, true⟩ : Card)] ++ G11 ++ [(⟨i11, su, 11, true⟩ : Card)] ++ G10 ++ [(⟨i10, su, 10, true⟩ : Card)] ++ G9 ++ [(⟨i9, su, 9, true⟩ : Card)] ++ G8 ++ [(⟨i8, su, 8, true⟩ : Card)] ++ G7 ++ [(⟨i7, su, 7, true⟩ : Card)] ++ G6 ++ [(⟨i6, su, 6, true⟩ : Card)] ++ G5 ++ [(⟨i5, su, 5, true⟩ : Card)] ++ G4 ++ [(⟨i4, su, 4, true⟩ : Card)] ++ G3 ++ [(⟨i3, su, 3, true⟩ : Card)] ++ G2 ++ [(⟨i2, su, 2, true⟩ : Card)]) pre ((11 + (G12.length + G11.length + G10.length + G9.length + G8.length + G7.length + G6.length + G5.length + G4.length + G3.length + G2.length)) + 1)
          (by simp [List.length_append]; omega)]

/-- A column segment holding a face-up, contiguous, same-suit K..A run (13 cards, Aces mode)
read bottom-to-top, with an arbitrary block of face-down cards interleaved
below each run card inside the scan window (suit and all ids arbitrary). -/
def windowA (su i13 i12 i11 i10 i9 i8 i7 i6 i5 i4 i3 i2 i1 : Nat)
    (G12 G11 G10 G9 G8 G7 G6 G5 G4 G3 G2 G1 : List Card) : List Card :=
  [⟨i13, su, 13, true⟩] ++ G12 ++ [⟨i12, su, 12, true⟩] ++ G11 ++ [⟨i11, su, 11, true⟩] ++ G10 ++ [⟨i10, su, 10, true⟩] ++ G9 ++ [⟨i9, su, 9, true⟩] ++ G8 ++ [⟨i8, su, 8, true⟩] ++ G7 ++ [⟨i7, su, 7, true⟩] ++ G6 ++ [⟨i6, su, 6, true⟩] ++ G5 ++ [⟨i5, su, 5, true⟩] ++ G4 ++ [⟨i4, su, 4, true⟩] ++ G3 ++ [⟨i3, su, 3, true⟩] ++ G2 ++ [⟨i2, su, 2, true⟩] ++ G1 ++ [⟨i1, su, 1, true⟩]

/-- `tryComplete` on any column made of an arbitrary portion `pre` with a
13-card run window on top: it fires and removes the whole window -
run cards and interleaved face-down cards alike, top of the column first -
leaving exactly `pre`. -/
theorem tryComplete_windowA (pre : List Card) (su i13 i12 i11 i10 i9 i8 i7 i6 i5 i4 i3 i2 i1 : Nat)
    (G12 G11 G10 G9 G8 G7 G6 G5 G4 G3 G2 G1 : List Card)
    (hG12 : ∀ x ∈ G12, x.faceUp = false)
    (hG11 : ∀ x ∈ G11, x.faceUp = false)
    (hG10 : ∀ x ∈ G10, x.faceUp = false)
    (hG9 : ∀ x ∈ G9, x.faceUp = false)
    (hG8 : ∀ x ∈ G8, x.faceUp = false)
    (hG7 : ∀ x ∈ G7, x.faceUp = false)
    (hG6 : ∀ x ∈ G6, x.faceUp = false)
    (hG5 : ∀ x ∈ G5, x.faceUp = false)
    (hG4 : ∀ x ∈ G4, x.faceUp = false)
    (hG3 : ∀ x ∈ G3, x.faceUp = false)
    (hG2 : ∀ x ∈ G2, x.faceUp = false)
    (hG1 : ∀ x ∈ G1, x.faceUp = false) :
    tryComplete (pre ++ windowA su i13 i12 i11 i10 i9 i8 i7 i6 i5 i4 i3 i2 i1 G12 G11 G10 G9 G8 G7 G6 G5 G4 G3 G2 G1) true =
      some ((windowA su i13 i12 i11 i10 i9 i8 i7 i6 i5 i4 i3 i2 i1 G12 G11 G10 G9 G8 G7 G6 G5 G4 G3 G2 G1).reverse, pre) := by
  unfold tryComplete windowA
  dsimp only
  split
  case isFalse hfalse => exact absurd rfl hfalse
  case isTrue =>
    rw [show (pre ++ ([(⟨i13, su, 13, true⟩ : Card)] ++ G12 ++ [(⟨i12, su, 12, true⟩ : Card)] ++ G11 ++ [(⟨i11, su, 11, true⟩ : Card)] ++ G10 ++ [(⟨i10, su, 10, true⟩ : Card)] ++ G9 ++ [(⟨i9, su, 9, true⟩ : Card)] ++ G8 ++ [(⟨i8, su, 8, true⟩ : Card)] ++ G7 ++ [(⟨i7, su, 7, true⟩ : Card)] ++ G6 ++ [(⟨i6, su, 6, true⟩ : Card)] ++ G5 ++ [(⟨i5, su, 5, true⟩ : Card)] ++ G4 ++ [(⟨i4, su, 4, true⟩ : Card)] ++ G3 ++ [(⟨i3, su, 3, true⟩ : Card)] ++ G2 ++ [(⟨i2, su, 2, true⟩ : Card)] ++ G1 ++ [(⟨i1, su, 1, true⟩ : Card)])).length = pre.length + (12 + (G12.length + G11.length + G10.length + G9.length + G8.length + G7.length + G6.length + G5.length + G4.length + G3.length + G2.length + G1.length)) + 1 from by
        simp [List.length_append]
        omega]
    split
    · rename_i hlt
      exfalso
      omega
    · rw [outerScan_succ]
      have hget2 : (pre ++ ([(⟨i13, su, 13, true⟩ : Card)] ++ G12 ++ [(⟨i12, su, 12, true⟩ : Card)] ++ G11 ++ [(⟨i11, su, 11, true⟩ : Card)] ++ G10 ++ [(⟨i10, su, 10, true⟩ : Card)] ++ G9 ++ [(⟨i9, su, 9, true⟩ : Card)] ++ G8 ++ [(⟨i8, su, 8, true⟩ : Card)] ++ G7 ++ [(⟨i7, su, 7, true⟩ : Card)] ++ G6 ++ [(⟨i6, su, 6, true⟩ : Card)] ++ G5 ++ [(⟨i5, su, 5, true⟩ : Card)] ++ G4 ++ [(⟨i4, su, 4, true⟩ : Card)] ++ G3 ++ [(⟨i3, su, 3, true⟩ : Card)] ++ G2 ++ [(⟨i2, su, 2, true⟩ : Card)] ++ G1 ++ [(⟨i1, su, 1, true⟩ : Card)])).getD (pre.length + (12 + (G12.length + G11.length + G10.length + G9.length + G8.length + G7.length + G6.length + G5.length + G4.length + G3.length + G2.length + G1.length))) default =
          (⟨i1, su, 1, true⟩ : Card) := by
        rw [show pre ++ ([(⟨i13, su, 13, true⟩ : Card)] ++ G12 ++ [(⟨i12, su, 12, true⟩ : Card)] ++ G11 ++ [(⟨i11, su, 11, true⟩ : Card)] ++ G10 ++ [(⟨i10, su, 10, true⟩ : Card)] ++ G9 ++ [(⟨i9, su, 9, true⟩ : Card)] ++ G8 ++ [(⟨i8, su, 8, true⟩ : Card)] ++ G7 ++ [(⟨i7, su, 7, true⟩ : Card)] ++ G6 ++ [(⟨i6, su, 6, true⟩ : Card)] ++ G5 ++ [(⟨i5, su, 5, true⟩ : Card)] ++ G4 ++ [(⟨i4, su, 4, true⟩ : Card)] ++ G3 ++ [(⟨i3, su, 3, true⟩ : Card)] ++ G2 ++ [(⟨i2, su, 2, true⟩ : Card)] ++ G1 ++ [(⟨i1, su, 1, true⟩ : Card)]) =
            (pre ++ [(⟨i13, su, 13, true⟩ : Card)] ++ G12 ++ [(⟨i12, su, 12, true⟩ : Card)] ++ G11 ++ [(⟨i11, su, 11, true⟩ : Card)] ++ G10 ++ [(⟨i10, su, 10, true⟩ : Card)] ++ G9 ++ [(⟨i9, su, 9, true⟩ : Card)] ++ G8 ++ [(⟨i8, su, 8, true⟩ : Card)] ++ G7 ++ [(⟨i7, su, 7, true⟩ : Card)] ++ G6 ++ [(⟨i6, su, 6, true⟩ : Card)] ++ G5 ++ [(⟨i5, su, 5, true⟩ : Card)] ++ G4 ++ [(⟨i4, su, 4, true⟩ : Card)] ++ G3 ++ [(⟨i3, su, 3, true⟩ : Card)] ++ G2 ++ [(⟨i2, su, 2, true⟩ : Card)] ++ G1) ++ ((⟨i1, su, 1, true⟩ : Card) :: []) from by
              simp [List.append_assoc],
          show pre.length + (12 + (G12.length + G11.length + G10.length + G9.length + G8.length + G7.length + G6.length + G5.length + G4.length + G3.length + G2.length + G1.length)) = (pre ++ [(⟨i13, su, 13, true⟩ : Card)] ++ G12 ++ [(⟨i12, su, 12, true⟩ : Card)] ++ G11 ++ [(⟨i11, su, 11, true⟩ : Card)] ++ G10 ++ [(⟨i10, su, 10, true⟩ : Card)] ++ G9 ++ [(⟨i9, su, 9, true⟩ : Card)] ++ G8 ++ [(⟨i8, su, 8, true⟩ : Card)] ++ G7 ++ [(⟨i7, su, 7, true⟩ : Card)] ++ G6 ++ [(⟨i6, su, 6, true⟩ : Card)] ++ G5 ++ [(⟨i5, su, 5, true⟩ : Card)] ++ G4 ++ [(⟨i4, su, 4, true⟩ : Card)] ++ G3 ++ [(⟨i3, su, 3, true⟩ : Card)] ++ G2 ++ [(⟨i2, su, 2, true⟩ : Card)] ++ G1).length from by
              simp [List.length_append]
              omega]
        exact getD_at _ _ _
      dsimp only
      rw [hget2]
      dsimp only
      simp only [Bool.not_true, Bool.false_eq_true, if_false]
      rw [show pre ++ ([(⟨i13, su, 13, true⟩ : Card)] ++ G12 ++ [(⟨i12, su, 12, true⟩ : Card)] ++ G11 ++ [(⟨i11, su, 11, true⟩ : Card)] ++ G10 ++ [(⟨i10, su, 10, true⟩ : Card)] ++ G9 ++ [(⟨i9, su, 9, true⟩ : Card)] ++ G8 ++ [(⟨i8, su, 8, true⟩ : Card)] ++ G7 ++ [(⟨i7, su, 7, true⟩ : Card)] ++ G6 ++ [(⟨i6, su, 6, true⟩ : Card)] ++ G5 ++ [(⟨i5, su, 5, true⟩ : Card)] ++ G4 ++ [(⟨i4, su, 4, true⟩ : Card)] ++ G3 ++ [(⟨i3, su, 3, true⟩ : Card)] ++ G2 ++ [(⟨i2, su, 2, true⟩ : Card)] ++ G1 ++ [(⟨i1, su, 1, true⟩ : Card)]) = pre ++ [(⟨i13, su, 13, true⟩ : Card)] ++ G12 ++ [(⟨i12, su, 12, true⟩ : Card)] ++ G11 ++ [(⟨i11, su, 11, true⟩ : Card)] ++ G10 ++ [(⟨i10, su, 10, true⟩ : Card)] ++ G9 ++ [(⟨i9, su, 9, true⟩ : Card)] ++ G8 ++ [(⟨i8, su, 8, true⟩ : Card)] ++ G7 ++ [(⟨i7, su, 7, true⟩ : Card)] ++ G6 ++ [(⟨i6, su, 6, true⟩ : Card)] ++ G5 ++ [(⟨i5, su, 5, true⟩ : Card)] ++ G4 ++ [(⟨i4, su, 4, true⟩ : Card)] ++ G3 ++ [(⟨i3, su, 3, true⟩ : Card)] ++ G2 ++ [(⟨i2, su, 2, true⟩ : Card)] ++ G1 ++ [(⟨i1, su, 1, true⟩ : Card)] from by simp [List.append_assoc]]
      rw [aL1 pre G12 G11 G10 G9 G8 G7 G6 G5 G4 G3 G2 G1 ([(⟨i1, su, 1, true⟩ : Card)]) ([(⟨i1, su, 1, true⟩ : Card)]) _ su i13 i12 i11 i10 i9 i8 i7 i6 i5 i4 i3 i2 hG12 hG11 hG10 hG9 hG8 hG7 hG6 hG5 hG4 hG3 hG2 hG1 rfl (12 + (G12.length + G11.length + G10.length + G9.length + G8.length + G7.length + G6.length + G5.length + G4.length + G3.length + G2.length + G1.length)) rfl]
      dsimp only
      rw [show ([pre.length + (12 + (G12.length + G11.length + G10.length + G9.length + G8.length + G7.length + G6.length + G5.length + G4.length + G3.length + G2.length + G1.length))] ++ decInd pre.length (12 + (G12.length + G11.length + G10.length + G9.length + G8.length + G7.length + G6.length + G5.length + G4.length + G3.length + G2.length + G1.length)) : List Nat) =
          decInd pre.length ((12 + (G12.length + G11.length + G10.length + G9.length + G8.length + G7.length + G6.length + G5.length + G4.length + G3.length + G2.length + G1.length)) + 1) from by
          rw [List.singleton_append, ← decInd_succ]]
      rw [show pre ++ [(⟨i13, su, 13, true⟩ : Card)] ++ G12 ++ [(⟨i12, su, 12, true⟩ : Card)] ++ G11 ++ [(⟨i11, su, 11, true⟩ : Card)] ++ G10 ++ [(⟨i10, su, 10, true⟩ : Card)] ++ G9 ++ [(⟨i9, su, 9, true⟩ : Card)] ++ G8 ++ [(⟨i8, su, 8, true⟩ : Card)] ++ G7 ++ [(⟨i7, su, 7, true⟩ : Card)] ++ G6 ++ [(⟨i6, su, 6, true⟩ : Card)] ++ G5 ++ [(⟨i5, su, 5, true⟩ : Card)] ++ G4 ++ [(⟨i4, su, 4, true⟩ : Card)] ++ G3 ++ [(⟨i3, su, 3, true⟩ : Card)] ++ G2 ++ [(⟨i2, su, 2, true⟩ : Card)] ++ G1 ++ [(⟨i1, su, 1, true⟩ : Card)] = pre ++ ([(⟨i13, su, 13, true⟩ : Card)] ++ G12 ++ [(⟨i12, su, 12, true⟩ : Card)] ++ G11 ++ [(⟨i11, su, 11, true⟩ : Card)] ++ G10 ++ [(⟨i10, su, 10, true⟩ : Card)] ++ G9 ++ [(⟨i9, su, 9, true⟩ : Card)] ++ G8 ++ [(⟨i8, su, 8, true⟩ : Card)] ++ G7 ++ [(⟨i7, su, 7, true⟩ : Card)] ++ G6 ++ [(⟨i6, su, 6, true⟩ : Card)] ++ G5 ++ [(⟨i5, su, 5, true⟩ : Card)] ++ G4 ++ [(⟨i4, su, 4, true⟩ : Card)] ++ G3 ++ [(⟨i3, su, 3, true⟩ : Card)] ++ G2 ++ [(⟨i2, su, 2, true⟩ : Card)] ++ G1 ++ [(⟨i1, su, 1, true⟩ : Card)]) from by simp [List.append_assoc]]
      rw [removeIndices_decInd ([(⟨i13, su, 13, true⟩ : Card)] ++ G12 ++ [(⟨i12, su, 12, true⟩ : Card)] ++ G11 ++ [(⟨i11, su, 11, true⟩ : Card)] ++ G10 ++ [(⟨i10, su, 10, true⟩ : Card)] ++ G9 ++ [(⟨i9, su, 9, true⟩ : Card)] ++ G8 ++ [(⟨i8, su, 8, true⟩ : Card)] ++ G7 ++ [(⟨i7, su, 7, true⟩ : Card)] ++ G6 ++ [(⟨i6, su, 6, true⟩ : Card)] ++ G5 ++ [(⟨i5, su, 5, true⟩ : Card)] ++ G4 ++ [(⟨i4, su, 4, true⟩ : Card)] ++ G3 ++ [(⟨i3, su, 3, true⟩ : Card)] ++ G2 ++ [(⟨i2, su, 2, true⟩ : Card)] ++ G1 ++ [(⟨i1, su, 1, true⟩ : Card)]) pre ((12 + (G12.length + G11.length + G10.length + G9.length + G8.length + G7.length + G6.length + G5.length + G4.length + G3.length + G2.length + G1.length)) + 1)
          (by simp [List.length_append]; omega)]

/-- `completeTopRun` on a successful `tryComplete` whose remaining column has
no face-down top (face-up top or empty): no card is turned, the run goes to
the foundations, the counter increments and the bonus is awarded. -/
theorem completeTopRun_noflip (s : GameState) (c : Nat) (rem col2 : List Card)
    (htop : ∀ t, topCard col2 = some t → t.faceUp = true)
    (h : tryComplete (s.tableau.getD c []) s.includeAces = some (rem, col2)) :
    completeTopRun s c = (true,
      { s with
        tableau := s.tableau.set c col2
        foundationsCards := s.foundationsCards ++ rem
        foundations := s.foundations + 1
        history := .complete c rem none :: s.history
        score := s.score + 100 }) := by
  unfold completeTopRun
  dsimp only
  rw [h]
  have hturn : (match topCard col2 with
      | some t => if !t.faceUp then some { t with faceUp := true } else none
      | none => none) = (none : Option Card) := by
    cases ht : topCard col2 with
    | none => rfl
    | some t =>
      dsimp only
      rw [htop t ht]
      rfl
  dsimp only
  rw [hturn]

set_option maxHeartbeats 1000000 in
/-- **C2** (amended, proved).  Completion detection, in both ace modes, for
every suit, every assignment of card ids, an arbitrary column portion `pre`
below the run and arbitrary blocks of face-down cards interleaved below each
run card inside the scan window:
(1) no-Aces mode: on a column `pre ++ windowNA …` whose top is a face-up
contiguous same-suit K..2 run with interleaved face-down blocks,
`tryComplete` fires and removes the whole window (run cards *and* the
interleaved face-down cards, top of the column first), leaving exactly
`pre` — with all blocks empty this is the clean case where exactly the 12
run cards are removed;
(2) Aces mode: the same for a K..A run (13 cards);
(3) on any successful `tryComplete` whose remaining column ends in a
face-down card, `completeTopRun` flips that card face-up, records it as
`turned`, appends the removed cards to the foundations list, increments
foundations-completed by 1, pushes a `complete` history entry and awards
+100 score;
(4) on any successful `tryComplete` whose remaining column is empty or ends
face-up, `completeTopRun` does the same bookkeeping with `turned = none`. -/
theorem C2_completion_detection :
    (∀ (pre : List Card) (su i13 i12 i11 i10 i9 i8 i7 i6 i5 i4 i3 i2 : Nat)
        (G12 G11 G10 G9 G8 G7 G6 G5 G4 G3 G2 : List Card),
      (∀ x ∈ G12, x.faceUp = false) →
      (∀ x ∈ G11, x.faceUp = false) →
      (∀ x ∈ G10, x.faceUp = false) →
      (∀ x ∈ G9, x.faceUp = false) →
      (∀ x ∈ G8, x.faceUp = false) →
      (∀ x ∈ G7, x.faceUp = false) →
      (∀ x ∈ G6, x.faceUp = false) →
      (∀ x ∈ G5, x.faceUp = false) →
      (∀ x ∈ G4, x.faceUp = false) →
      (∀ x ∈ G3, x.faceUp = false) →
      (∀ x ∈ G2, x.faceUp = false) →
      tryComplete (pre ++ windowNA su i13 i12 i11 i10 i9 i8 i7 i6 i5 i4 i3 i2 G12 G11 G10 G9 G8 G7 G6 G5 G4 G3 G2) false =
        some ((windowNA su i13 i12 i11 i10 i9 i8 i7 i6 i5 i4 i3 i2 G12 G11 G10 G9 G8 G7 G6 G5 G4 G3 G2).reverse, pre)) ∧
    (∀ (pre : List Card) (su i13 i12 i11 i10 i9 i8 i7 i6 i5 i4 i3 i2 i1 : Nat)
        (G12 G11 G10 G9 G8 G7 G6 G5 G4 G3 G2 G1 : List Card),
      (∀ x ∈ G12, x.faceUp = false) →
      (∀ x ∈ G11, x.faceUp = false) →
      (∀ x ∈ G10, x.faceUp = false) →
      (∀ x ∈ G9, x.faceUp = false) →
      (∀ x ∈ G8, x.faceUp = false) →
      (∀ x ∈ G7, x.faceUp = false) →
      (∀ x ∈ G6, x.faceUp = false) →
      (∀ x ∈ G5, x.faceUp = false) →
      (∀ x ∈ G4, x.faceUp = false) →
      (∀ x ∈ G3, x.faceUp = false) →
      (∀ x ∈ G2, x.faceUp = false) →
      (∀ x ∈ G1, x.faceUp = false) →
      tryComplete (pre ++ windowA su i13 i12 i11 i10 i9 i8 i7 i6 i5 i4 i3 i2 i1 G12 G11 G10 G9 G8 G7 G6 G5 G4 G3 G2 G1) true =
        some ((windowA su i13 i12 i11 i10 i9 i8 i7 i6 i5 i4 i3 i2 i1 G12 G11 G10 G9 G8 G7 G6 G5 G4 G3 G2 G1).reverse, pre)) ∧
    (∀ (s : GameState) (c : Nat) (rem L : List Card) (b : Card),
      b.faceUp = false →
      tryComplete (s.tableau.getD c []) s.includeAces = some (rem, L ++ [b]) →
      completeTopRun s c = (true,
        { s with
          tableau := s.tableau.set c (L ++ [{b with faceUp := true}])
          foundationsCards := s.foundationsCards ++ rem
          foundations := s.foundations + 1
          history := .complete c rem (some {b with faceUp := true}) :: s.history
          score := s.score + 100 })) ∧
    (∀ (s : GameState) (c : Nat) (rem col2 : List Card),
      (∀ t, topCard col2 = some t → t.faceUp = true) →
      tryComplete (s.tableau.getD c []) s.includeAces = some (rem, col2) →
      completeTopRun s c = (true,
        { s with
          tableau := s.tableau.set c col2
          foundationsCards := s.foundationsCards ++ rem
          foundations := s.foundations + 1
          history := .complete c rem none :: s.history
          score := s.score + 100 })) :=
  ⟨tryComplete_windowNA, tryComplete_windowA,
   fun s c rem L b hb h => completeTopRun_flip s c rem L b hb h,
   fun s c rem col2 htop h => completeTopRun_noflip s c rem col2 htop h⟩

/-- A concrete state whose column 0 is a face-down card under a clean K..2
run, for the C2 witness (flip case). -/
def c2ws : GameState :=
  { difficulty := "1-suit", seed := "w2", rngState := 0, includeAces := false,
    tableau := [[⟨99, 0, 9, false⟩] ++ windowNA 0 0 1 2 3 4 5 6 7 8 9 10 11 [] [] [] [] [] [] [] [] [] [] []],
    stock := [], dealsRemaining := 0, foundations := 0, foundationsCards := [],
    moves := 0, score := 500, history := [], redoStack := [], won := false }

/-- A concrete state whose column 0 is exactly a clean K..2 run, for the C2
witness (empty-remainder case). -/
def c2wd : GameState :=
  { difficulty := "1-suit", seed := "w3", rngState := 0, includeAces := false,
    tableau := [windowNA 0 0 1 2 3 4 5 6 7 8 9 10 11 [] [] [] [] [] [] [] [] [] [] []],
    stock := [], dealsRemaining := 0, foundations := 0, foundationsCards := [],
    moves := 0, score := 500, history := [], redoStack := [], won := false }

/-- Witness for C2: all four parts of the amended theorem applied at
concrete inputs - a no-Aces window with a face-down card interleaved between
the 8 and the 7 above a face-down foreign card, a clean Aces window, a
column completing onto a face-down card (flipped), and a column completing
to empty (nothing turned). -/
theorem C2_witness :
    (tryComplete ([⟨99, 1, 9, false⟩] ++ windowNA 0 0 1 2 3 4 5 6 7 8 9 10 11 [] [] [] [] [] [⟨100, 0, 5, false⟩] [] [] [] [] []) false =
      some ((windowNA 0 0 1 2 3 4 5 6 7 8 9 10 11 [] [] [] [] [] [⟨100, 0, 5, false⟩] [] [] [] [] []).reverse, [⟨99, 1, 9, false⟩])) ∧
    (tryComplete ([] ++ windowA 2 20 21 22 23 24 25 26 27 28 29 30 31 32 [] [] [] [] [] [] [] [] [] [] [] []) true =
      some ((windowA 2 20 21 22 23 24 25 26 27 28 29 30 31 32 [] [] [] [] [] [] [] [] [] [] [] []).reverse, [])) ∧
    (completeTopRun c2ws 0 = (true,
      { c2ws with
        tableau := c2ws.tableau.set 0 ([] ++ [{(⟨99, 0, 9, false⟩ : Card) with faceUp := true}])
        foundationsCards := c2ws.foundationsCards ++ (windowNA 0 0 1 2 3 4 5 6 7 8 9 10 11 [] [] [] [] [] [] [] [] [] [] []).reverse
        foundations := c2ws.foundations + 1
        history := .complete 0 ((windowNA 0 0 1 2 3 4 5 6 7 8 9 10 11 [] [] [] [] [] [] [] [] [] [] []).reverse)
          (some {(⟨99, 0, 9, false⟩ : Card) with faceUp := true}) :: c2ws.history
        score := c2ws.score + 100 })) ∧
    (completeTopRun c2wd 0 = (true,
      { c2wd with
        tableau := c2wd.tableau.set 0 []
        foundationsCards := c2wd.foundationsCards ++ (windowNA 0 0 1 2 3 4 5 6 7 8 9 10 11 [] [] [] [] [] [] [] [] [] [] []).reverse
        foundations := c2wd.foundations + 1
        history := .complete 0 ((windowNA 0 0 1 2 3 4 5 6 7 8 9 10 11 [] [] [] [] [] [] [] [] [] [] []).reverse) none :: c2wd.history
        score := c2wd.score + 100 })) :=
  ⟨C2_completion_detection.1 [⟨99, 1, 9, false⟩] 0 0 1 2 3 4 5 6 7 8 9 10 11
      [] [] [] [] [] [⟨100, 0, 5, false⟩] [] [] [] [] []
      (by decide) (by decide) (by decide) (by decide) (by decide) (by decide)
      (by decide) (by decide) (by decide) (by decide) (by decide),
   C2_completion_detection.2.1 [] 2 20 21 22 23 24 25 26 27 28 29 30 31 32
      [] [] [] [] [] [] [] [] [] [] [] []
      (by decide) (by decide) (by decide) (by decide) (by decide) (by decide)
      (by decide) (by decide) (by decide) (by decide) (by decide) (by decide),
   C2_completion_detection.2.2.1 c2ws 0 ((windowNA 0 0 1 2 3 4 5 6 7 8 9 10 11 [] [] [] [] [] [] [] [] [] [] []).reverse) []
      ⟨99, 0, 9, false⟩ rfl (by decide),
   C2_completion_detection.2.2.2 c2wd 0 ((windowNA 0 0 1 2 3 4 5 6 7 8 9 10 11 [] [] [] [] [] [] [] [] [] [] []).reverse) []
      (fun t ht => nomatch ht) (by decide)⟩


/-! ## C3: redo immediately after undo -/

theorem findIdx_id_concat (tc : Card) (M : List Card) :
    ∀ (L : List Card) (i : Nat), (∀ x ∈ L, x.id ≠ tc.id) →
      List.findIdx? (fun c => c.id == tc.id) (L ++ tc :: M) i = some (L.length + i) := by
  intro L
  induction L with
  | nil =>
    intro i _
    rw [List.nil_append, List.findIdx?_cons, if_pos (by simp)]
    simp
  | cons x R ih =>
    intro i hL
    rw [List.cons_append, List.findIdx?_cons, if_neg (by simp [hL x (by simp)]),
      ih (i + 1) (fun y hy => hL y (by simp [hy]))]
    congr 1
    simp
    omega

theorem setFaceById_concat (L M : List Card) (tc : Card) (b : Bool)
    (hL : ∀ x ∈ L, x.id ≠ tc.id) :
    setFaceById (L ++ tc :: M) tc.id b = L ++ {tc with faceUp := b} :: M := by
  unfold setFaceById
  rw [findIdx_id_concat tc M L 0 hL]
  dsimp only
  have hget : (L ++ tc :: M).getD (L.length + 0) default = tc := by
    rw [Nat.add_zero, List.getD_eq_getElem _ _ (by simp),
      List.getElem_append_right (le_refl _)]
    simp
  rw [hget, Nat.add_zero, List.set_append, if_neg (by omega)]
  simp

theorem set_getD_self_nil (l : List (List Card)) (i : Nat) (hi : i < l.length) :
    l.set i (l.getD i []) = l := set_getD_self l i hi

theorem C3_move_part (s : GameState) (f t : Nat) (moved : List Card)
    (turned : Option Card) (rest : List HistEntry)
    (hhist : s.history = .move f t moved turned :: rest)
    (hft : f ≠ t) (hf : f < s.tableau.length) (ht : t < s.tableau.length)
    (hpre : ∃ pre, s.tableau.getD t [] = pre ++ moved)
    (hturn : turned = none ∨ ∃ L tc, turned = some tc ∧
      s.tableau.getD f [] = L ++ [tc] ∧ tc.faceUp = true ∧ ∀ x ∈ L, x.id ≠ tc.id) :
    redo (undo s) = { s with moves := s.moves + 2 } := by
  obtain ⟨pre, hpreq⟩ := hpre
  rcases hturn with hnone | ⟨L, tc, hsome, hfcol, htc, hL⟩
  · subst hnone
    have hundo : undo s =
        { s with
          history := rest
          tableau := (s.tableau.set t pre).set f (s.tableau.getD f [] ++ moved)
          redoStack := .move f t moved none :: s.redoStack
          moves := s.moves + 1 } := by
      unfold undo
      rw [hhist]
      dsimp only
      rw [hpreq, jsSplice_suffix]
      dsimp only
      rw [getD_set_ne _ _ _ _ _ (Ne.symm hft)]
    rw [hundo]
    unfold redo
    dsimp only
    rw [getD_set_eq _ _ _ _ (by rw [List.length_set]; exact hf), jsSplice_suffix]
    dsimp only
    rw [List.set_set, getD_set_ne _ _ _ _ _ hft, getD_set_eq _ _ _ _ ht]
    rw [List.set_comm _ _ _ hft, List.set_set, ← hpreq,
      set_getD_self_nil _ _ ht, set_getD_self_nil _ _ hf]
    rw [← hhist]
  · subst hsome
    have hundo : undo s =
        { s with
          history := rest
          tableau := (s.tableau.set t pre).set f
            (L ++ ({tc with faceUp := false}) :: moved)
          redoStack := .move f t moved (some tc) :: s.redoStack
          moves := s.moves + 1 } := by
      unfold undo
      rw [hhist]
      dsimp only
      rw [hpreq, jsSplice_suffix]
      dsimp only
      rw [getD_set_ne _ _ _ _ _ (Ne.symm hft), hfcol, List.append_assoc,
        List.singleton_append, setFaceById_concat _ _ _ _ hL]
    rw [hundo]
    unfold redo
    dsimp only
    rw [getD_set_eq _ _ _ _ (by rw [List.length_set]; exact hf)]
    have hsplit : L ++ ({tc with faceUp := false}) :: moved =
        (L ++ [{tc with faceUp := false}]) ++ moved := by
      rw [List.append_assoc, List.singleton_append]
    rw [hsplit, jsSplice_suffix]
    dsimp only
    rw [setFaceById_concat L [] {tc with faceUp := false} true (by simpa using hL)]
    dsimp only
    rw [List.set_set, getD_set_ne _ _ _ _ _ hft, getD_set_eq _ _ _ _ ht]
    have heta : ({({tc with faceUp := false} : Card) with faceUp := true} : Card) = tc := by
      cases tc with
      | mk i su r fu => cases htc; rfl
    rw [heta, ← hfcol]
    rw [List.set_comm _ _ _ hft, List.set_set, ← hpreq,
      set_getD_self_nil _ _ ht, set_getD_self_nil _ _ hf]
    rw [← hhist]

theorem card_reflip (b : Card) (h : b.faceUp = true) :
    ({({b with faceUp := false} : Card) with faceUp := true} : Card) = b := by
  cases b with
  | mk i s r f => cases h; rfl

theorem C3_deal_part (s : GameState) (dealt : List Card) (rest : List HistEntry)
    (hhist : s.history = .deal dealt :: rest)
    (L0 L1 L2 L3 L4 L5 L6 L7 L8 L9 : List Card) (b0 b1 b2 b3 b4 b5 b6 b7 b8 b9 : Card)
    (hb0 : b0.faceUp = true)
    (hb1 : b1.faceUp = true)
    (hb2 : b2.faceUp = true)
    (hb3 : b3.faceUp = true)
    (hb4 : b4.faceUp = true)
    (hb5 : b5.faceUp = true)
    (hb6 : b6.faceUp = true)
    (hb7 : b7.faceUp = true)
    (hb8 : b8.faceUp = true)
    (hb9 : b9.faceUp = true)
    (hT : s.tableau = [L0 ++ [b0], L1 ++ [b1], L2 ++ [b2], L3 ++ [b3], L4 ++ [b4], L5 ++ [b5], L6 ++ [b6], L7 ++ [b7], L8 ++ [b8], L9 ++ [b9]]) :
    redo (undo s) = { s with moves := s.moves + 2 } := by
  unfold undo
  rw [hhist]
  dsimp only
  rw [hT]
  unfold undoDealLoop
  dsimp only
  simp only [List.getD_cons_zero, List.getD_cons_succ, List.getLast?_concat,
    List.dropLast_concat, List.set_cons_zero, List.set_cons_succ]
  unfold undoDealLoop
  dsimp only
  simp only [List.getD_cons_zero, List.getD_cons_succ, List.getLast?_concat,
    List.dropLast_concat, List.set_cons_zero, List.set_cons_succ]
  unfold undoDealLoop
  dsimp only
  simp only [List.getD_cons_zero, List.getD_cons_succ, List.getLast?_concat,
    List.dropLast_concat, List.set_cons_zero, List.set_cons_succ]
  unfold undoDealLoop
  dsimp only
  simp only [List.getD_cons_zero, List.getD_cons_succ, List.getLast?_concat,
    List.dropLast_concat, List.set_cons_zero, List.set_cons_succ]
  unfold undoDealLoop
  dsimp only
  simp only [List.getD_cons_zero, List.getD_cons_succ, List.getLast?_concat,
    List.dropLast_concat, List.set_cons_zero, List.set_cons_succ]
  unfold undoDealLoop
  dsimp only
  simp only [List.getD_cons_zero, List.getD_cons_succ, List.getLast?_concat,
    List.dropLast_concat, List.set_cons_zero, List.set_cons_succ]
  unfold undoDealLoop
  dsimp only
  simp only [List.getD_cons_zero, List.getD_cons_succ, List.getLast?_concat,
    List.dropLast_concat, List.set_cons_zero, List.set_cons_succ]
  unfold undoDealLoop
  dsimp only
  simp only [List.getD_cons_zero, List.getD_cons_succ, List.getLast?_concat,
    List.dropLast_concat, List.set_cons_zero, List.set_cons_succ]
  unfold undoDealLoop
  dsimp only
  simp only [List.getD_cons_zero, List.getD_cons_succ, List.getLast?_concat,
    List.dropLast_concat, List.set_cons_zero, List.set_cons_succ]
  unfold undoDealLoop
  dsimp only
  simp only [List.getD_cons_zero, List.getD_cons_succ, List.getLast?_concat,
    List.dropLast_concat, List.set_cons_zero, List.set_cons_succ]
  unfold undoDealLoop
  unfold redo
  dsimp only
  unfold redoDealLoop
  dsimp only
  simp only [List.getD_cons_zero, List.getD_cons_succ, List.set_cons_zero,
    List.set_cons_succ, card_reflip b0 hb0, card_reflip b1 hb1, card_reflip b2 hb2, card_reflip b3 hb3, card_reflip b4 hb4, card_reflip b5 hb5, card_reflip b6 hb6, card_reflip b7 hb7, card_reflip b8 hb8, card_reflip b9 hb9]
  unfold redoDealLoop
  dsimp only
  simp only [List.getD_cons_zero, List.getD_cons_succ, List.set_cons_zero,
    List.set_cons_succ, card_reflip b0 hb0, card_reflip b1 hb1, card_reflip b2 hb2, card_reflip b3 hb3, card_reflip b4 hb4, card_reflip b5 hb5, card_reflip b6 hb6, card_reflip b7 hb7, card_reflip b8 hb8, card_reflip b9 hb9]
  unfold redoDealLoop
  dsimp only
  simp only [List.getD_cons_zero, List.getD_cons_succ, List.set_cons_zero,
    List.set_cons_succ, card_reflip b0 hb0, card_reflip b1 hb1, card_reflip b2 hb2, card_reflip b3 hb3, card_reflip b4 hb4, card_reflip b5 hb5, card_reflip b6 hb6, card_reflip b7 hb7, card_reflip b8 hb8, card_reflip b9 hb9]
  unfold redoDealLoop
  dsimp only
  simp only [List.getD_cons_zero, List.getD_cons_succ, List.set_cons_zero,
    List.set_cons_succ, card_reflip b0 hb0, card_reflip b1 hb1, card_reflip b2 hb2, card_reflip b3 hb3, card_reflip b4 hb4, card_reflip b5 hb5, card_reflip b6 hb6, card_reflip b7 hb7, card_reflip b8 hb8, card_reflip b9 hb9]
  unfold redoDealLoop
  dsimp only
  simp only [List.getD_cons_zero, List.getD_cons_succ, List.set_cons_zero,
    List.set_cons_succ, card_reflip b0 hb0, card_reflip b1 hb1, card_reflip b2 hb2, card_reflip b3 hb3, card_reflip b4 hb4, card_reflip b5 hb5, card_reflip b6 hb6, card_reflip b7 hb7, card_reflip b8 hb8, card_reflip b9 hb9]
  unfold redoDealLoop
  dsimp only
  simp only [List.getD_cons_zero, List.getD_cons_succ, List.set_cons_zero,
    List.set_cons_succ, card_reflip b0 hb0, card_reflip b1 hb1, card_reflip b2 hb2, card_reflip b3 hb3, card_reflip b4 hb4, card_reflip b5 hb5, card_reflip b6 hb6, card_reflip b7 hb7, card_reflip b8 hb8, card_reflip b9 hb9]
  unfold redoDealLoop
  dsimp only
  simp only [List.getD_cons_zero, List.getD_cons_succ, List.set_cons_zero,
    List.set_cons_succ, card_reflip b0 hb0, card_reflip b1 hb1, card_reflip b2 hb2, card_reflip b3 hb3, card_reflip b4 hb4, card_reflip b5 hb5, card_reflip b6 hb6, card_reflip b7 hb7, card_reflip b8 hb8, card_reflip b9 hb9]
  unfold redoDealLoop
  dsimp only
  simp only [List.getD_cons_zero, List.getD_cons_succ, List.set_cons_zero,
    List.set_cons_succ, card_reflip b0 hb0, card_reflip b1 hb1, card_reflip b2 hb2, card_reflip b3 hb3, card_reflip b4 hb4, card_reflip b5 hb5, card_reflip b6 hb6, card_reflip b7 hb7, card_reflip b8 hb8, card_reflip b9 hb9]
  unfold redoDealLoop
  dsimp only
  simp only [List.getD_cons_zero, List.getD_cons_succ, List.set_cons_zero,
    List.set_cons_succ, card_reflip b0 hb0, card_reflip b1 hb1, card_reflip b2 hb2, card_reflip b3 hb3, card_reflip b4 hb4, card_reflip b5 hb5, card_reflip b6 hb6, card_reflip b7 hb7, card_reflip b8 hb8, card_reflip b9 hb9]
  unfold redoDealLoop
  dsimp only
  simp only [List.getD_cons_zero, List.getD_cons_succ, List.set_cons_zero,
    List.set_cons_succ, card_reflip b0 hb0, card_reflip b1 hb1, card_reflip b2 hb2, card_reflip b3 hb3, card_reflip b4 hb4, card_reflip b5 hb5, card_reflip b6 hb6, card_reflip b7 hb7, card_reflip b8 hb8, card_reflip b9 hb9]
  unfold redoDealLoop
  rw [← hT, ← hhist]
  simp

/-- **C3** (amended, proved).  `redo()` immediately after `undo()` restores
the full engine state - card positions, face-up flags, score, stock,
`dealsRemaining`, foundations, history and redo stack - except that the move
counter ends 2 higher than before the undo (each of `undo` and `redo` does
`state.moves++`), for the two history-entry kinds shown: a recorded `move`
(the recorded cards sit on top of the target column, and a recorded turned
card was the face-up top of the source column with a unique id there) and a
recorded full-row `deal` (10 columns, each non-empty with a face-up top).
In both cases `redo (undo s) = s` except `moves := s.moves + 2`. -/
theorem C3_redo_after_undo :
    (∀ (s : GameState) (f t : Nat) (moved : List Card) (turned : Option Card)
        (rest : List HistEntry),
      s.history = .move f t moved turned :: rest → f ≠ t →
      f < s.tableau.length → t < s.tableau.length →
      (∃ pre, s.tableau.getD t [] = pre ++ moved) →
      (turned = none ∨ ∃ L tc, turned = some tc ∧
        s.tableau.getD f [] = L ++ [tc] ∧ tc.faceUp = true ∧ ∀ x ∈ L, x.id ≠ tc.id) →
      redo (undo s) = { s with moves := s.moves + 2 }) ∧
    (∀ (s : GameState) (dealt : List Card) (rest : List HistEntry)
        (L0 L1 L2 L3 L4 L5 L6 L7 L8 L9 : List Card)
        (b0 b1 b2 b3 b4 b5 b6 b7 b8 b9 : Card),
      s.history = .deal dealt :: rest →
      b0.faceUp = true → b1.faceUp = true → b2.faceUp = true → b3.faceUp = true →
      b4.faceUp = true → b5.faceUp = true → b6.faceUp = true → b7.faceUp = true →
      b8.faceUp = true → b9.faceUp = true →
      s.tableau = [L0 ++ [b0], L1 ++ [b1], L2 ++ [b2], L3 ++ [b3], L4 ++ [b4], L5 ++ [b5], L6 ++ [b6], L7 ++ [b7], L8 ++ [b8], L9 ++ [b9]] →
      redo (undo s) = { s with moves := s.moves + 2 }) :=
  ⟨C3_move_part,
   fun s dealt rest L0 L1 L2 L3 L4 L5 L6 L7 L8 L9 b0 b1 b2 b3 b4 b5 b6 b7 b8 b9
       hh hb0 hb1 hb2 hb3 hb4 hb5 hb6 hb7 hb8 hb9 hT =>
     C3_deal_part s dealt rest hh L0 L1 L2 L3 L4 L5 L6 L7 L8 L9
       b0 b1 b2 b3 b4 b5 b6 b7 b8 b9 hb0 hb1 hb2 hb3 hb4 hb5 hb6 hb7 hb8 hb9 hT⟩

/-- A 2-column state whose history records one card moved from column 0's
top onto column 1, with no card turned. -/
def c3wA : GameState :=
  { difficulty := "1-suit", seed := "w", rngState := 0, includeAces := false,
    tableau := [[⟨1, 0, 5, true⟩], [⟨3, 0, 6, true⟩, ⟨2, 0, 4, true⟩]],
    stock := [], dealsRemaining := 5, foundations := 0, foundationsCards := [],
    moves := 3, score := 497, history := [.move 0 1 [⟨2, 0, 4, true⟩] none],
    redoStack := [], won := false }

/-- A 10-column state whose history records a full-row deal; every column
has a single face-up card. -/
def c3wB : GameState :=
  { difficulty := "1-suit", seed := "w", rngState := 0, includeAces := false,
    tableau := [[⟨0, 0, 13, true⟩], [⟨1, 0, 13, true⟩], [⟨2, 0, 13, true⟩],
      [⟨3, 0, 13, true⟩], [⟨4, 0, 13, true⟩], [⟨5, 0, 13, true⟩],
      [⟨6, 0, 13, true⟩], [⟨7, 0, 13, true⟩], [⟨8, 0, 13, true⟩],
      [⟨9, 0, 13, true⟩]],
    stock := [], dealsRemaining := 4, foundations := 0, foundationsCards := [],
    moves := 7, score := 495, history := [.deal []],
    redoStack := [], won := false }

/-- Witness for C3: the amended theorem applied at a concrete recorded move
and at a concrete recorded deal, all hypotheses discharged on the spot. -/
theorem C3_witness :
    redo (undo c3wA) = { c3wA with moves := c3wA.moves + 2 } ∧
    redo (undo c3wB) = { c3wB with moves := c3wB.moves + 2 } :=
  ⟨C3_redo_after_undo.1 c3wA 0 1 [⟨2, 0, 4, true⟩] none [] rfl (by decide)
      (by decide) (by decide) ⟨[⟨3, 0, 6, true⟩], rfl⟩ (Or.inl rfl),
   C3_redo_after_undo.2 c3wB [] [] [] [] [] [] [] [] [] [] [] []
      ⟨0, 0, 13, true⟩ ⟨1, 0, 13, true⟩ ⟨2, 0, 13, true⟩ ⟨3, 0, 13, true⟩
      ⟨4, 0, 13, true⟩ ⟨5, 0, 13, true⟩ ⟨6, 0, 13, true⟩ ⟨7, 0, 13, true⟩
      ⟨8, 0, 13, true⟩ ⟨9, 0, 13, true⟩ rfl rfl rfl rfl rfl rfl rfl rfl rfl rfl
      rfl rfl⟩


/-! ## C9: inventory verification on a fresh game -/

/-- Forget the `faceUp` flag; the inventory check reads only `id`, `suit`
and `rank`, while `initialDeal` flips top cards face-up. -/
def strip (c : Card) : Card := { c with faceUp := false }

/-- The three `place` folds of `verifyInventory` merged over one list of
(card, location) pairs. -/
def invFold : InvAcc → List (Card × Nat) → InvAcc
  | a, [] => a
  | a, (c, loc) :: r => invFold (invPlace a c loc) r

theorem invFold_append (x y : List (Card × Nat)) :
    ∀ a : InvAcc, invFold a (x ++ y) = invFold (invFold a x) y := by
  induction x with
  | nil => intro a; rfl
  | cons p r ih =>
    intro a
    obtain ⟨c, loc⟩ := p
    rw [List.cons_append, invFold, invFold, ih]

theorem foldl_loc_eq_invFold (l : List Card) (loc : Nat) :
    ∀ a : InvAcc,
      l.foldl (fun a c => invPlace a c loc) a = invFold a (l.map (fun c => (c, loc))) := by
  induction l with
  | nil => intro a; rfl
  | cons c r ih => intro a; rw [List.foldl_cons, List.map_cons, invFold, ih]

theorem tabFold_eq_invFold (cols : List (List Card)) :
    ∀ a : InvAcc,
      cols.foldl (fun a col => col.foldl (fun a c => invPlace a c 0) a) a =
        invFold a (cols.flatten.map (fun c => (c, 0))) := by
  induction cols with
  | nil => intro a; rfl
  | cons col r ih =>
    intro a
    rw [List.foldl_cons, ih, List.flatten_cons, List.map_append, invFold_append,
      foldl_loc_eq_invFold]

theorem invPlace_suitCounts (a : InvAcc) (c : Card) (loc : Nat) :
    (invPlace a c loc).suitCounts = bumpCount a.suitCounts c.suit := by
  unfold invPlace
  dsimp only
  split <;> rfl

theorem invPlace_rankCounts (a : InvAcc) (c : Card) (loc : Nat) :
    (invPlace a c loc).rankCounts = bumpCount a.rankCounts c.rank := by
  unfold invPlace
  dsimp only
  split <;> rfl

theorem invPlace_total (a : InvAcc) (c : Card) (loc : Nat) :
    (invPlace a c loc).total = a.total + 1 := by
  unfold invPlace
  dsimp only
  split <;> rfl

theorem invPlace_sCount (a : InvAcc) (c : Card) (loc : Nat) :
    (invPlace a c loc).sCount = if loc == 1 then a.sCount + 1 else a.sCount := by
  unfold invPlace
  dsimp only
  split <;> split <;> rfl

theorem invPlace_fCount (a : InvAcc) (c : Card) (loc : Nat) :
    (invPlace a c loc).fCount = if loc == 2 then a.fCount + 1 else a.fCount := by
  unfold invPlace
  dsimp only
  split <;> split <;> rfl

theorem invPlace_seen_not_mem (a : InvAcc) (c : Card) (loc : Nat) (h : c.id ∉ a.seen) :
    (invPlace a c loc).seen = a.seen ++ [c.id] ∧
    (invPlace a c loc).duplicates = a.duplicates := by
  unfold invPlace
  dsimp only
  rw [if_neg (by simpa using h)]
  exact ⟨rfl, rfl⟩

theorem lookupCount_bumpCount (k j : Nat) (m : List (Nat × Nat)) :
    lookupCount (bumpCount m k) j = lookupCount m j + if j = k then 1 else 0 := by
  induction m with
  | nil =>
    simp only [bumpCount, lookupCount]
    split_ifs <;> omega
  | cons p r ih =>
    obtain ⟨a, v⟩ := p
    by_cases h : a = k
    · subst h
      simp only [bumpCount, if_pos rfl, lookupCount]
      split_ifs <;> omega
    · simp only [bumpCount, if_neg h, lookupCount, ih]
      split_ifs <;> omega

theorem keys_bumpCount (m : List (Nat × Nat)) (k : Nat) :
    (bumpCount m k).map Prod.fst =
      if k ∈ m.map Prod.fst then m.map Prod.fst else m.map Prod.fst ++ [k] := by
  induction m with
  | nil => simp [bumpCount]
  | cons p r ih =>
    obtain ⟨a, v⟩ := p
    by_cases h : a = k
    · subst h
      simp [bumpCount]
    · have hka : ¬ k = a := fun hh => h hh.symm
      simp only [bumpCount, if_neg h, List.map_cons, ih, List.mem_cons]
      by_cases hk : k ∈ r.map Prod.fst
      · rw [if_pos hk, if_pos (Or.inr hk)]
      · rw [if_neg hk, if_neg (by rintro (hh | hh) <;> [exact hka hh; exact hk hh]),
          List.cons_append]

theorem invFold_total (l : List (Card × Nat)) :
    ∀ a : InvAcc, (invFold a l).total = a.total + l.length := by
  induction l with
  | nil => intro a; rfl
  | cons p r ih =>
    intro a
    obtain ⟨c, loc⟩ := p
    rw [invFold, ih, invPlace_total, List.length_cons]
    omega

theorem invFold_sCount (l : List (Card × Nat)) :
    ∀ a : InvAcc,
      (invFold a l).sCount = a.sCount + l.countP (fun p => p.2 == 1) := by
  induction l with
  | nil => intro a; rfl
  | cons p r ih =>
    intro a
    obtain ⟨c, loc⟩ := p
    rw [invFold, ih, invPlace_sCount, List.countP_cons]
    dsimp only
    split_ifs with h1 <;> simp_all <;> omega

theorem invFold_fCount (l : List (Card × Nat)) :
    ∀ a : InvAcc,
      (invFold a l).fCount = a.fCount + l.countP (fun p => p.2 == 2) := by
  induction l with
  | nil => intro a; rfl
  | cons p r ih =>
    intro a
    obtain ⟨c, loc⟩ := p
    rw [invFold, ih, invPlace_fCount, List.countP_cons]
    dsimp only
    split_ifs with h1 <;> simp_all <;> omega

theorem invFold_suit (l : List (Card × Nat)) (k : Nat) :
    ∀ a : InvAcc,
      lookupCount (invFold a l).suitCounts k =
        lookupCount a.suitCounts k + (l.map (fun p => p.1.suit)).count k := by
  induction l with
  | nil => intro a; rfl
  | cons p r ih =>
    intro a
    obtain ⟨c, loc⟩ := p
    rw [invFold, ih, invPlace_suitCounts, lookupCount_bumpCount, List.map_cons,
      List.count_cons]
    simp only [beq_iff_eq]
    split_ifs <;> omega

theorem invFold_rank (l : List (Card × Nat)) (k : Nat) :
    ∀ a : InvAcc,
      lookupCount (invFold a l).rankCounts k =
        lookupCount a.rankCounts k + (l.map (fun p => p.1.rank)).count k := by
  induction l with
  | nil => intro a; rfl
  | cons p r ih =>
    intro a
    obtain ⟨c, loc⟩ := p
    rw [invFold, ih, invPlace_rankCounts, lookupCount_bumpCount, List.map_cons,
      List.count_cons]
    simp only [beq_iff_eq]
    split_ifs <;> omega

theorem invFold_suitKeys_mem (l : List (Card × Nat)) (j : Nat) :
    ∀ a : InvAcc,
      (j ∈ ((invFold a l).suitCounts.map Prod.fst) ↔
        j ∈ a.suitCounts.map Prod.fst ∨ j ∈ l.map (fun p => p.1.suit)) := by
  induction l with
  | nil => intro a; simp [invFold]
  | cons p r ih =>
    intro a
    obtain ⟨c, loc⟩ := p
    rw [invFold, ih, invPlace_suitCounts, keys_bumpCount, List.map_cons, List.mem_cons]
    by_cases hc : c.suit ∈ a.suitCounts.map Prod.fst
    · rw [if_pos hc]
      constructor
      · rintro (h | h)
        · exact Or.inl h
        · exact Or.inr (Or.inr h)
      · rintro (h | h | h)
        · exact Or.inl h
        · subst h; exact Or.inl hc
        · exact Or.inr h
    · rw [if_neg hc]
      simp only [List.mem_append, List.mem_singleton]
      constructor
      · rintro ((h | h) | h)
        · exact Or.inl h
        · subst h; exact Or.inr (Or.inl rfl)
        · exact Or.inr (Or.inr h)
      · rintro (h | h | h)
        · exact Or.inl (Or.inl h)
        · subst h; exact Or.inl (Or.inr rfl)
        · exact Or.inr h

theorem invFold_suitKeys_nodup (l : List (Card × Nat)) :
    ∀ a : InvAcc, (a.suitCounts.map Prod.fst).Nodup →
      ((invFold a l).suitCounts.map Prod.fst).Nodup := by
  induction l with
  | nil => intro a h; exact h
  | cons p r ih =>
    intro a h
    obtain ⟨c, loc⟩ := p
    rw [invFold]
    apply ih
    rw [invPlace_suitCounts, keys_bumpCount]
    by_cases hc : c.suit ∈ a.suitCounts.map Prod.fst
    · rw [if_pos hc]; exact h
    · rw [if_neg hc]
      exact h.append (List.nodup_singleton _)
        (by simp only [List.disjoint_singleton]; exact hc)

theorem invFold_duplicates (l : List (Card × Nat)) :
    ∀ a : InvAcc, a.duplicates = [] →
      (a.seen ++ l.map (fun p => p.1.id)).Nodup →
      (invFold a l).duplicates = [] ∧
      (invFold a l).seen = a.seen ++ l.map (fun p => p.1.id) := by
  induction l with
  | nil =>
    intro a hd _
    exact ⟨hd, by simp [invFold]⟩
  | cons p r ih =>
    intro a hd hn
    obtain ⟨c, loc⟩ := p
    rw [List.map_cons] at hn
    have hdisj := List.disjoint_of_nodup_append hn
    have hcid : c.id ∉ a.seen := fun hmem =>
      hdisj hmem (List.mem_cons_self _ _)
    obtain ⟨hseen, hdup⟩ := invPlace_seen_not_mem a c loc hcid
    rw [invFold]
    have hn2 : ((invPlace a c loc).seen ++ r.map (fun p => p.1.id)).Nodup := by
      rw [hseen, List.append_assoc, List.singleton_append]
      exact hn
    obtain ⟨h1, h2⟩ := ih (invPlace a c loc) (hdup.trans hd) hn2
    refine ⟨h1, ?_⟩
    rw [h2, hseen, List.append_assoc, List.singleton_append, List.map_cons]

theorem flatten_set_append (cols : List (List Card)) (c : Nat) (x : Card) :
    c < cols.length →
      ((cols.set c (cols.getD c [] ++ [x])).flatten).Perm (cols.flatten ++ [x]) := by
  induction cols generalizing c with
  | nil => intro h; cases h
  | cons col r ih =>
    intro h
    cases c with
    | zero =>
      rw [List.getD_cons_zero, List.set_cons_zero, List.flatten_cons, List.flatten_cons,
        List.append_assoc, List.append_assoc]
      exact List.Perm.append_left col List.perm_append_comm
    | succ c' =>
      rw [List.getD_cons_succ, List.set_cons_succ, List.flatten_cons, List.flatten_cons,
        List.append_assoc]
      exact List.Perm.append_left col (ih c' (Nat.lt_of_succ_lt_succ h))

theorem dealLoop_flatten_perm (slots : List Nat) :
    ∀ (cards : List Card) (cols : List (List Card)),
      (∀ c ∈ slots, c < cols.length) → cards.length ≤ slots.length →
      ((dealLoop slots cards cols).flatten).Perm (cols.flatten ++ cards) := by
  induction slots with
  | nil =>
    intro cards cols _ hlen
    have hc : cards = [] := List.eq_nil_of_length_eq_zero (Nat.le_zero.mp hlen)
    subst hc
    rw [dealLoop, List.append_nil]
  | cons s ss ih =>
    intro cards cols hmem hlen
    cases cards with
    | nil => rw [dealLoop, List.append_nil]
    | cons card rest =>
      rw [dealLoop]
      have hs : s < cols.length := hmem s (List.mem_cons_self _ _)
      have h1 := ih rest (cols.set s (cols.getD s [] ++ [card]))
        (fun c hc => by rw [List.length_set]; exact hmem c (List.mem_cons_of_mem _ hc))
        (by rw [List.length_cons, List.length_cons] at hlen; exact Nat.le_of_succ_le_succ hlen)
      refine h1.trans ?_
      have h2 := (flatten_set_append cols s card hs).append_right rest
      refine h2.trans ?_
      rw [List.append_assoc, List.singleton_append]

theorem strip_flipLast (col : List Card) :
    (flipLast col).map strip = col.map strip := by
  rcases List.eq_nil_or_concat col with h | ⟨l, a, h⟩
  · subst h; rfl
  · subst h
    rw [List.concat_eq_append, flipLast_concat, List.map_append, List.map_append]
    rfl

theorem map_strip_of_faceDown (l : List Card) (h : ∀ c ∈ l, c.faceUp = false) :
    l.map strip = l := by
  induction l with
  | nil => rfl
  | cons c r ih =>
    rw [List.map_cons, ih (fun x hx => h x (List.mem_cons_of_mem _ hx))]
    have hc := h c (List.mem_cons_self _ _)
    cases c with
    | mk i s rr f => cases hc; rfl

theorem flipLast_top (col : List Card) (t : Card)
    (h : (flipLast col).getLast? = some t) : t.faceUp = true := by
  rcases List.eq_nil_or_concat col with hnil | ⟨l, a, hc⟩
  · subst hnil; cases h
  · subst hc
    rw [List.concat_eq_append, flipLast_concat, List.getLast?_concat] at h
    cases h
    rfl

theorem initialDeal_tableau_eq (dk : List Card) (a : Nat) :
    (initialDeal dk a).1 =
      (dealLoop slotOrder ((shuffleJS dk a).1.drop 50)
        (List.replicate 10 [])).map flipLast := rfl

theorem initialDeal_stock_eq (dk : List Card) (a : Nat) :
    (initialDeal dk a).2.1 = (shuffleJS dk a).1.take 50 := rfl

theorem newGame_difficulty (d seed : String) (ia : Bool) (fc : List Card) :
    (newGame d seed ia fc).difficulty = canonDiff d := rfl

theorem newGame_includeAces (d seed : String) (ia : Bool) (fc : List Card) :
    (newGame d seed ia fc).includeAces = ia := rfl

theorem newGame_foundationsCards (d seed : String) (ia : Bool) (fc : List Card) :
    (newGame d seed ia fc).foundationsCards = fc := rfl

theorem newGame_foundations (d seed : String) (ia : Bool) (fc : List Card) :
    (newGame d seed ia fc).foundations = 0 := rfl

theorem newGame_dealsRemaining (d seed : String) (ia : Bool) (fc : List Card) :
    (newGame d seed ia fc).dealsRemaining = 5 := rfl

theorem slotOrder_lt (c : Nat) (hc : c ∈ slotOrder) : c < 10 := by
  revert c hc
  decide

theorem slotOrder_length : slotOrder.length = 54 := by decide

theorem newGame_stock_length (d seed : String) (ia : Bool) (fc : List Card) :
    (newGame d seed ia fc).stock.length = 50 := by
  rw [newGame_stock, initialDeal_stock_eq, List.length_take]
  have h1 := (shuffleJS_perm (createDeck (canonDiff d) ia)
      (hashSeed (canonDiff d ++ ":" ++ seed))).length_eq
  have h2 := (shuffleJS_perm (shuffleJS (createDeck (canonDiff d) ia)
        (hashSeed (canonDiff d ++ ":" ++ seed))).1
      (shuffleJS (createDeck (canonDiff d) ia)
        (hashSeed (canonDiff d ++ ":" ++ seed))).2).length_eq
  rw [h2, h1, createDeck_length]
  cases ia <;> norm_num

theorem newGame_top_faceUp (d seed : String) (ia : Bool) (fc : List Card) :
    ∀ col ∈ (newGame d seed ia fc).tableau, ∀ t, col.getLast? = some t →
      t.faceUp = true := by
  intro col hcol t ht
  rw [newGame_tableau, initialDeal_tableau_eq] at hcol
  obtain ⟨c0, hc0, hcol⟩ := List.mem_map.mp hcol
  subst hcol
  exact flipLast_top c0 t ht

/-- The multiset of cards (up to the `faceUp` flag) on the table right after
`newGame` is exactly the constructed deck: tableau plus stock is a
permutation of `createDeck`. -/
theorem newGame_strip_perm (d seed : String) (ia : Bool) (fc : List Card) :
    ((((newGame d seed ia fc).tableau.flatten ++ (newGame d seed ia fc).stock).map strip)).Perm
      (createDeck (canonDiff d) ia) := by
  have hp1 := shuffleJS_perm (createDeck (canonDiff d) ia)
      (hashSeed (canonDiff d ++ ":" ++ seed))
  have hp2 := shuffleJS_perm (shuffleJS (createDeck (canonDiff d) ia)
        (hashSeed (canonDiff d ++ ":" ++ seed))).1
      (shuffleJS (createDeck (canonDiff d) ia)
        (hashSeed (canonDiff d ++ ":" ++ seed))).2
  have hlen2 : (shuffleJS (shuffleJS (createDeck (canonDiff d) ia)
        (hashSeed (canonDiff d ++ ":" ++ seed))).1
      (shuffleJS (createDeck (canonDiff d) ia)
        (hashSeed (canonDiff d ++ ":" ++ seed))).2).1.length ≤ 104 := by
    rw [hp2.length_eq, hp1.length_eq, createDeck_length]
    cases ia <;> norm_num
  have hT : (newGame d seed ia fc).tableau.flatten.map strip =
      ((dealLoop slotOrder ((shuffleJS (shuffleJS (createDeck (canonDiff d) ia)
          (hashSeed (canonDiff d ++ ":" ++ seed))).1
        (shuffleJS (createDeck (canonDiff d) ia)
          (hashSeed (canonDiff d ++ ":" ++ seed))).2).1.drop 50)
        (List.replicate 10 [])).flatten).map strip := by
    rw [newGame_tableau, initialDeal_tableau_eq, List.map_flatten, List.map_flatten,
      List.map_map]
    congr 1
    exact List.map_congr_left (fun col _ => strip_flipLast col)
  have hdeal := dealLoop_flatten_perm slotOrder
    ((shuffleJS (shuffleJS (createDeck (canonDiff d) ia)
        (hashSeed (canonDiff d ++ ":" ++ seed))).1
      (shuffleJS (createDeck (canonDiff d) ia)
        (hashSeed (canonDiff d ++ ":" ++ seed))).2).1.drop 50)
    (List.replicate 10 [])
    (fun c hc => by rw [List.length_replicate]; exact slotOrder_lt c hc)
    (by rw [List.length_drop, slotOrder_length]; omega)
  rw [List.map_append, hT, newGame_stock, initialDeal_stock_eq]
  have hflrep : (List.replicate 10 ([] : List Card)).flatten = [] := by decide
  rw [hflrep, List.nil_append] at hdeal
  refine ((hdeal.map strip).append_right _).trans ?_
  refine (List.perm_append_comm.trans ?_)
  rw [← List.map_append, List.take_append_drop]
  exact ((hp2.map strip).trans (hp1.map strip)).trans
    (by rw [map_strip_of_faceDown _ (createDeck_faceUp _ _)])

theorem perm_of_nodup_of_mem_iff (l1 l2 : List Nat) (h1 : l1.Nodup) (h2 : l2.Nodup)
    (hm : ∀ j, j ∈ l1 ↔ j ∈ l2) : l1.Perm l2 := by
  rw [List.perm_iff_count]
  intro a
  by_cases h : a ∈ l1
  · rw [List.count_eq_one_of_mem h1 h, List.count_eq_one_of_mem h2 ((hm a).mp h)]
  · rw [List.count_eq_zero_of_not_mem h, List.count_eq_zero_of_not_mem
      (fun hc => h ((hm a).mpr hc))]

theorem mem_iff_of_all_mem (l ref : List Nat) (h1 : l.all (fun x => ref.contains x) = true)
    (h2 : ref.all (fun x => l.contains x) = true) : ∀ j, j ∈ l ↔ j ∈ ref := by
  intro j
  constructor
  · intro hj
    simpa using List.all_eq_true.mp h1 j hj
  · intro hj
    simpa using List.all_eq_true.mp h2 j hj

theorem count_all_eq (l : List Nat) (n : Nat) (h : l.all (fun k => l.count k == n) = true) :
    ∀ k ∈ l, l.count k = n := fun k hk => by
  simpa using List.all_eq_true.mp h k hk

theorem count_range12_eq (l : List Nat)
    (h : (List.range 12).all (fun k => l.count (k + 2) == 8) = true) :
    ∀ k, k < 12 → l.count (k + 2) = 8 := fun k hk => by
  simpa using List.all_eq_true.mp h k (List.mem_range.mpr hk)

/-- `verifyInventory` reports a clean inventory on any state whose cards are
(up to face flags) a permutation of a well-formed deck, with empty
foundations, a 50-card stock, `dealsRemaining = 5` and face-up column tops. -/
theorem inv_report_clean (s : GameState) (dk : List Card) (sref : List Nat) (perSuit : Nat)
    (hperm : (((s.tableau.flatten ++ s.stock).map strip)).Perm dk)
    (hfnd : s.foundationsCards = [])
    (hf0 : s.foundations = 0)
    (hdr : s.dealsRemaining = 5)
    (hstock : s.stock.length = 50)
    (htop : ∀ col ∈ s.tableau, ∀ t, col.getLast? = some t → t.faceUp = true)
    (hidn : (dk.map (fun c => c.id)).Nodup)
    (hlen : dk.length = (if s.includeAces then 104 else 96))
    (hsmem : ∀ j, j ∈ dk.map (fun c => c.suit) ↔ j ∈ sref)
    (hsnodup : sref.Nodup)
    (hscount : ∀ k ∈ dk.map (fun c => c.suit), (dk.map (fun c => c.suit)).count k = perSuit)
    (hrank : ∀ k, k < 12 → (dk.map (fun c => c.rank)).count (k + 2) = 8)
    (hrank1 : (dk.map (fun c => c.rank)).count 1 = (if s.includeAces then 8 else 0))
    (hbranch :
      (s.difficulty = "1-suit" ∧ sref.length = 1 ∧
        perSuit = (if s.includeAces then 8 * 13 else 8 * 12)) ∨
      (s.difficulty = "2-suit" ∧ sref.length = 2 ∧
        perSuit = (if s.includeAces then 4 * 13 else 4 * 12)) ∨
      (s.difficulty = "4-suit" ∧ sref.length = 4 ∧
        perSuit = (if s.includeAces then 2 * 13 else 2 * 12))) :
    (verifyInventory s).ok = true ∧ (verifyInventory s).duplicates = [] ∧
      (verifyInventory s).issues = [] := by
  set P := (s.tableau.flatten.map (fun c => (c, 0)) ++ s.stock.map (fun c => (c, 1)) :
    List (Card × Nat)) with hP
  set A := invFold ⟨[], [], 0, 0, 0, 0, [], []⟩ P with hA
  -- projection conversions
  have hPids : P.map (fun p => p.1.id) =
      (s.tableau.flatten ++ s.stock).map (fun c => c.id) := by
    rw [hP, List.map_append, List.map_map, List.map_map]
    have e1 : s.tableau.flatten.map ((fun (p : Card × Nat) => p.1.id) ∘ (fun c => (c, 0))) =
        s.tableau.flatten.map (fun c => c.id) := rfl
    have e2 : s.stock.map ((fun (p : Card × Nat) => p.1.id) ∘ (fun c => (c, 1))) =
        s.stock.map (fun c => c.id) := rfl
    rw [e1, e2, ← List.map_append]
  have hPsuits : P.map (fun p => p.1.suit) =
      (s.tableau.flatten ++ s.stock).map (fun c => c.suit) := by
    rw [hP, List.map_append, List.map_map, List.map_map]
    have e1 : s.tableau.flatten.map ((fun (p : Card × Nat) => p.1.suit) ∘ (fun c => (c, 0))) =
        s.tableau.flatten.map (fun c => c.suit) := rfl
    have e2 : s.stock.map ((fun (p : Card × Nat) => p.1.suit) ∘ (fun c => (c, 1))) =
        s.stock.map (fun c => c.suit) := rfl
    rw [e1, e2, ← List.map_append]
  have hPranks : P.map (fun p => p.1.rank) =
      (s.tableau.flatten ++ s.stock).map (fun c => c.rank) := by
    rw [hP, List.map_append, List.map_map, List.map_map]
    have e1 : s.tableau.flatten.map ((fun (p : Card × Nat) => p.1.rank) ∘ (fun c => (c, 0))) =
        s.tableau.flatten.map (fun c => c.rank) := rfl
    have e2 : s.stock.map ((fun (p : Card × Nat) => p.1.rank) ∘ (fun c => (c, 1))) =
        s.stock.map (fun c => c.rank) := rfl
    rw [e1, e2, ← List.map_append]
  -- permutation transfers
  have hidp : ((s.tableau.flatten ++ s.stock).map (fun c => c.id)).Perm
      (dk.map (fun c => c.id)) := by
    have h := hperm.map (fun c => c.id)
    rw [List.map_map] at h
    have e : (s.tableau.flatten ++ s.stock).map ((fun c => c.id) ∘ strip) =
        (s.tableau.flatten ++ s.stock).map (fun c => c.id) := rfl
    rw [e] at h
    exact h
  have hsuitp : ((s.tableau.flatten ++ s.stock).map (fun c => c.suit)).Perm
      (dk.map (fun c => c.suit)) := by
    have h := hperm.map (fun c => c.suit)
    rw [List.map_map] at h
    have e : (s.tableau.flatten ++ s.stock).map ((fun c => c.suit) ∘ strip) =
        (s.tableau.flatten ++ s.stock).map (fun c => c.suit) := rfl
    rw [e] at h
    exact h
  have hrankp : ((s.tableau.flatten ++ s.stock).map (fun c => c.rank)).Perm
      (dk.map (fun c => c.rank)) := by
    have h := hperm.map (fun c => c.rank)
    rw [List.map_map] at h
    have e : (s.tableau.flatten ++ s.stock).map ((fun c => c.rank) ∘ strip) =
        (s.tableau.flatten ++ s.stock).map (fun c => c.rank) := rfl
    rw [e] at h
    exact h
  -- accumulator field facts
  have hPlen : P.length = dk.length := by
    have h := hperm.length_eq
    rw [List.length_map, List.length_append] at h
    rw [hP, List.length_append, List.length_map, List.length_map]
    omega
  have hAtot : A.total = (if s.includeAces then 104 else 96) := by
    rw [hA, invFold_total]
    show 0 + P.length = _
    rw [hPlen, hlen]
    omega
  have hAdup : A.duplicates = [] := by
    rw [hA]
    refine (invFold_duplicates P ⟨[], [], 0, 0, 0, 0, [], []⟩ rfl ?_).1
    show (([] : List Nat) ++ P.map (fun p => p.1.id)).Nodup
    rw [List.nil_append, hPids]
    exact hidp.nodup_iff.mpr hidn
  have hAs : A.sCount = 50 := by
    rw [hA, invFold_sCount]
    show 0 + P.countP (fun p => p.2 == 1) = 50
    rw [hP, List.countP_append, List.countP_map, List.countP_map]
    dsimp only [Function.comp_def]
    simp only [show ((0 : Nat) == 1) = false from rfl, show ((1 : Nat) == 1) = true from rfl,
      List.countP_false, List.countP_true, Function.const_apply]
    omega
  have hAf : A.fCount = 0 := by
    rw [hA, invFold_fCount]
    show 0 + P.countP (fun p => p.2 == 2) = 0
    rw [hP, List.countP_append, List.countP_map, List.countP_map]
    dsimp only [Function.comp_def]
    simp only [show ((0 : Nat) == 2) = false from rfl, show ((1 : Nat) == 2) = false from rfl,
      List.countP_false, Function.const_apply]
  have hAsuit : ∀ k, lookupCount A.suitCounts k = (dk.map (fun c => c.suit)).count k := by
    intro k
    rw [hA, invFold_suit]
    show 0 + (P.map (fun p => p.1.suit)).count k = _
    rw [hPsuits, hsuitp.count_eq, Nat.zero_add]
  have hArank : ∀ k, lookupCount A.rankCounts k = (dk.map (fun c => c.rank)).count k := by
    intro k
    rw [hA, invFold_rank]
    show 0 + (P.map (fun p => p.1.rank)).count k = _
    rw [hPranks, hrankp.count_eq, Nat.zero_add]
  -- suit keys
  have hkmem : ∀ j, j ∈ A.suitCounts.map Prod.fst ↔ j ∈ sref := by
    intro j
    rw [hA, invFold_suitKeys_mem]
    have h0 : (j ∈ ((⟨[], [], 0, 0, 0, 0, [], []⟩ : InvAcc).suitCounts.map Prod.fst)) ↔ False := by
      constructor
      · intro h; exact absurd h (List.not_mem_nil j)
      · intro h; exact h.elim
    rw [h0, false_or, hPsuits]
    exact hsuitp.mem_iff.trans (hsmem j)
  have hknodup : (A.suitCounts.map Prod.fst).Nodup := by
    rw [hA]
    exact invFold_suitKeys_nodup P ⟨[], [], 0, 0, 0, 0, [], []⟩ List.nodup_nil
  have hkperm : (A.suitCounts.map Prod.fst).Perm sref :=
    perm_of_nodup_of_mem_iff _ _ hknodup hsnodup hkmem
  have hklen : (A.suitCounts.map Prod.fst).length = sref.length := hkperm.length_eq
  have hkeylook : ∀ k ∈ A.suitCounts.map Prod.fst, lookupCount A.suitCounts k = perSuit := by
    intro k hk
    rw [hAsuit k]
    exact hscount k ((hsmem k).mpr ((hkmem k).mp hk))
  -- the report
  have hdups : (verifyInventory s).duplicates = [] := by
    unfold verifyInventory
    dsimp only
    rw [hfnd, List.foldl_nil, tabFold_eq_invFold, foldl_loc_eq_invFold, ← invFold_append,
      ← hP, ← hA]
    exact hAdup
  have hiss : (verifyInventory s).issues = [] := by
    unfold verifyInventory
    dsimp only
    rw [hfnd, List.foldl_nil, tabFold_eq_invFold, foldl_loc_eq_invFold, ← invFold_append,
      ← hP, ← hA]
    have hc1 : ¬(A.total ≠ (if s.includeAces then 104 else 96)) := by
      rw [hAtot]
      exact fun hh => hh rfl
    have hc2 : ¬(0 < A.duplicates.length) := by
      rw [hAdup]
      simp
    have hseg4 : ((List.range 12).filterMap (fun k =>
        if lookupCount A.rankCounts (k + 2) ≠ 8 then some "rank-count" else none)) = [] := by
      rw [List.filterMap_eq_nil_iff]
      intro k hk
      rw [hArank, hrank k (List.mem_range.mp hk), if_neg (by omega)]
    have hc6 : ¬(if s.includeAces then lookupCount A.rankCounts 1 ≠ 8
        else lookupCount A.rankCounts 1 ≠ 0) := by
      rw [hArank, hrank1]
      cases s.includeAces <;> simp
    have hc7 : ¬(s.dealsRemaining ≠ (((A.sCount + 9) / 10 : Nat) : Int)) := by
      rw [hdr, hAs]
      norm_num
    have hc8 : ¬((A.fCount : Int) ≠ s.foundations * (if s.includeAces then (13 : Int) else 12)) := by
      rw [hAf, hf0, zero_mul]
      norm_num
    have hseg8 : (s.tableau.filterMap (fun col =>
        match col.getLast? with
        | some t => if !t.faceUp then some "face-down-top" else none
        | none => none)) = [] := by
      rw [List.filterMap_eq_nil_iff]
      intro col hcol
      cases hl : col.getLast? with
      | none => rfl
      | some t =>
        have hft := htop col hcol t hl
        dsimp only
        rw [hft]
        rfl
    rw [if_neg hc1, if_neg hc2, hseg4, if_neg hc6, if_neg hc7, if_neg hc8, hseg8]
    simp only [List.append_nil, List.nil_append]
    rcases hbranch with ⟨hdiff, hlen1, hps⟩ | ⟨hdiff, hlen1, hps⟩ | ⟨hdiff, hlen1, hps⟩
    · obtain ⟨v, hv⟩ : ∃ v, sref = [v] := by
        cases sref with
        | nil => simp at hlen1
        | cons x r =>
          cases r with
          | nil => exact ⟨x, rfl⟩
          | cons y r2 => simp at hlen1
      have hkeq : A.suitCounts.map Prod.fst = [v] :=
        List.perm_singleton.mp (hv ▸ hkperm)
      have hc4 : ¬((A.suitCounts.map Prod.fst).length ≠ 1) := by
        rw [hklen, hlen1]
        exact fun hh => hh rfl
      have hc5 : ¬(lookupCount A.suitCounts ((A.suitCounts.map Prod.fst).getD 0 0) ≠
          (if s.includeAces then 8 * 13 else 8 * 12)) := by
        rw [hkeq, List.getD_cons_zero,
          hkeylook v (by rw [hkeq]; exact List.mem_singleton_self v), ← hps]
        exact fun hh => hh rfl
      rw [hdiff]
      have hnorm : (if ("1-suit" : String) = "1" then "1-suit"
          else if ("1-suit" : String) = "2" then "2-suit" else "1-suit") = "1-suit" := by decide
      rw [hnorm, if_pos (rfl : ("1-suit" : String) = "1-suit"), if_neg hc4, if_neg hc5]
    · have hc4 : ¬((A.suitCounts.map Prod.fst).length ≠ 2) := by
        rw [hklen, hlen1]
        exact fun hh => hh rfl
      have hall : (A.suitCounts.map Prod.fst).all (fun k =>
          lookupCount A.suitCounts k == (if s.includeAces then 4 * 13 else 4 * 12)) = true :=
        List.all_eq_true.mpr (fun k hk => beq_iff_eq.mpr (by rw [hkeylook k hk, hps]))
      have hc5 : ¬((!((A.suitCounts.map Prod.fst).all (fun k =>
          lookupCount A.suitCounts k == (if s.includeAces then 4 * 13 else 4 * 12)))) = true) := by
        rw [hall]
        decide
      rw [hdiff]
      have hnorm : (if ("2-suit" : String) = "1" then "1-suit"
          else if ("2-suit" : String) = "2" then "2-suit" else "2-suit") = "2-suit" := by decide
      rw [hnorm, if_neg (by decide : ¬("2-suit" : String) = "1-suit"),
        if_pos (rfl : ("2-suit" : String) = "2-suit"), if_neg hc4, if_neg hc5]
    · have hc4 : ¬((A.suitCounts.map Prod.fst).length ≠ 4) := by
        rw [hklen, hlen1]
        exact fun hh => hh rfl
      have hall : (A.suitCounts.map Prod.fst).all (fun k =>
          lookupCount A.suitCounts k == (if s.includeAces then 2 * 13 else 2 * 12)) = true :=
        List.all_eq_true.mpr (fun k hk => beq_iff_eq.mpr (by rw [hkeylook k hk, hps]))
      have hc5 : ¬((!((A.suitCounts.map Prod.fst).all (fun k =>
          lookupCount A.suitCounts k == (if s.includeAces then 2 * 13 else 2 * 12)))) = true) := by
        rw [hall]
        decide
      rw [hdiff]
      have hnorm : (if ("4-suit" : String) = "1" then "1-suit"
          else if ("4-suit" : String) = "2" then "2-suit" else "4-suit") = "4-suit" := by decide
      rw [hnorm, if_neg (by decide : ¬("4-suit" : String) = "1-suit"),
        if_neg (by decide : ¬("4-suit" : String) = "2-suit"), if_neg hc4, if_neg hc5]
  refine ⟨?_, hdups, hiss⟩
  have hok : (verifyInventory s).ok = (verifyInventory s).issues.isEmpty := rfl
  rw [hok, hiss]
  rfl

theorem canonDiff_cases (d : String) :
    canonDiff d = "1-suit" ∨ canonDiff d = "2-suit" ∨ canonDiff d = "4-suit" := by
  unfold canonDiff
  split
  · exact Or.inl rfl
  · split
    · exact Or.inr (Or.inl rfl)
    · exact Or.inr (Or.inr rfl)

/-- **C9** (amended, proved).  Right after `newGame` - any difficulty
string, seed and ace flag, from any prior state whose `foundationsCards` is
empty (as on first load, before any run has been completed) -
`verifyInventory` (the `src/validation.js` version, the one the UI imports)
reports `ok = true` with no duplicate ids and an empty issues list.  The
empty-foundations hypothesis is necessary: `newGame` never clears
`state.foundationsCards`, and stale foundation cards make the check fail
(see the counterexample). -/
theorem C9_verifyInventory_fresh_ok (prior : GameState) (d seed : String) (ia : Bool)
    (hfc : prior.foundationsCards = []) :
    (verifyInventory (newGameFrom prior (some d) seed (some ia))).ok = true ∧
    (verifyInventory (newGameFrom prior (some d) seed (some ia))).duplicates = [] ∧
    (verifyInventory (newGameFrom prior (some d) seed (some ia))).issues = [] := by
  rw [newGameFrom_some]
  rcases canonDiff_cases d with hcd | hcd | hcd <;> cases ia
  · have hp := newGame_strip_perm d seed false prior.foundationsCards
    rw [hcd] at hp
    exact inv_report_clean (newGame d seed false prior.foundationsCards) (createDeck "1-suit" false) [0] (8 * 12)
      hp ((newGame_foundationsCards d seed false prior.foundationsCards).trans hfc)
      (newGame_foundations d seed false prior.foundationsCards)
      (newGame_dealsRemaining d seed false prior.foundationsCards)
      (newGame_stock_length d seed false prior.foundationsCards)
      (newGame_top_faceUp d seed false prior.foundationsCards)
      (by decide)
      (by rw [newGame_includeAces]; decide)
      (mem_iff_of_all_mem _ _ (by decide) (by decide))
      (by decide)
      (count_all_eq _ _ (by decide))
      (count_range12_eq _ (by decide))
      (by rw [newGame_includeAces]; decide)
      (Or.inl ⟨(newGame_difficulty d seed false prior.foundationsCards).trans hcd, by decide,
        by rw [newGame_includeAces]; decide⟩)
  · have hp := newGame_strip_perm d seed true prior.foundationsCards
    rw [hcd] at hp
    exact inv_report_clean (newGame d seed true prior.foundationsCards) (createDeck "1-suit" true) [0] (8 * 13)
      hp ((newGame_foundationsCards d seed true prior.foundationsCards).trans hfc)
      (newGame_foundations d seed true prior.foundationsCards)
      (newGame_dealsRemaining d seed true prior.foundationsCards)
      (newGame_stock_length d seed true prior.foundationsCards)
      (newGame_top_faceUp d seed true prior.foundationsCards)
      (by decide)
      (by rw [newGame_includeAces]; decide)
      (mem_iff_of_all_mem _ _ (by decide) (by decide))
      (by decide)
      (count_all_eq _ _ (by decide))
      (count_range12_eq _ (by decide))
      (by rw [newGame_includeAces]; decide)
      (Or.inl ⟨(newGame_difficulty d seed true prior.foundationsCards).trans hcd, by decide,
        by rw [newGame_includeAces]; decide⟩)
  · have hp := newGame_strip_perm d seed false prior.foundationsCards
    rw [hcd] at hp
    exact inv_report_clean (newGame d seed false prior.foundationsCards) (createDeck "2-suit" false) [0, 1] (4 * 12)
      hp ((newGame_foundationsCards d seed false prior.foundationsCards).trans hfc)
      (newGame_foundations d seed false prior.foundationsCards)
      (newGame_dealsRemaining d seed false prior.foundationsCards)
      (newGame_stock_length d seed false prior.foundationsCards)
      (newGame_top_faceUp d seed false prior.foundationsCards)
      (by decide)
      (by rw [newGame_includeAces]; decide)
      (mem_iff_of_all_mem _ _ (by decide) (by decide))
      (by decide)
      (count_all_eq _ _ (by decide))
      (count_range12_eq _ (by decide))
      (by rw [newGame_includeAces]; decide)
      (Or.inr (Or.inl ⟨(newGame_difficulty d seed false prior.foundationsCards).trans hcd, by decide,
        by rw [newGame_includeAces]; decide⟩))
  · have hp := newGame_strip_perm d seed true prior.foundationsCards
    rw [hcd] at hp
    exact inv_report_clean (newGame d seed true prior.foundationsCards) (createDeck "2-suit" true) [0, 1] (4 * 13)
      hp ((newGame_foundationsCards d seed true prior.foundationsCards).trans hfc)
      (newGame_foundations d seed true prior.foundationsCards)
      (newGame_dealsRemaining d seed true prior.foundationsCards)
      (newGame_stock_length d seed true prior.foundationsCards)
      (newGame_top_faceUp d seed true prior.foundationsCards)
      (by decide)
      (by rw [newGame_includeAces]; decide)
      (mem_iff_of_all_mem _ _ (by decide) (by decide))
      (by decide)
      (count_all_eq _ _ (by decide))
      (count_range12_eq _ (by decide))
      (by rw [newGame_includeAces]; decide)
      (Or.inr (Or.inl ⟨(newGame_difficulty d seed true prior.foundationsCards).trans hcd, by decide,
        by rw [newGame_includeAces]; decide⟩))
  · have hp := newGame_strip_perm d seed false prior.foundationsCards
    rw [hcd] at hp
    exact inv_report_clean (newGame d seed false prior.foundationsCards) (createDeck "4-suit" false) [0, 1, 2, 3] (2 * 12)
      hp ((newGame_foundationsCards d seed false prior.foundationsCards).trans hfc)
      (newGame_foundations d seed false prior.foundationsCards)
      (newGame_dealsRemaining d seed false prior.foundationsCards)
      (newGame_stock_length d seed false prior.foundationsCards)
      (newGame_top_faceUp d seed false prior.foundationsCards)
      (by decide)
      (by rw [newGame_includeAces]; decide)
      (mem_iff_of_all_mem _ _ (by decide) (by decide))
      (by decide)
      (count_all_eq _ _ (by decide))
      (count_range12_eq _ (by decide))
      (by rw [newGame_includeAces]; decide)
      (Or.inr (Or.inr ⟨(newGame_difficulty d seed false prior.foundationsCards).trans hcd, by decide,
        by rw [newGame_includeAces]; decide⟩))
  · have hp := newGame_strip_perm d seed true prior.foundationsCards
    rw [hcd] at hp
    exact inv_report_clean (newGame d seed true prior.foundationsCards) (createDeck "4-suit" true) [0, 1, 2, 3] (2 * 13)
      hp ((newGame_foundationsCards d seed true prior.foundationsCards).trans hfc)
      (newGame_foundations d seed true prior.foundationsCards)
      (newGame_dealsRemaining d seed true prior.foundationsCards)
      (newGame_stock_length d seed true prior.foundationsCards)
      (newGame_top_faceUp d seed true prior.foundationsCards)
      (by decide)
      (by rw [newGame_includeAces]; decide)
      (mem_iff_of_all_mem _ _ (by decide) (by decide))
      (by decide)
      (count_all_eq _ _ (by decide))
      (count_range12_eq _ (by decide))
      (by rw [newGame_includeAces]; decide)
      (Or.inr (Or.inr ⟨(newGame_difficulty d seed true prior.foundationsCards).trans hcd, by decide,
        by rw [newGame_includeAces]; decide⟩))



/-- **C9** (counterexample).  `verifyInventory` does *not* return `ok = true`
after every `newGame`: starting from a prior state holding one stale
foundation card, the new game inherits it (`newGame` never clears
`state.foundationsCards`), so the inventory totals 97 cards instead of 96
and the stale card's id collides with a fresh deck card - the report has
`ok = false` with a non-empty duplicate list. -/
theorem C9_cex_stale_foundations :
    (verifyInventory (newGameFrom stalePrior (some "1-suit") "s2" (some false))).ok =
      false ∧
    (verifyInventory (newGameFrom stalePrior (some "1-suit") "s2" (some false))).duplicates
      ≠ [] := by decide

/-- Witness for C9: the amended theorem applied at the pristine prior state
(`foundationsCards = []` holds by `rfl`) with a concrete difficulty, seed and
ace flag. -/
theorem C9_witness :
    initState.foundationsCards = [] ∧
    (verifyInventory (newGameFrom initState (some "2-suit") "w9" (some true))).ok = true ∧
    (verifyInventory (newGameFrom initState (some "2-suit") "w9" (some true))).duplicates
      = [] ∧
    (verifyInventory (newGameFrom initState (some "2-suit") "w9" (some true))).issues = [] :=
  ⟨rfl, (C9_verifyInventory_fresh_ok initState "2-suit" "w9" true rfl).1,
   (C9_verifyInventory_fresh_ok initState "2-suit" "w9" true rfl).2.1,
   (C9_verifyInventory_fresh_ok initState "2-suit" "w9" true rfl).2.2⟩

end Spider
